import Mathlib

/-!
Verification of the deep-hole-centered D4 codebook
(`lib/codebook/deprecated/latticed4_274bit.py`).

The codebook works on batches of length-4 vectors.  Tensors of shape `(*, 4)`
are modelled row-wise: a row is a quadruple of rationals (the float arithmetic
performed by the source on these values — sums, products, comparisons of
half-integers and small integers — is exact, so ℚ is a faithful carrier), and
a batch is a list of rows.  Integer tensors are lists of `ℤ` (or `ℕ` for the
always-non-negative row indices of `idx_map`).
-/

namespace QuipD4

/-- One row of a `(*, 4)` float tensor: a length-4 vector of rationals. -/
abbrev V4 := ℚ × ℚ × ℚ × ℚ

/-- Componentwise sum, `v.sum(dim=-1)`. -/
def vsum (v : V4) : ℚ := v.1 + v.2.1 + v.2.2.1 + v.2.2.2

/-- Dot product of two rows (one entry of `X @ grid.T`). -/
def dot (u v : V4) : ℚ := u.1 * v.1 + u.2.1 * v.2.1 + u.2.2.1 * v.2.2.1 + u.2.2.2 * v.2.2.2

/-- Squared Euclidean norm, `v.norm(dim=-1)**2` (exact on rational rows). -/
def sqnorm (v : V4) : ℚ := v.1 * v.1 + v.2.1 * v.2.1 + v.2.2.1 * v.2.2.1 + v.2.2.2 * v.2.2.2

/-- Componentwise (Hadamard) product of two rows. -/
def vmul (u v : V4) : V4 := (u.1 * v.1, u.2.1 * v.2.1, u.2.2.1 * v.2.2.1, u.2.2.2 * v.2.2.2)

/-- Componentwise difference of two rows. -/
def vsub (u v : V4) : V4 := (u.1 - v.1, u.2.1 - v.2.1, u.2.2.1 - v.2.2.1, u.2.2.2 - v.2.2.2)

/-- Squared Euclidean distance between two rows. -/
def dist2 (u v : V4) : ℚ := sqnorm (vsub u v)

/-- The half-integer range `torch.arange(-14, 14) + 1/2`, i.e. −13.5, −12.5, …, 13.5. -/
def hintr : List ℚ := (List.range 28).map (fun (i : ℕ) => (i : ℚ) - 14 + 1/2)

/-- `torch.cartesian_prod(l, l, l, l)`: all quadruples, first factor varying slowest
(the row order of the resulting `(len l)^4 × 4` tensor). -/
def cartesianProd4 (l : List ℚ) : List V4 :=
  l.flatMap fun a => l.flatMap fun b => l.flatMap fun c => l.map fun d => (a, b, c, d)

/-- The parity test `gd4.sum(dim=-1) % 2 == 0`: float `% 2 == 0` holds exactly when
the sum is an even integer (as ℚ: integer, i.e. denominator 1, with even numerator). -/
def evenSum (v : V4) : Bool := (vsum v).den == 1 && (vsum v).num % 2 == 0

/-- The selection predicate of the grid builder: even component sum (`gd4m2`) and
squared norm at most 27 (`gd4n`). -/
def gridPred (g : V4) : Bool := evenSum g && decide (sqnorm g ≤ 27)

/-- The grid builder `get_grid`: filter the 4-fold Cartesian product of `hintr` by
even component sum and squared norm at most 27, keeping generation order. -/
def get_grid : List V4 := (cartesianProd4 hintr).filter gridPred

/-- `_D4274B_NORM_CACHED = torch.diag(grid @ grid.T)`: the i-th diagonal entry of
`G Gᵀ` is the dot product of row i with itself. -/
def grid_norm : List ℚ := get_grid.map fun g => dot g g

/-- `self.idx_offset = -2**15`. -/
def idx_offset : ℤ := -2 ^ 15

/-- The truncated-grid selection predicate from `__init__`:
`((grid[:, 1:] < 0).sum(dim=-1) <= 1) * (grid[:, 1:].min(dim=-1).values >= -0.5)`,
i.e. among components 1..3, at most one is negative and the least is ≥ −1/2. -/
def partPred (g : V4) : Bool :=
  ((if g.2.1 < 0 then 1 else 0) + (if g.2.2.1 < 0 then 1 else 0) +
      (if g.2.2.2 < 0 then 1 else 0) ≤ (1 : ℕ))
    && decide (-(1/2 : ℚ) ≤ min g.2.1 (min g.2.2.1 g.2.2.2))

/-- `grid_part = grid[idxs]` where `idxs` selects rows satisfying `partPred`
(in grid order, as `torch.where` returns ascending indices). -/
def grid_part : List V4 := get_grid.filter partPred

/-- `grid_part_norm = torch.diag(grid_part @ grid_part.T)`. -/
def grid_part_norm : List ℚ := grid_part.map fun g => dot g g

/-- `self.int_map = 2**torch.arange(4)` (also `bmask` in `iterate_mask`). -/
def int_map : List ℤ := (List.range 4).map fun i => (2 : ℤ) ^ i

/-- Float-to-int truncation `.int()` (toward zero); exact on the integral rationals
it is applied to here. -/
def qtrunc (q : ℚ) : ℤ := q.num / (q.den : ℤ)

/-- `to_int(mask) = (int_map * mask.int()).sum(dim=-1)` for a 0/1-valued row. -/
def to_int (m : V4) : ℤ :=
  1 * qtrunc m.1 + 2 * qtrunc m.2.1 + 4 * qtrunc m.2.2.1 + 8 * qtrunc m.2.2.2

/-- Bit `j` of `i` as produced by `(torch.tensor([i]) & bmask) > 0`. -/
def bit (i j : ℕ) : Bool := i &&& 2 ^ j != 0

/-- Row `i` of the flip table before sign conversion: the 0/1 bit vector of `i`. -/
def bitVec4 (i : ℕ) : ℕ × ℕ × ℕ × ℕ :=
  ((bit i 0).toNat, (bit i 1).toNat, (bit i 2).toNat, (bit i 3).toNat)

/-- `flips.sum(dim=-1)` for the 0/1 bit row of `i`. -/
def bitSum (i : ℕ) : ℕ :=
  (bit i 0).toNat + (bit i 1).toNat + (bit i 2).toNat + (bit i 3).toNat

/-- `raw_idx = torch.where(flips.sum(dim=-1) % 2 == 0)[0]`: the 4-bit patterns with
an even number of set bits, ascending. -/
def raw_idx : List ℕ := (List.range 16).filter fun i => bitSum i % 2 == 0

/-- Sign row `1 - 2 * flips[i]`: +1 where bit clear, −1 where bit set. -/
def flipVec (i : ℕ) : V4 :=
  (1 - 2 * ((bit i 0).toNat : ℚ), 1 - 2 * ((bit i 1).toNat : ℚ),
   1 - 2 * ((bit i 2).toNat : ℚ), 1 - 2 * ((bit i 3).toNat : ℚ))

/-- `flips = 1 - 2 * flips[raw_idx]`: the 8 valid sign-flip rows. -/
def flips : List V4 := raw_idx.map flipVec

/-- The `idx_map` loop: start from 16 zeros and set `idx_map[raw_idx[i]] = i`
for each row `i` (int32 row indices, all in 0..7, modelled as ℕ). -/
def idx_map : List ℕ :=
  (List.range raw_idx.length).foldl (fun m r => m.set (raw_idx.getD r 0) r)
    (List.replicate 16 0)

/-- First-occurrence `argmax` over a list of scores (torch's `argmax` returns the
index of the first maximal entry; the empty case, which torch rejects, yields 0). -/
def argmaxAux : List ℚ → ℚ → ℕ → ℕ → ℕ
  | [], _, bi, _ => bi
  | s :: rest, best, bi, i =>
      if best < s then argmaxAux rest s i (i + 1) else argmaxAux rest best bi (i + 1)

/-- Index of the first maximal entry of a list of scores. -/
def argmax : List ℚ → ℕ
  | [] => 0
  | s :: rest => argmaxAux rest s 0 1

/-- The score row `2 * X @ grid.T - grid_norm` for one input row `x`. -/
def roundScores (x : V4) (grid : List V4) (gridNorm : List ℚ) : List ℚ :=
  (grid.zip gridNorm).map fun gn => 2 * dot x gn.1 - gn.2

/-- `Xqidx = (2 * X @ grid.T - grid_norm).argmax(-1)` for one input row. -/
def roundIdx (x : V4) (grid : List V4) (gridNorm : List ℚ) : ℕ :=
  argmax (roundScores x grid gridNorm)

/-- `round` returns `(grid[Xqidx], Xqidx)`; the vector part for one input row. -/
def roundVec (x : V4) (grid : List V4) (gridNorm : List ℚ) : V4 :=
  grid.getD (roundIdx x grid gridNorm) (0, 0, 0, 0)

/-- Cast of an integer to `torch.int16` (two's-complement wrap-around). -/
def toInt16 (n : ℤ) : ℤ := (n + 2 ^ 15) % 2 ^ 16 - 2 ^ 15

/-- `iterate_mask`'s combination table `allcombo_idx`: for every flip row and every
truncated-grid point, the full-grid `round` index of the flipped point, plus
`idx_offset`, stored as int16. -/
def allcombo_idx : List (List ℤ) :=
  flips.map fun f =>
    grid_part.map fun g => toInt16 (roundIdx (vmul f g) get_grid grid_norm + idx_offset)

/-- Number of strictly negative components, `(X < 0).sum(dim=-1)` for one row. -/
def negCount (x : V4) : ℕ :=
  (if x.1 < 0 then 1 else 0) + (if x.2.1 < 0 then 1 else 0) +
    (if x.2.2.1 < 0 then 1 else 0) + (if x.2.2.2 < 0 then 1 else 0)

/-- Membership of a row in `X_odd = torch.where((X < 0).sum(dim=-1) % 2 != 0)[0]`. -/
def oddNeg (x : V4) : Bool := negCount x % 2 != 0

/-- `X_part`: absolute values, with the first component negated on odd-parity rows. -/
def xpartOf (x : V4) : V4 :=
  ((if oddNeg x then -|x.1| else |x.1|), |x.2.1|, |x.2.2.1|, |x.2.2.2|)

/-- The sign mask `1 - 2 * (X < 0)`, with the first component negated on
odd-parity rows. -/
def maskOf (x : V4) : V4 :=
  ((if oddNeg x then -(1 - 2 * (if x.1 < 0 then (1 : ℚ) else 0))
      else 1 - 2 * (if x.1 < 0 then (1 : ℚ) else 0)),
   1 - 2 * (if x.2.1 < 0 then (1 : ℚ) else 0),
   1 - 2 * (if x.2.2.1 < 0 then (1 : ℚ) else 0),
   1 - 2 * (if x.2.2.2 < 0 then (1 : ℚ) else 0))

/-- Half of `1 - mask`, the 0/1 row passed to `to_int` by `quantize`. -/
def maskBitsRow (m : V4) : V4 :=
  ((1 - m.1) / 2, (1 - m.2.1) / 2, (1 - m.2.2.1) / 2, (1 - m.2.2.2) / 2)

/-- `quantize` for one row of the batch, with `return_idx=True`: the reconstructed
vector `roundout * mask` and the code `allcombo_idx[idx_map[to_int((1-mask)/2)], Xqidx]`. -/
def quantize1 (x : V4) : V4 × ℤ :=
  let mask := maskOf x
  let t := roundIdx (xpartOf x) grid_part grid_part_norm
  let val := vmul (grid_part.getD t (0, 0, 0, 0)) mask
  let row := (idx_map.getD (to_int (maskBitsRow mask)).toNat 0)
  (val, (allcombo_idx.getD row []).getD t 0)

/-- `quantize` over a batch (each row is processed independently): the pair of the
reconstructed-vector rows and the code rows. -/
def quantize (X : List V4) : List V4 × List ℤ :=
  (X.map fun x => (quantize1 x).1, X.map fun x => (quantize1 x).2)

/-- Indexing a length-`n` tensor by an integer index: valid for `-n ≤ i < n`
(negative values are end-relative), an indexing error otherwise. -/
def torchIndex (l : List V4) (i : ℤ) : Option V4 :=
  if 0 ≤ i ∧ i < l.length then some (l.getD i.toNat (0, 0, 0, 0))
  else if -(l.length : ℤ) ≤ i ∧ i < 0 then some (l.getD (i + l.length).toNat (0, 0, 0, 0))
  else none

/-- `by_idxs` for one code: `grid[idxs.int() - idx_offset]` (the `.int()` widening
cast is exact). -/
def by_idxs1 (c : ℤ) : Option V4 := torchIndex get_grid (c - idx_offset)

/-- `by_idxs` over a batch of codes; any out-of-range code is an indexing error
for the whole lookup. -/
def by_idxs (cs : List ℤ) : Option (List V4) := cs.mapM by_idxs1

/-! ### The specification-side nearest-neighbour search (first-occurrence argmin) -/

/-- Modelled from the spec (C6): first-occurrence scan for the minimum. -/
def argminAux : List ℚ → ℚ → ℕ → ℕ → ℕ
  | [], _, bi, _ => bi
  | s :: rest, best, bi, i =>
      if s < best then argminAux rest s i (i + 1) else argminAux rest best bi (i + 1)

/-- Modelled from the spec (C6): index of the first minimal entry of a list. -/
def argminFirst : List ℚ → ℕ
  | [] => 0
  | s :: rest => argminAux rest s 0 1

/-- Modelled from the spec (C6): the index of the grid point minimizing the squared
Euclidean distance to `x`, ties broken by first occurrence in canonical grid order. -/
def specNearestIdx (x : V4) (L : List V4) : ℕ := argminFirst (L.map fun g => dist2 x g)

/-! ### Pushing a per-coordinate filter through the Cartesian product

The norm bound 27 forces every coordinate of a kept point into the ten
half-integers −9/2 … 9/2, so the 28⁴-element product can be replaced, by proof,
with the 10⁴-element product over that subrange before any evaluation. -/

/-- Cartesian product with an independent list per factor (proof device; the
builder's product is the diagonal `cp4g l l l l`). -/
def cp4g (l1 l2 l3 l4 : List ℚ) : List V4 :=
  l1.flatMap fun a => l2.flatMap fun b => l3.flatMap fun c => l4.map fun d => (a, b, c, d)

/-! ### Shrinking the candidate range -/

/-- Feasibility of a single coordinate under the norm bound. -/
def inS (q : ℚ) : Bool := decide (q * q ≤ 27)

/-- The ten half-integers with square at most 27: −9/2 … 9/2. -/
def hintrSL : List ℚ :=
  [mkRat (-9) 2, mkRat (-7) 2, mkRat (-5) 2, mkRat (-3) 2, mkRat (-1) 2,
   mkRat 1 2, mkRat 3 2, mkRat 5 2, mkRat 7 2, mkRat 9 2]

/-- One first-coordinate block of the shrunken candidate product. -/
def block3S (a : ℚ) : List V4 :=
  hintrSL.flatMap fun b => hintrSL.flatMap fun c => hintrSL.map fun d => (a, b, c, d)

/-! ### The grid, slice by slice -/

/-- Half-integer vector literal: `hv a b c d` denotes `(a/2, b/2, c/2, d/2)`. -/
def hv (a b c d : ℤ) : V4 := (mkRat a 2, mkRat b 2, mkRat c 2, mkRat d 2)

def sliceL0 : List V4 :=
  [hv (-9) (-5) (-1) (-1), hv (-9) (-5) 1 1, hv (-9) (-3) (-3) (-1), hv (-9) (-3) (-3) 3,
   hv (-9) (-3) (-1) (-3), hv (-9) (-3) (-1) 1, hv (-9) (-3) 1 (-1), hv (-9) (-3) 1 3,
   hv (-9) (-3) 3 (-3), hv (-9) (-3) 3 1, hv (-9) (-1) (-5) (-1), hv (-9) (-1) (-3) (-3),
   hv (-9) (-1) (-3) 1, hv (-9) (-1) (-1) (-5), hv (-9) (-1) (-1) (-1), hv (-9) (-1) (-1) 3,
   hv (-9) (-1) 1 (-3), hv (-9) (-1) 1 1, hv (-9) (-1) 1 5, hv (-9) (-1) 3 (-1),
   hv (-9) (-1) 3 3, hv (-9) (-1) 5 1, hv (-9) 1 (-5) 1, hv (-9) 1 (-3) (-1),
   hv (-9) 1 (-3) 3, hv (-9) 1 (-1) (-3), hv (-9) 1 (-1) 1, hv (-9) 1 (-1) 5,
   hv (-9) 1 1 (-5), hv (-9) 1 1 (-1), hv (-9) 1 1 3, hv (-9) 1 3 (-3),
   hv (-9) 1 3 1, hv (-9) 1 5 (-1), hv (-9) 3 (-3) (-3), hv (-9) 3 (-3) 1,
   hv (-9) 3 (-1) (-1), hv (-9) 3 (-1) 3, hv (-9) 3 1 (-3), hv (-9) 3 1 1,
   hv (-9) 3 3 (-1), hv (-9) 3 3 3, hv (-9) 5 (-1) 1, hv (-9) 5 1 (-1)]

def sliceL1 : List V4 :=
  [hv (-7) (-7) (-3) 1, hv (-7) (-7) (-1) (-1), hv (-7) (-7) (-1) 3, hv (-7) (-7) 1 (-3),
   hv (-7) (-7) 1 1, hv (-7) (-7) 3 (-1), hv (-7) (-5) (-5) (-3), hv (-7) (-5) (-5) 1,
   hv (-7) (-5) (-3) (-5), hv (-7) (-5) (-3) (-1), hv (-7) (-5) (-3) 3, hv (-7) (-5) (-1) (-3),
   hv (-7) (-5) (-1) 1, hv (-7) (-5) (-1) 5, hv (-7) (-5) 1 (-5), hv (-7) (-5) 1 (-1),
   hv (-7) (-5) 1 3, hv (-7) (-5) 3 (-3), hv (-7) (-5) 3 1, hv (-7) (-5) 3 5,
   hv (-7) (-5) 5 (-1), hv (-7) (-5) 5 3, hv (-7) (-3) (-7) 1, hv (-7) (-3) (-5) (-5),
   hv (-7) (-3) (-5) (-1), hv (-7) (-3) (-5) 3, hv (-7) (-3) (-3) (-3), hv (-7) (-3) (-3) 1,
   hv (-7) (-3) (-3) 5, hv (-7) (-3) (-1) (-5), hv (-7) (-3) (-1) (-1), hv (-7) (-3) (-1) 3,
   hv (-7) (-3) (-1) 7, hv (-7) (-3) 1 (-7), hv (-7) (-3) 1 (-3), hv (-7) (-3) 1 1,
   hv (-7) (-3) 1 5, hv (-7) (-3) 3 (-5), hv (-7) (-3) 3 (-1), hv (-7) (-3) 3 3,
   hv (-7) (-3) 5 (-3), hv (-7) (-3) 5 1, hv (-7) (-3) 5 5, hv (-7) (-3) 7 (-1),
   hv (-7) (-1) (-7) (-1), hv (-7) (-1) (-7) 3, hv (-7) (-1) (-5) (-3), hv (-7) (-1) (-5) 1,
   hv (-7) (-1) (-5) 5, hv (-7) (-1) (-3) (-5), hv (-7) (-1) (-3) (-1), hv (-7) (-1) (-3) 3,
   hv (-7) (-1) (-3) 7, hv (-7) (-1) (-1) (-7), hv (-7) (-1) (-1) (-3), hv (-7) (-1) (-1) 1,
   hv (-7) (-1) (-1) 5, hv (-7) (-1) 1 (-5), hv (-7) (-1) 1 (-1), hv (-7) (-1) 1 3,
   hv (-7) (-1) 1 7, hv (-7) (-1) 3 (-7), hv (-7) (-1) 3 (-3), hv (-7) (-1) 3 1,
   hv (-7) (-1) 3 5, hv (-7) (-1) 5 (-5), hv (-7) (-1) 5 (-1), hv (-7) (-1) 5 3,
   hv (-7) (-1) 7 (-3), hv (-7) (-1) 7 1, hv (-7) 1 (-7) (-3), hv (-7) 1 (-7) 1,
   hv (-7) 1 (-5) (-5), hv (-7) 1 (-5) (-1), hv (-7) 1 (-5) 3, hv (-7) 1 (-3) (-7),
   hv (-7) 1 (-3) (-3), hv (-7) 1 (-3) 1, hv (-7) 1 (-3) 5, hv (-7) 1 (-1) (-5),
   hv (-7) 1 (-1) (-1), hv (-7) 1 (-1) 3, hv (-7) 1 (-1) 7, hv (-7) 1 1 (-7),
   hv (-7) 1 1 (-3), hv (-7) 1 1 1, hv (-7) 1 1 5, hv (-7) 1 3 (-5),
   hv (-7) 1 3 (-1), hv (-7) 1 3 3, hv (-7) 1 3 7, hv (-7) 1 5 (-3),
   hv (-7) 1 5 1, hv (-7) 1 5 5, hv (-7) 1 7 (-1), hv (-7) 1 7 3,
   hv (-7) 3 (-7) (-1), hv (-7) 3 (-5) (-3), hv (-7) 3 (-5) 1, hv (-7) 3 (-5) 5,
   hv (-7) 3 (-3) (-5), hv (-7) 3 (-3) (-1), hv (-7) 3 (-3) 3, hv (-7) 3 (-1) (-7),
   hv (-7) 3 (-1) (-3), hv (-7) 3 (-1) 1, hv (-7) 3 (-1) 5, hv (-7) 3 1 (-5),
   hv (-7) 3 1 (-1), hv (-7) 3 1 3, hv (-7) 3 1 7, hv (-7) 3 3 (-3),
   hv (-7) 3 3 1, hv (-7) 3 3 5, hv (-7) 3 5 (-5), hv (-7) 3 5 (-1),
   hv (-7) 3 5 3, hv (-7) 3 7 1, hv (-7) 5 (-5) (-1), hv (-7) 5 (-5) 3,
   hv (-7) 5 (-3) (-3), hv (-7) 5 (-3) 1, hv (-7) 5 (-3) 5, hv (-7) 5 (-1) (-5),
   hv (-7) 5 (-1) (-1), hv (-7) 5 (-1) 3, hv (-7) 5 1 (-3), hv (-7) 5 1 1,
   hv (-7) 5 1 5, hv (-7) 5 3 (-5), hv (-7) 5 3 (-1), hv (-7) 5 3 3,
   hv (-7) 5 5 (-3), hv (-7) 5 5 1, hv (-7) 7 (-3) (-1), hv (-7) 7 (-1) (-3),
   hv (-7) 7 (-1) 1, hv (-7) 7 1 (-1), hv (-7) 7 1 3, hv (-7) 7 3 1]

def sliceL2 : List V4 :=
  [hv (-5) (-9) (-1) (-1), hv (-5) (-9) 1 1, hv (-5) (-7) (-5) (-3), hv (-5) (-7) (-5) 1,
   hv (-5) (-7) (-3) (-5), hv (-5) (-7) (-3) (-1), hv (-5) (-7) (-3) 3, hv (-5) (-7) (-1) (-3),
   hv (-5) (-7) (-1) 1, hv (-5) (-7) (-1) 5, hv (-5) (-7) 1 (-5), hv (-5) (-7) 1 (-1),
   hv (-5) (-7) 1 3, hv (-5) (-7) 3 (-3), hv (-5) (-7) 3 1, hv (-5) (-7) 3 5,
   hv (-5) (-7) 5 (-1), hv (-5) (-7) 5 3, hv (-5) (-5) (-7) (-3), hv (-5) (-5) (-7) 1,
   hv (-5) (-5) (-5) (-5), hv (-5) (-5) (-5) (-1), hv (-5) (-5) (-5) 3, hv (-5) (-5) (-3) (-7),
   hv (-5) (-5) (-3) (-3), hv (-5) (-5) (-3) 1, hv (-5) (-5) (-3) 5, hv (-5) (-5) (-1) (-5),
   hv (-5) (-5) (-1) (-1), hv (-5) (-5) (-1) 3, hv (-5) (-5) (-1) 7, hv (-5) (-5) 1 (-7),
   hv (-5) (-5) 1 (-3), hv (-5) (-5) 1 1, hv (-5) (-5) 1 5, hv (-5) (-5) 3 (-5),
   hv (-5) (-5) 3 (-1), hv (-5) (-5) 3 3, hv (-5) (-5) 3 7, hv (-5) (-5) 5 (-3),
   hv (-5) (-5) 5 1, hv (-5) (-5) 5 5, hv (-5) (-5) 7 (-1), hv (-5) (-5) 7 3,
   hv (-5) (-3) (-7) (-5), hv (-5) (-3) (-7) (-1), hv (-5) (-3) (-7) 3, hv (-5) (-3) (-5) (-7),
   hv (-5) (-3) (-5) (-3), hv (-5) (-3) (-5) 1, hv (-5) (-3) (-5) 5, hv (-5) (-3) (-3) (-5),
   hv (-5) (-3) (-3) (-1), hv (-5) (-3) (-3) 3, hv (-5) (-3) (-3) 7, hv (-5) (-3) (-1) (-7),
   hv (-5) (-3) (-1) (-3), hv (-5) (-3) (-1) 1, hv (-5) (-3) (-1) 5, hv (-5) (-3) 1 (-5),
   hv (-5) (-3) 1 (-1), hv (-5) (-3) 1 3, hv (-5) (-3) 1 7, hv (-5) (-3) 3 (-7),
   hv (-5) (-3) 3 (-3), hv (-5) (-3) 3 1, hv (-5) (-3) 3 5, hv (-5) (-3) 5 (-5),
   hv (-5) (-3) 5 (-1), hv (-5) (-3) 5 3, hv (-5) (-3) 5 7, hv (-5) (-3) 7 (-3),
   hv (-5) (-3) 7 1, hv (-5) (-3) 7 5, hv (-5) (-1) (-9) (-1), hv (-5) (-1) (-7) (-3),
   hv (-5) (-1) (-7) 1, hv (-5) (-1) (-7) 5, hv (-5) (-1) (-5) (-5), hv (-5) (-1) (-5) (-1),
   hv (-5) (-1) (-5) 3, hv (-5) (-1) (-5) 7, hv (-5) (-1) (-3) (-7), hv (-5) (-1) (-3) (-3),
   hv (-5) (-1) (-3) 1, hv (-5) (-1) (-3) 5, hv (-5) (-1) (-1) (-9), hv (-5) (-1) (-1) (-5),
   hv (-5) (-1) (-1) (-1), hv (-5) (-1) (-1) 3, hv (-5) (-1) (-1) 7, hv (-5) (-1) 1 (-7),
   hv (-5) (-1) 1 (-3), hv (-5) (-1) 1 1, hv (-5) (-1) 1 5, hv (-5) (-1) 1 9,
   hv (-5) (-1) 3 (-5), hv (-5) (-1) 3 (-1), hv (-5) (-1) 3 3, hv (-5) (-1) 3 7,
   hv (-5) (-1) 5 (-7), hv (-5) (-1) 5 (-3), hv (-5) (-1) 5 1, hv (-5) (-1) 5 5,
   hv (-5) (-1) 7 (-5), hv (-5) (-1) 7 (-1), hv (-5) (-1) 7 3, hv (-5) (-1) 9 1,
   hv (-5) 1 (-9) 1, hv (-5) 1 (-7) (-5), hv (-5) 1 (-7) (-1), hv (-5) 1 (-7) 3,
   hv (-5) 1 (-5) (-7), hv (-5) 1 (-5) (-3), hv (-5) 1 (-5) 1, hv (-5) 1 (-5) 5,
   hv (-5) 1 (-3) (-5), hv (-5) 1 (-3) (-1), hv (-5) 1 (-3) 3, hv (-5) 1 (-3) 7,
   hv (-5) 1 (-1) (-7), hv (-5) 1 (-1) (-3), hv (-5) 1 (-1) 1, hv (-5) 1 (-1) 5,
   hv (-5) 1 (-1) 9, hv (-5) 1 1 (-9), hv (-5) 1 1 (-5), hv (-5) 1 1 (-1),
   hv (-5) 1 1 3, hv (-5) 1 1 7, hv (-5) 1 3 (-7), hv (-5) 1 3 (-3),
   hv (-5) 1 3 1, hv (-5) 1 3 5, hv (-5) 1 5 (-5), hv (-5) 1 5 (-1),
   hv (-5) 1 5 3, hv (-5) 1 5 7, hv (-5) 1 7 (-3), hv (-5) 1 7 1,
   hv (-5) 1 7 5, hv (-5) 1 9 (-1), hv (-5) 3 (-7) (-3), hv (-5) 3 (-7) 1,
   hv (-5) 3 (-7) 5, hv (-5) 3 (-5) (-5), hv (-5) 3 (-5) (-1), hv (-5) 3 (-5) 3,
   hv (-5) 3 (-5) 7, hv (-5) 3 (-3) (-7), hv (-5) 3 (-3) (-3), hv (-5) 3 (-3) 1,
   hv (-5) 3 (-3) 5, hv (-5) 3 (-1) (-5), hv (-5) 3 (-1) (-1), hv (-5) 3 (-1) 3,
   hv (-5) 3 (-1) 7, hv (-5) 3 1 (-7), hv (-5) 3 1 (-3), hv (-5) 3 1 1,
   hv (-5) 3 1 5, hv (-5) 3 3 (-5), hv (-5) 3 3 (-1), hv (-5) 3 3 3,
   hv (-5) 3 3 7, hv (-5) 3 5 (-7), hv (-5) 3 5 (-3), hv (-5) 3 5 1,
   hv (-5) 3 5 5, hv (-5) 3 7 (-5), hv (-5) 3 7 (-1), hv (-5) 3 7 3,
   hv (-5) 5 (-7) (-1), hv (-5) 5 (-7) 3, hv (-5) 5 (-5) (-3), hv (-5) 5 (-5) 1,
   hv (-5) 5 (-5) 5, hv (-5) 5 (-3) (-5), hv (-5) 5 (-3) (-1), hv (-5) 5 (-3) 3,
   hv (-5) 5 (-3) 7, hv (-5) 5 (-1) (-7), hv (-5) 5 (-1) (-3), hv (-5) 5 (-1) 1,
   hv (-5) 5 (-1) 5, hv (-5) 5 1 (-5), hv (-5) 5 1 (-1), hv (-5) 5 1 3,
   hv (-5) 5 1 7, hv (-5) 5 3 (-7), hv (-5) 5 3 (-3), hv (-5) 5 3 1,
   hv (-5) 5 3 5, hv (-5) 5 5 (-5), hv (-5) 5 5 (-1), hv (-5) 5 5 3,
   hv (-5) 5 7 (-3), hv (-5) 5 7 1, hv (-5) 7 (-5) (-1), hv (-5) 7 (-5) 3,
   hv (-5) 7 (-3) (-3), hv (-5) 7 (-3) 1, hv (-5) 7 (-3) 5, hv (-5) 7 (-1) (-5),
   hv (-5) 7 (-1) (-1), hv (-5) 7 (-1) 3, hv (-5) 7 1 (-3), hv (-5) 7 1 1,
   hv (-5) 7 1 5, hv (-5) 7 3 (-5), hv (-5) 7 3 (-1), hv (-5) 7 3 3,
   hv (-5) 7 5 (-3), hv (-5) 7 5 1, hv (-5) 9 (-1) 1, hv (-5) 9 1 (-1)]

def sliceL3 : List V4 :=
  [hv (-3) (-9) (-3) (-1), hv (-3) (-9) (-3) 3, hv (-3) (-9) (-1) (-3), hv (-3) (-9) (-1) 1,
   hv (-3) (-9) 1 (-1), hv (-3) (-9) 1 3, hv (-3) (-9) 3 (-3), hv (-3) (-9) 3 1,
   hv (-3) (-7) (-7) 1, hv (-3) (-7) (-5) (-5), hv (-3) (-7) (-5) (-1), hv (-3) (-7) (-5) 3,
   hv (-3) (-7) (-3) (-3), hv (-3) (-7) (-3) 1, hv (-3) (-7) (-3) 5, hv (-3) (-7) (-1) (-5),
   hv (-3) (-7) (-1) (-1), hv (-3) (-7) (-1) 3, hv (-3) (-7) (-1) 7, hv (-3) (-7) 1 (-7),
   hv (-3) (-7) 1 (-3), hv (-3) (-7) 1 1, hv (-3) (-7) 1 5, hv (-3) (-7) 3 (-5),
   hv (-3) (-7) 3 (-1), hv (-3) (-7) 3 3, hv (-3) (-7) 5 (-3), hv (-3) (-7) 5 1,
   hv (-3) (-7) 5 5, hv (-3) (-7) 7 (-1), hv (-3) (-5) (-7) (-5), hv (-3) (-5) (-7) (-1),
   hv (-3) (-5) (-7) 3, hv (-3) (-5) (-5) (-7), hv (-3) (-5) (-5) (-3), hv (-3) (-5) (-5) 1,
   hv (-3) (-5) (-5) 5, hv (-3) (-5) (-3) (-5), hv (-3) (-5) (-3) (-1), hv (-3) (-5) (-3) 3,
   hv (-3) (-5) (-3) 7, hv (-3) (-5) (-1) (-7), hv (-3) (-5) (-1) (-3), hv (-3) (-5) (-1) 1,
   hv (-3) (-5) (-1) 5, hv (-3) (-5) 1 (-5), hv (-3) (-5) 1 (-1), hv (-3) (-5) 1 3,
   hv (-3) (-5) 1 7, hv (-3) (-5) 3 (-7), hv (-3) (-5) 3 (-3), hv (-3) (-5) 3 1,
   hv (-3) (-5) 3 5, hv (-3) (-5) 5 (-5), hv (-3) (-5) 5 (-1), hv (-3) (-5) 5 3,
   hv (-3) (-5) 5 7, hv (-3) (-5) 7 (-3), hv (-3) (-5) 7 1, hv (-3) (-5) 7 5,
   hv (-3) (-3) (-9) (-1), hv (-3) (-3) (-9) 3, hv (-3) (-3) (-7) (-3), hv (-3) (-3) (-7) 1,
   hv (-3) (-3) (-7) 5, hv (-3) (-3) (-5) (-5), hv (-3) (-3) (-5) (-1), hv (-3) (-3) (-5) 3,
   hv (-3) (-3) (-5) 7, hv (-3) (-3) (-3) (-7), hv (-3) (-3) (-3) (-3), hv (-3) (-3) (-3) 1,
   hv (-3) (-3) (-3) 5, hv (-3) (-3) (-3) 9, hv (-3) (-3) (-1) (-9), hv (-3) (-3) (-1) (-5),
   hv (-3) (-3) (-1) (-1), hv (-3) (-3) (-1) 3, hv (-3) (-3) (-1) 7, hv (-3) (-3) 1 (-7),
   hv (-3) (-3) 1 (-3), hv (-3) (-3) 1 1, hv (-3) (-3) 1 5, hv (-3) (-3) 1 9,
   hv (-3) (-3) 3 (-9), hv (-3) (-3) 3 (-5), hv (-3) (-3) 3 (-1), hv (-3) (-3) 3 3,
   hv (-3) (-3) 3 7, hv (-3) (-3) 5 (-7), hv (-3) (-3) 5 (-3), hv (-3) (-3) 5 1,
   hv (-3) (-3) 5 5, hv (-3) (-3) 7 (-5), hv (-3) (-3) 7 (-1), hv (-3) (-3) 7 3,
   hv (-3) (-3) 9 (-3), hv (-3) (-3) 9 1, hv (-3) (-1) (-9) (-3), hv (-3) (-1) (-9) 1,
   hv (-3) (-1) (-7) (-5), hv (-3) (-1) (-7) (-1), hv (-3) (-1) (-7) 3, hv (-3) (-1) (-7) 7,
   hv (-3) (-1) (-5) (-7), hv (-3) (-1) (-5) (-3), hv (-3) (-1) (-5) 1, hv (-3) (-1) (-5) 5,
   hv (-3) (-1) (-3) (-9), hv (-3) (-1) (-3) (-5), hv (-3) (-1) (-3) (-1), hv (-3) (-1) (-3) 3,
   hv (-3) (-1) (-3) 7, hv (-3) (-1) (-1) (-7), hv (-3) (-1) (-1) (-3), hv (-3) (-1) (-1) 1,
   hv (-3) (-1) (-1) 5, hv (-3) (-1) (-1) 9, hv (-3) (-1) 1 (-9), hv (-3) (-1) 1 (-5),
   hv (-3) (-1) 1 (-1), hv (-3) (-1) 1 3, hv (-3) (-1) 1 7, hv (-3) (-1) 3 (-7),
   hv (-3) (-1) 3 (-3), hv (-3) (-1) 3 1, hv (-3) (-1) 3 5, hv (-3) (-1) 3 9,
   hv (-3) (-1) 5 (-5), hv (-3) (-1) 5 (-1), hv (-3) (-1) 5 3, hv (-3) (-1) 5 7,
   hv (-3) (-1) 7 (-7), hv (-3) (-1) 7 (-3), hv (-3) (-1) 7 1, hv (-3) (-1) 7 5,
   hv (-3) (-1) 9 (-1), hv (-3) (-1) 9 3, hv (-3) 1 (-9) (-1), hv (-3) 1 (-9) 3,
   hv (-3) 1 (-7) (-7), hv (-3) 1 (-7) (-3), hv (-3) 1 (-7) 1, hv (-3) 1 (-7) 5,
   hv (-3) 1 (-5) (-5), hv (-3) 1 (-5) (-1), hv (-3) 1 (-5) 3, hv (-3) 1 (-5) 7,
   hv (-3) 1 (-3) (-7), hv (-3) 1 (-3) (-3), hv (-3) 1 (-3) 1, hv (-3) 1 (-3) 5,
   hv (-3) 1 (-3) 9, hv (-3) 1 (-1) (-9), hv (-3) 1 (-1) (-5), hv (-3) 1 (-1) (-1),
   hv (-3) 1 (-1) 3, hv (-3) 1 (-1) 7, hv (-3) 1 1 (-7), hv (-3) 1 1 (-3),
   hv (-3) 1 1 1, hv (-3) 1 1 5, hv (-3) 1 1 9, hv (-3) 1 3 (-9),
   hv (-3) 1 3 (-5), hv (-3) 1 3 (-1), hv (-3) 1 3 3, hv (-3) 1 3 7,
   hv (-3) 1 5 (-7), hv (-3) 1 5 (-3), hv (-3) 1 5 1, hv (-3) 1 5 5,
   hv (-3) 1 7 (-5), hv (-3) 1 7 (-1), hv (-3) 1 7 3, hv (-3) 1 7 7,
   hv (-3) 1 9 (-3), hv (-3) 1 9 1, hv (-3) 3 (-9) (-3), hv (-3) 3 (-9) 1,
   hv (-3) 3 (-7) (-5), hv (-3) 3 (-7) (-1), hv (-3) 3 (-7) 3, hv (-3) 3 (-5) (-7),
   hv (-3) 3 (-5) (-3), hv (-3) 3 (-5) 1, hv (-3) 3 (-5) 5, hv (-3) 3 (-3) (-9),
   hv (-3) 3 (-3) (-5), hv (-3) 3 (-3) (-1), hv (-3) 3 (-3) 3, hv (-3) 3 (-3) 7,
   hv (-3) 3 (-1) (-7), hv (-3) 3 (-1) (-3), hv (-3) 3 (-1) 1, hv (-3) 3 (-1) 5,
   hv (-3) 3 (-1) 9, hv (-3) 3 1 (-9), hv (-3) 3 1 (-5), hv (-3) 3 1 (-1),
   hv (-3) 3 1 3, hv (-3) 3 1 7, hv (-3) 3 3 (-7), hv (-3) 3 3 (-3),
   hv (-3) 3 3 1, hv (-3) 3 3 5, hv (-3) 3 3 9, hv (-3) 3 5 (-5),
   hv (-3) 3 5 (-1), hv (-3) 3 5 3, hv (-3) 3 5 7, hv (-3) 3 7 (-3),
   hv (-3) 3 7 1, hv (-3) 3 7 5, hv (-3) 3 9 (-1), hv (-3) 3 9 3,
   hv (-3) 5 (-7) (-3), hv (-3) 5 (-7) 1, hv (-3) 5 (-7) 5, hv (-3) 5 (-5) (-5),
   hv (-3) 5 (-5) (-1), hv (-3) 5 (-5) 3, hv (-3) 5 (-5) 7, hv (-3) 5 (-3) (-7),
   hv (-3) 5 (-3) (-3), hv (-3) 5 (-3) 1, hv (-3) 5 (-3) 5, hv (-3) 5 (-1) (-5),
   hv (-3) 5 (-1) (-1), hv (-3) 5 (-1) 3, hv (-3) 5 (-1) 7, hv (-3) 5 1 (-7),
   hv (-3) 5 1 (-3), hv (-3) 5 1 1, hv (-3) 5 1 5, hv (-3) 5 3 (-5),
   hv (-3) 5 3 (-1), hv (-3) 5 3 3, hv (-3) 5 3 7, hv (-3) 5 5 (-7),
   hv (-3) 5 5 (-3), hv (-3) 5 5 1, hv (-3) 5 5 5, hv (-3) 5 7 (-5),
   hv (-3) 5 7 (-1), hv (-3) 5 7 3, hv (-3) 7 (-7) (-1), hv (-3) 7 (-5) (-3),
   hv (-3) 7 (-5) 1, hv (-3) 7 (-5) 5, hv (-3) 7 (-3) (-5), hv (-3) 7 (-3) (-1),
   hv (-3) 7 (-3) 3, hv (-3) 7 (-1) (-7), hv (-3) 7 (-1) (-3), hv (-3) 7 (-1) 1,
   hv (-3) 7 (-1) 5, hv (-3) 7 1 (-5), hv (-3) 7 1 (-1), hv (-3) 7 1 3,
   hv (-3) 7 1 7, hv (-3) 7 3 (-3), hv (-3) 7 3 1, hv (-3) 7 3 5,
   hv (-3) 7 5 (-5), hv (-3) 7 5 (-1), hv (-3) 7 5 3, hv (-3) 7 7 1,
   hv (-3) 9 (-3) (-3), hv (-3) 9 (-3) 1, hv (-3) 9 (-1) (-1), hv (-3) 9 (-1) 3,
   hv (-3) 9 1 (-3), hv (-3) 9 1 1, hv (-3) 9 3 (-1), hv (-3) 9 3 3]

def sliceL4 : List V4 :=
  [hv (-1) (-9) (-5) (-1), hv (-1) (-9) (-3) (-3), hv (-1) (-9) (-3) 1, hv (-1) (-9) (-1) (-5),
   hv (-1) (-9) (-1) (-1), hv (-1) (-9) (-1) 3, hv (-1) (-9) 1 (-3), hv (-1) (-9) 1 1,
   hv (-1) (-9) 1 5, hv (-1) (-9) 3 (-1), hv (-1) (-9) 3 3, hv (-1) (-9) 5 1,
   hv (-1) (-7) (-7) (-1), hv (-1) (-7) (-7) 3, hv (-1) (-7) (-5) (-3), hv (-1) (-7) (-5) 1,
   hv (-1) (-7) (-5) 5, hv (-1) (-7) (-3) (-5), hv (-1) (-7) (-3) (-1), hv (-1) (-7) (-3) 3,
   hv (-1) (-7) (-3) 7, hv (-1) (-7) (-1) (-7), hv (-1) (-7) (-1) (-3), hv (-1) (-7) (-1) 1,
   hv (-1) (-7) (-1) 5, hv (-1) (-7) 1 (-5), hv (-1) (-7) 1 (-1), hv (-1) (-7) 1 3,
   hv (-1) (-7) 1 7, hv (-1) (-7) 3 (-7), hv (-1) (-7) 3 (-3), hv (-1) (-7) 3 1,
   hv (-1) (-7) 3 5, hv (-1) (-7) 5 (-5), hv (-1) (-7) 5 (-1), hv (-1) (-7) 5 3,
   hv (-1) (-7) 7 (-3), hv (-1) (-7) 7 1, hv (-1) (-5) (-9) (-1), hv (-1) (-5) (-7) (-3),
   hv (-1) (-5) (-7) 1, hv (-1) (-5) (-7) 5, hv (-1) (-5) (-5) (-5), hv (-1) (-5) (-5) (-1),
   hv (-1) (-5) (-5) 3, hv (-1) (-5) (-5) 7, hv (-1) (-5) (-3) (-7), hv (-1) (-5) (-3) (-3),
   hv (-1) (-5) (-3) 1, hv (-1) (-5) (-3) 5, hv (-1) (-5) (-1) (-9), hv (-1) (-5) (-1) (-5),
   hv (-1) (-5) (-1) (-1), hv (-1) (-5) (-1) 3, hv (-1) (-5) (-1) 7, hv (-1) (-5) 1 (-7),
   hv (-1) (-5) 1 (-3), hv (-1) (-5) 1 1, hv (-1) (-5) 1 5, hv (-1) (-5) 1 9,
   hv (-1) (-5) 3 (-5), hv (-1) (-5) 3 (-1), hv (-1) (-5) 3 3, hv (-1) (-5) 3 7,
   hv (-1) (-5) 5 (-7), hv (-1) (-5) 5 (-3), hv (-1) (-5) 5 1, hv (-1) (-5) 5 5,
   hv (-1) (-5) 7 (-5), hv (-1) (-5) 7 (-1), hv (-1) (-5) 7 3, hv (-1) (-5) 9 1,
   hv (-1) (-3) (-9) (-3), hv (-1) (-3) (-9) 1, hv (-1) (-3) (-7) (-5), hv (-1) (-3) (-7) (-1),
   hv (-1) (-3) (-7) 3, hv (-1) (-3) (-7) 7, hv (-1) (-3) (-5) (-7), hv (-1) (-3) (-5) (-3),
   hv (-1) (-3) (-5) 1, hv (-1) (-3) (-5) 5, hv (-1) (-3) (-3) (-9), hv (-1) (-3) (-3) (-5),
   hv (-1) (-3) (-3) (-1), hv (-1) (-3) (-3) 3, hv (-1) (-3) (-3) 7, hv (-1) (-3) (-1) (-7),
   hv (-1) (-3) (-1) (-3), hv (-1) (-3) (-1) 1, hv (-1) (-3) (-1) 5, hv (-1) (-3) (-1) 9,
   hv (-1) (-3) 1 (-9), hv (-1) (-3) 1 (-5), hv (-1) (-3) 1 (-1), hv (-1) (-3) 1 3,
   hv (-1) (-3) 1 7, hv (-1) (-3) 3 (-7), hv (-1) (-3) 3 (-3), hv (-1) (-3) 3 1,
   hv (-1) (-3) 3 5, hv (-1) (-3) 3 9, hv (-1) (-3) 5 (-5), hv (-1) (-3) 5 (-1),
   hv (-1) (-3) 5 3, hv (-1) (-3) 5 7, hv (-1) (-3) 7 (-7), hv (-1) (-3) 7 (-3),
   hv (-1) (-3) 7 1, hv (-1) (-3) 7 5, hv (-1) (-3) 9 (-1), hv (-1) (-3) 9 3,
   hv (-1) (-1) (-9) (-5), hv (-1) (-1) (-9) (-1), hv (-1) (-1) (-9) 3, hv (-1) (-1) (-7) (-7),
   hv (-1) (-1) (-7) (-3), hv (-1) (-1) (-7) 1, hv (-1) (-1) (-7) 5, hv (-1) (-1) (-5) (-9),
   hv (-1) (-1) (-5) (-5), hv (-1) (-1) (-5) (-1), hv (-1) (-1) (-5) 3, hv (-1) (-1) (-5) 7,
   hv (-1) (-1) (-3) (-7), hv (-1) (-1) (-3) (-3), hv (-1) (-1) (-3) 1, hv (-1) (-1) (-3) 5,
   hv (-1) (-1) (-3) 9, hv (-1) (-1) (-1) (-9), hv (-1) (-1) (-1) (-5), hv (-1) (-1) (-1) (-1),
   hv (-1) (-1) (-1) 3, hv (-1) (-1) (-1) 7, hv (-1) (-1) 1 (-7), hv (-1) (-1) 1 (-3),
   hv (-1) (-1) 1 1, hv (-1) (-1) 1 5, hv (-1) (-1) 1 9, hv (-1) (-1) 3 (-9),
   hv (-1) (-1) 3 (-5), hv (-1) (-1) 3 (-1), hv (-1) (-1) 3 3, hv (-1) (-1) 3 7,
   hv (-1) (-1) 5 (-7), hv (-1) (-1) 5 (-3), hv (-1) (-1) 5 1, hv (-1) (-1) 5 5,
   hv (-1) (-1) 5 9, hv (-1) (-1) 7 (-5), hv (-1) (-1) 7 (-1), hv (-1) (-1) 7 3,
   hv (-1) (-1) 7 7, hv (-1) (-1) 9 (-3), hv (-1) (-1) 9 1, hv (-1) (-1) 9 5,
   hv (-1) 1 (-9) (-3), hv (-1) 1 (-9) 1, hv (-1) 1 (-9) 5, hv (-1) 1 (-7) (-5),
   hv (-1) 1 (-7) (-1), hv (-1) 1 (-7) 3, hv (-1) 1 (-7) 7, hv (-1) 1 (-5) (-7),
   hv (-1) 1 (-5) (-3), hv (-1) 1 (-5) 1, hv (-1) 1 (-5) 5, hv (-1) 1 (-5) 9,
   hv (-1) 1 (-3) (-9), hv (-1) 1 (-3) (-5), hv (-1) 1 (-3) (-1), hv (-1) 1 (-3) 3,
   hv (-1) 1 (-3) 7, hv (-1) 1 (-1) (-7), hv (-1) 1 (-1) (-3), hv (-1) 1 (-1) 1,
   hv (-1) 1 (-1) 5, hv (-1) 1 (-1) 9, hv (-1) 1 1 (-9), hv (-1) 1 1 (-5),
   hv (-1) 1 1 (-1), hv (-1) 1 1 3, hv (-1) 1 1 7, hv (-1) 1 3 (-7),
   hv (-1) 1 3 (-3), hv (-1) 1 3 1, hv (-1) 1 3 5, hv (-1) 1 3 9,
   hv (-1) 1 5 (-9), hv (-1) 1 5 (-5), hv (-1) 1 5 (-1), hv (-1) 1 5 3,
   hv (-1) 1 5 7, hv (-1) 1 7 (-7), hv (-1) 1 7 (-3), hv (-1) 1 7 1,
   hv (-1) 1 7 5, hv (-1) 1 9 (-5), hv (-1) 1 9 (-1), hv (-1) 1 9 3,
   hv (-1) 3 (-9) (-1), hv (-1) 3 (-9) 3, hv (-1) 3 (-7) (-7), hv (-1) 3 (-7) (-3),
   hv (-1) 3 (-7) 1, hv (-1) 3 (-7) 5, hv (-1) 3 (-5) (-5), hv (-1) 3 (-5) (-1),
   hv (-1) 3 (-5) 3, hv (-1) 3 (-5) 7, hv (-1) 3 (-3) (-7), hv (-1) 3 (-3) (-3),
   hv (-1) 3 (-3) 1, hv (-1) 3 (-3) 5, hv (-1) 3 (-3) 9, hv (-1) 3 (-1) (-9),
   hv (-1) 3 (-1) (-5), hv (-1) 3 (-1) (-1), hv (-1) 3 (-1) 3, hv (-1) 3 (-1) 7,
   hv (-1) 3 1 (-7), hv (-1) 3 1 (-3), hv (-1) 3 1 1, hv (-1) 3 1 5,
   hv (-1) 3 1 9, hv (-1) 3 3 (-9), hv (-1) 3 3 (-5), hv (-1) 3 3 (-1),
   hv (-1) 3 3 3, hv (-1) 3 3 7, hv (-1) 3 5 (-7), hv (-1) 3 5 (-3),
   hv (-1) 3 5 1, hv (-1) 3 5 5, hv (-1) 3 7 (-5), hv (-1) 3 7 (-1),
   hv (-1) 3 7 3, hv (-1) 3 7 7, hv (-1) 3 9 (-3), hv (-1) 3 9 1,
   hv (-1) 5 (-9) 1, hv (-1) 5 (-7) (-5), hv (-1) 5 (-7) (-1), hv (-1) 5 (-7) 3,
   hv (-1) 5 (-5) (-7), hv (-1) 5 (-5) (-3), hv (-1) 5 (-5) 1, hv (-1) 5 (-5) 5,
   hv (-1) 5 (-3) (-5), hv (-1) 5 (-3) (-1), hv (-1) 5 (-3) 3, hv (-1) 5 (-3) 7,
   hv (-1) 5 (-1) (-7), hv (-1) 5 (-1) (-3), hv (-1) 5 (-1) 1, hv (-1) 5 (-1) 5,
   hv (-1) 5 (-1) 9, hv (-1) 5 1 (-9), hv (-1) 5 1 (-5), hv (-1) 5 1 (-1),
   hv (-1) 5 1 3, hv (-1) 5 1 7, hv (-1) 5 3 (-7), hv (-1) 5 3 (-3),
   hv (-1) 5 3 1, hv (-1) 5 3 5, hv (-1) 5 5 (-5), hv (-1) 5 5 (-1),
   hv (-1) 5 5 3, hv (-1) 5 5 7, hv (-1) 5 7 (-3), hv (-1) 5 7 1,
   hv (-1) 5 7 5, hv (-1) 5 9 (-1), hv (-1) 7 (-7) (-3), hv (-1) 7 (-7) 1,
   hv (-1) 7 (-5) (-5), hv (-1) 7 (-5) (-1), hv (-1) 7 (-5) 3, hv (-1) 7 (-3) (-7),
   hv (-1) 7 (-3) (-3), hv (-1) 7 (-3) 1, hv (-1) 7 (-3) 5, hv (-1) 7 (-1) (-5),
   hv (-1) 7 (-1) (-1), hv (-1) 7 (-1) 3, hv (-1) 7 (-1) 7, hv (-1) 7 1 (-7),
   hv (-1) 7 1 (-3), hv (-1) 7 1 1, hv (-1) 7 1 5, hv (-1) 7 3 (-5),
   hv (-1) 7 3 (-1), hv (-1) 7 3 3, hv (-1) 7 3 7, hv (-1) 7 5 (-3),
   hv (-1) 7 5 1, hv (-1) 7 5 5, hv (-1) 7 7 (-1), hv (-1) 7 7 3,
   hv (-1) 9 (-5) 1, hv (-1) 9 (-3) (-1), hv (-1) 9 (-3) 3, hv (-1) 9 (-1) (-3),
   hv (-1) 9 (-1) 1, hv (-1) 9 (-1) 5, hv (-1) 9 1 (-5), hv (-1) 9 1 (-1),
   hv (-1) 9 1 3, hv (-1) 9 3 (-3), hv (-1) 9 3 1, hv (-1) 9 5 (-1)]

def sliceL5 : List V4 :=
  [hv 1 (-9) (-5) 1, hv 1 (-9) (-3) (-1), hv 1 (-9) (-3) 3, hv 1 (-9) (-1) (-3),
   hv 1 (-9) (-1) 1, hv 1 (-9) (-1) 5, hv 1 (-9) 1 (-5), hv 1 (-9) 1 (-1),
   hv 1 (-9) 1 3, hv 1 (-9) 3 (-3), hv 1 (-9) 3 1, hv 1 (-9) 5 (-1),
   hv 1 (-7) (-7) (-3), hv 1 (-7) (-7) 1, hv 1 (-7) (-5) (-5), hv 1 (-7) (-5) (-1),
   hv 1 (-7) (-5) 3, hv 1 (-7) (-3) (-7), hv 1 (-7) (-3) (-3), hv 1 (-7) (-3) 1,
   hv 1 (-7) (-3) 5, hv 1 (-7) (-1) (-5), hv 1 (-7) (-1) (-1), hv 1 (-7) (-1) 3,
   hv 1 (-7) (-1) 7, hv 1 (-7) 1 (-7), hv 1 (-7) 1 (-3), hv 1 (-7) 1 1,
   hv 1 (-7) 1 5, hv 1 (-7) 3 (-5), hv 1 (-7) 3 (-1), hv 1 (-7) 3 3,
   hv 1 (-7) 3 7, hv 1 (-7) 5 (-3), hv 1 (-7) 5 1, hv 1 (-7) 5 5,
   hv 1 (-7) 7 (-1), hv 1 (-7) 7 3, hv 1 (-5) (-9) 1, hv 1 (-5) (-7) (-5),
   hv 1 (-5) (-7) (-1), hv 1 (-5) (-7) 3, hv 1 (-5) (-5) (-7), hv 1 (-5) (-5) (-3),
   hv 1 (-5) (-5) 1, hv 1 (-5) (-5) 5, hv 1 (-5) (-3) (-5), hv 1 (-5) (-3) (-1),
   hv 1 (-5) (-3) 3, hv 1 (-5) (-3) 7, hv 1 (-5) (-1) (-7), hv 1 (-5) (-1) (-3),
   hv 1 (-5) (-1) 1, hv 1 (-5) (-1) 5, hv 1 (-5) (-1) 9, hv 1 (-5) 1 (-9),
   hv 1 (-5) 1 (-5), hv 1 (-5) 1 (-1), hv 1 (-5) 1 3, hv 1 (-5) 1 7,
   hv 1 (-5) 3 (-7), hv 1 (-5) 3 (-3), hv 1 (-5) 3 1, hv 1 (-5) 3 5,
   hv 1 (-5) 5 (-5), hv 1 (-5) 5 (-1), hv 1 (-5) 5 3, hv 1 (-5) 5 7,
   hv 1 (-5) 7 (-3), hv 1 (-5) 7 1, hv 1 (-5) 7 5, hv 1 (-5) 9 (-1),
   hv 1 (-3) (-9) (-1), hv 1 (-3) (-9) 3, hv 1 (-3) (-7) (-7), hv 1 (-3) (-7) (-3),
   hv 1 (-3) (-7) 1, hv 1 (-3) (-7) 5, hv 1 (-3) (-5) (-5), hv 1 (-3) (-5) (-1),
   hv 1 (-3) (-5) 3, hv 1 (-3) (-5) 7, hv 1 (-3) (-3) (-7), hv 1 (-3) (-3) (-3),
   hv 1 (-3) (-3) 1, hv 1 (-3) (-3) 5, hv 1 (-3) (-3) 9, hv 1 (-3) (-1) (-9),
   hv 1 (-3) (-1) (-5), hv 1 (-3) (-1) (-1), hv 1 (-3) (-1) 3, hv 1 (-3) (-1) 7,
   hv 1 (-3) 1 (-7), hv 1 (-3) 1 (-3), hv 1 (-3) 1 1, hv 1 (-3) 1 5,
   hv 1 (-3) 1 9, hv 1 (-3) 3 (-9), hv 1 (-3) 3 (-5), hv 1 (-3) 3 (-1),
   hv 1 (-3) 3 3, hv 1 (-3) 3 7, hv 1 (-3) 5 (-7), hv 1 (-3) 5 (-3),
   hv 1 (-3) 5 1, hv 1 (-3) 5 5, hv 1 (-3) 7 (-5), hv 1 (-3) 7 (-1),
   hv 1 (-3) 7 3, hv 1 (-3) 7 7, hv 1 (-3) 9 (-3), hv 1 (-3) 9 1,
   hv 1 (-1) (-9) (-3), hv 1 (-1) (-9) 1, hv 1 (-1) (-9) 5, hv 1 (-1) (-7) (-5),
   hv 1 (-1) (-7) (-1), hv 1 (-1) (-7) 3, hv 1 (-1) (-7) 7, hv 1 (-1) (-5) (-7),
   hv 1 (-1) (-5) (-3), hv 1 (-1) (-5) 1, hv 1 (-1) (-5) 5, hv 1 (-1) (-5) 9,
   hv 1 (-1) (-3) (-9), hv 1 (-1) (-3) (-5), hv 1 (-1) (-3) (-1), hv 1 (-1) (-3) 3,
   hv 1 (-1) (-3) 7, hv 1 (-1) (-1) (-7), hv 1 (-1) (-1) (-3), hv 1 (-1) (-1) 1,
   hv 1 (-1) (-1) 5, hv 1 (-1) (-1) 9, hv 1 (-1) 1 (-9), hv 1 (-1) 1 (-5),
   hv 1 (-1) 1 (-1), hv 1 (-1) 1 3, hv 1 (-1) 1 7, hv 1 (-1) 3 (-7),
   hv 1 (-1) 3 (-3), hv 1 (-1) 3 1, hv 1 (-1) 3 5, hv 1 (-1) 3 9,
   hv 1 (-1) 5 (-9), hv 1 (-1) 5 (-5), hv 1 (-1) 5 (-1), hv 1 (-1) 5 3,
   hv 1 (-1) 5 7, hv 1 (-1) 7 (-7), hv 1 (-1) 7 (-3), hv 1 (-1) 7 1,
   hv 1 (-1) 7 5, hv 1 (-1) 9 (-5), hv 1 (-1) 9 (-1), hv 1 (-1) 9 3,
   hv 1 1 (-9) (-5), hv 1 1 (-9) (-1), hv 1 1 (-9) 3, hv 1 1 (-7) (-7),
   hv 1 1 (-7) (-3), hv 1 1 (-7) 1, hv 1 1 (-7) 5, hv 1 1 (-5) (-9),
   hv 1 1 (-5) (-5), hv 1 1 (-5) (-1), hv 1 1 (-5) 3, hv 1 1 (-5) 7,
   hv 1 1 (-3) (-7), hv 1 1 (-3) (-3), hv 1 1 (-3) 1, hv 1 1 (-3) 5,
   hv 1 1 (-3) 9, hv 1 1 (-1) (-9), hv 1 1 (-1) (-5), hv 1 1 (-1) (-1),
   hv 1 1 (-1) 3, hv 1 1 (-1) 7, hv 1 1 1 (-7), hv 1 1 1 (-3),
   hv 1 1 1 1, hv 1 1 1 5, hv 1 1 1 9, hv 1 1 3 (-9),
   hv 1 1 3 (-5), hv 1 1 3 (-1), hv 1 1 3 3, hv 1 1 3 7,
   hv 1 1 5 (-7), hv 1 1 5 (-3), hv 1 1 5 1, hv 1 1 5 5,
   hv 1 1 5 9, hv 1 1 7 (-5), hv 1 1 7 (-1), hv 1 1 7 3,
   hv 1 1 7 7, hv 1 1 9 (-3), hv 1 1 9 1, hv 1 1 9 5,
   hv 1 3 (-9) (-3), hv 1 3 (-9) 1, hv 1 3 (-7) (-5), hv 1 3 (-7) (-1),
   hv 1 3 (-7) 3, hv 1 3 (-7) 7, hv 1 3 (-5) (-7), hv 1 3 (-5) (-3),
   hv 1 3 (-5) 1, hv 1 3 (-5) 5, hv 1 3 (-3) (-9), hv 1 3 (-3) (-5),
   hv 1 3 (-3) (-1), hv 1 3 (-3) 3, hv 1 3 (-3) 7, hv 1 3 (-1) (-7),
   hv 1 3 (-1) (-3), hv 1 3 (-1) 1, hv 1 3 (-1) 5, hv 1 3 (-1) 9,
   hv 1 3 1 (-9), hv 1 3 1 (-5), hv 1 3 1 (-1), hv 1 3 1 3,
   hv 1 3 1 7, hv 1 3 3 (-7), hv 1 3 3 (-3), hv 1 3 3 1,
   hv 1 3 3 5, hv 1 3 3 9, hv 1 3 5 (-5), hv 1 3 5 (-1),
   hv 1 3 5 3, hv 1 3 5 7, hv 1 3 7 (-7), hv 1 3 7 (-3),
   hv 1 3 7 1, hv 1 3 7 5, hv 1 3 9 (-1), hv 1 3 9 3,
   hv 1 5 (-9) (-1), hv 1 5 (-7) (-3), hv 1 5 (-7) 1, hv 1 5 (-7) 5,
   hv 1 5 (-5) (-5), hv 1 5 (-5) (-1), hv 1 5 (-5) 3, hv 1 5 (-5) 7,
   hv 1 5 (-3) (-7), hv 1 5 (-3) (-3), hv 1 5 (-3) 1, hv 1 5 (-3) 5,
   hv 1 5 (-1) (-9), hv 1 5 (-1) (-5), hv 1 5 (-1) (-1), hv 1 5 (-1) 3,
   hv 1 5 (-1) 7, hv 1 5 1 (-7), hv 1 5 1 (-3), hv 1 5 1 1,
   hv 1 5 1 5, hv 1 5 1 9, hv 1 5 3 (-5), hv 1 5 3 (-1),
   hv 1 5 3 3, hv 1 5 3 7, hv 1 5 5 (-7), hv 1 5 5 (-3),
   hv 1 5 5 1, hv 1 5 5 5, hv 1 5 7 (-5), hv 1 5 7 (-1),
   hv 1 5 7 3, hv 1 5 9 1, hv 1 7 (-7) (-1), hv 1 7 (-7) 3,
   hv 1 7 (-5) (-3), hv 1 7 (-5) 1, hv 1 7 (-5) 5, hv 1 7 (-3) (-5),
   hv 1 7 (-3) (-1), hv 1 7 (-3) 3, hv 1 7 (-3) 7, hv 1 7 (-1) (-7),
   hv 1 7 (-1) (-3), hv 1 7 (-1) 1, hv 1 7 (-1) 5, hv 1 7 1 (-5),
   hv 1 7 1 (-1), hv 1 7 1 3, hv 1 7 1 7, hv 1 7 3 (-7),
   hv 1 7 3 (-3), hv 1 7 3 1, hv 1 7 3 5, hv 1 7 5 (-5),
   hv 1 7 5 (-1), hv 1 7 5 3, hv 1 7 7 (-3), hv 1 7 7 1,
   hv 1 9 (-5) (-1), hv 1 9 (-3) (-3), hv 1 9 (-3) 1, hv 1 9 (-1) (-5),
   hv 1 9 (-1) (-1), hv 1 9 (-1) 3, hv 1 9 1 (-3), hv 1 9 1 1,
   hv 1 9 1 5, hv 1 9 3 (-1), hv 1 9 3 3, hv 1 9 5 1]

def sliceL6 : List V4 :=
  [hv 3 (-9) (-3) (-3), hv 3 (-9) (-3) 1, hv 3 (-9) (-1) (-1), hv 3 (-9) (-1) 3,
   hv 3 (-9) 1 (-3), hv 3 (-9) 1 1, hv 3 (-9) 3 (-1), hv 3 (-9) 3 3,
   hv 3 (-7) (-7) (-1), hv 3 (-7) (-5) (-3), hv 3 (-7) (-5) 1, hv 3 (-7) (-5) 5,
   hv 3 (-7) (-3) (-5), hv 3 (-7) (-3) (-1), hv 3 (-7) (-3) 3, hv 3 (-7) (-1) (-7),
   hv 3 (-7) (-1) (-3), hv 3 (-7) (-1) 1, hv 3 (-7) (-1) 5, hv 3 (-7) 1 (-5),
   hv 3 (-7) 1 (-1), hv 3 (-7) 1 3, hv 3 (-7) 1 7, hv 3 (-7) 3 (-3),
   hv 3 (-7) 3 1, hv 3 (-7) 3 5, hv 3 (-7) 5 (-5), hv 3 (-7) 5 (-1),
   hv 3 (-7) 5 3, hv 3 (-7) 7 1, hv 3 (-5) (-7) (-3), hv 3 (-5) (-7) 1,
   hv 3 (-5) (-7) 5, hv 3 (-5) (-5) (-5), hv 3 (-5) (-5) (-1), hv 3 (-5) (-5) 3,
   hv 3 (-5) (-5) 7, hv 3 (-5) (-3) (-7), hv 3 (-5) (-3) (-3), hv 3 (-5) (-3) 1,
   hv 3 (-5) (-3) 5, hv 3 (-5) (-1) (-5), hv 3 (-5) (-1) (-1), hv 3 (-5) (-1) 3,
   hv 3 (-5) (-1) 7, hv 3 (-5) 1 (-7), hv 3 (-5) 1 (-3), hv 3 (-5) 1 1,
   hv 3 (-5) 1 5, hv 3 (-5) 3 (-5), hv 3 (-5) 3 (-1), hv 3 (-5) 3 3,
   hv 3 (-5) 3 7, hv 3 (-5) 5 (-7), hv 3 (-5) 5 (-3), hv 3 (-5) 5 1,
   hv 3 (-5) 5 5, hv 3 (-5) 7 (-5), hv 3 (-5) 7 (-1), hv 3 (-5) 7 3,
   hv 3 (-3) (-9) (-3), hv 3 (-3) (-9) 1, hv 3 (-3) (-7) (-5), hv 3 (-3) (-7) (-1),
   hv 3 (-3) (-7) 3, hv 3 (-3) (-5) (-7), hv 3 (-3) (-5) (-3), hv 3 (-3) (-5) 1,
   hv 3 (-3) (-5) 5, hv 3 (-3) (-3) (-9), hv 3 (-3) (-3) (-5), hv 3 (-3) (-3) (-1),
   hv 3 (-3) (-3) 3, hv 3 (-3) (-3) 7, hv 3 (-3) (-1) (-7), hv 3 (-3) (-1) (-3),
   hv 3 (-3) (-1) 1, hv 3 (-3) (-1) 5, hv 3 (-3) (-1) 9, hv 3 (-3) 1 (-9),
   hv 3 (-3) 1 (-5), hv 3 (-3) 1 (-1), hv 3 (-3) 1 3, hv 3 (-3) 1 7,
   hv 3 (-3) 3 (-7), hv 3 (-3) 3 (-3), hv 3 (-3) 3 1, hv 3 (-3) 3 5,
   hv 3 (-3) 3 9, hv 3 (-3) 5 (-5), hv 3 (-3) 5 (-1), hv 3 (-3) 5 3,
   hv 3 (-3) 5 7, hv 3 (-3) 7 (-3), hv 3 (-3) 7 1, hv 3 (-3) 7 5,
   hv 3 (-3) 9 (-1), hv 3 (-3) 9 3, hv 3 (-1) (-9) (-1), hv 3 (-1) (-9) 3,
   hv 3 (-1) (-7) (-7), hv 3 (-1) (-7) (-3), hv 3 (-1) (-7) 1, hv 3 (-1) (-7) 5,
   hv 3 (-1) (-5) (-5), hv 3 (-1) (-5) (-1), hv 3 (-1) (-5) 3, hv 3 (-1) (-5) 7,
   hv 3 (-1) (-3) (-7), hv 3 (-1) (-3) (-3), hv 3 (-1) (-3) 1, hv 3 (-1) (-3) 5,
   hv 3 (-1) (-3) 9, hv 3 (-1) (-1) (-9), hv 3 (-1) (-1) (-5), hv 3 (-1) (-1) (-1),
   hv 3 (-1) (-1) 3, hv 3 (-1) (-1) 7, hv 3 (-1) 1 (-7), hv 3 (-1) 1 (-3),
   hv 3 (-1) 1 1, hv 3 (-1) 1 5, hv 3 (-1) 1 9, hv 3 (-1) 3 (-9),
   hv 3 (-1) 3 (-5), hv 3 (-1) 3 (-1), hv 3 (-1) 3 3, hv 3 (-1) 3 7,
   hv 3 (-1) 5 (-7), hv 3 (-1) 5 (-3), hv 3 (-1) 5 1, hv 3 (-1) 5 5,
   hv 3 (-1) 7 (-5), hv 3 (-1) 7 (-1), hv 3 (-1) 7 3, hv 3 (-1) 7 7,
   hv 3 (-1) 9 (-3), hv 3 (-1) 9 1, hv 3 1 (-9) (-3), hv 3 1 (-9) 1,
   hv 3 1 (-7) (-5), hv 3 1 (-7) (-1), hv 3 1 (-7) 3, hv 3 1 (-7) 7,
   hv 3 1 (-5) (-7), hv 3 1 (-5) (-3), hv 3 1 (-5) 1, hv 3 1 (-5) 5,
   hv 3 1 (-3) (-9), hv 3 1 (-3) (-5), hv 3 1 (-3) (-1), hv 3 1 (-3) 3,
   hv 3 1 (-3) 7, hv 3 1 (-1) (-7), hv 3 1 (-1) (-3), hv 3 1 (-1) 1,
   hv 3 1 (-1) 5, hv 3 1 (-1) 9, hv 3 1 1 (-9), hv 3 1 1 (-5),
   hv 3 1 1 (-1), hv 3 1 1 3, hv 3 1 1 7, hv 3 1 3 (-7),
   hv 3 1 3 (-3), hv 3 1 3 1, hv 3 1 3 5, hv 3 1 3 9,
   hv 3 1 5 (-5), hv 3 1 5 (-1), hv 3 1 5 3, hv 3 1 5 7,
   hv 3 1 7 (-7), hv 3 1 7 (-3), hv 3 1 7 1, hv 3 1 7 5,
   hv 3 1 9 (-1), hv 3 1 9 3, hv 3 3 (-9) (-1), hv 3 3 (-9) 3,
   hv 3 3 (-7) (-3), hv 3 3 (-7) 1, hv 3 3 (-7) 5, hv 3 3 (-5) (-5),
   hv 3 3 (-5) (-1), hv 3 3 (-5) 3, hv 3 3 (-5) 7, hv 3 3 (-3) (-7),
   hv 3 3 (-3) (-3), hv 3 3 (-3) 1, hv 3 3 (-3) 5, hv 3 3 (-3) 9,
   hv 3 3 (-1) (-9), hv 3 3 (-1) (-5), hv 3 3 (-1) (-1), hv 3 3 (-1) 3,
   hv 3 3 (-1) 7, hv 3 3 1 (-7), hv 3 3 1 (-3), hv 3 3 1 1,
   hv 3 3 1 5, hv 3 3 1 9, hv 3 3 3 (-9), hv 3 3 3 (-5),
   hv 3 3 3 (-1), hv 3 3 3 3, hv 3 3 3 7, hv 3 3 5 (-7),
   hv 3 3 5 (-3), hv 3 3 5 1, hv 3 3 5 5, hv 3 3 7 (-5),
   hv 3 3 7 (-1), hv 3 3 7 3, hv 3 3 9 (-3), hv 3 3 9 1,
   hv 3 5 (-7) (-5), hv 3 5 (-7) (-1), hv 3 5 (-7) 3, hv 3 5 (-5) (-7),
   hv 3 5 (-5) (-3), hv 3 5 (-5) 1, hv 3 5 (-5) 5, hv 3 5 (-3) (-5),
   hv 3 5 (-3) (-1), hv 3 5 (-3) 3, hv 3 5 (-3) 7, hv 3 5 (-1) (-7),
   hv 3 5 (-1) (-3), hv 3 5 (-1) 1, hv 3 5 (-1) 5, hv 3 5 1 (-5),
   hv 3 5 1 (-1), hv 3 5 1 3, hv 3 5 1 7, hv 3 5 3 (-7),
   hv 3 5 3 (-3), hv 3 5 3 1, hv 3 5 3 5, hv 3 5 5 (-5),
   hv 3 5 5 (-1), hv 3 5 5 3, hv 3 5 5 7, hv 3 5 7 (-3),
   hv 3 5 7 1, hv 3 5 7 5, hv 3 7 (-7) 1, hv 3 7 (-5) (-5),
   hv 3 7 (-5) (-1), hv 3 7 (-5) 3, hv 3 7 (-3) (-3), hv 3 7 (-3) 1,
   hv 3 7 (-3) 5, hv 3 7 (-1) (-5), hv 3 7 (-1) (-1), hv 3 7 (-1) 3,
   hv 3 7 (-1) 7, hv 3 7 1 (-7), hv 3 7 1 (-3), hv 3 7 1 1,
   hv 3 7 1 5, hv 3 7 3 (-5), hv 3 7 3 (-1), hv 3 7 3 3,
   hv 3 7 5 (-3), hv 3 7 5 1, hv 3 7 5 5, hv 3 7 7 (-1),
   hv 3 9 (-3) (-1), hv 3 9 (-3) 3, hv 3 9 (-1) (-3), hv 3 9 (-1) 1,
   hv 3 9 1 (-1), hv 3 9 1 3, hv 3 9 3 (-3), hv 3 9 3 1]

def sliceL7 : List V4 :=
  [hv 5 (-9) (-1) 1, hv 5 (-9) 1 (-1), hv 5 (-7) (-5) (-1), hv 5 (-7) (-5) 3,
   hv 5 (-7) (-3) (-3), hv 5 (-7) (-3) 1, hv 5 (-7) (-3) 5, hv 5 (-7) (-1) (-5),
   hv 5 (-7) (-1) (-1), hv 5 (-7) (-1) 3, hv 5 (-7) 1 (-3), hv 5 (-7) 1 1,
   hv 5 (-7) 1 5, hv 5 (-7) 3 (-5), hv 5 (-7) 3 (-1), hv 5 (-7) 3 3,
   hv 5 (-7) 5 (-3), hv 5 (-7) 5 1, hv 5 (-5) (-7) (-1), hv 5 (-5) (-7) 3,
   hv 5 (-5) (-5) (-3), hv 5 (-5) (-5) 1, hv 5 (-5) (-5) 5, hv 5 (-5) (-3) (-5),
   hv 5 (-5) (-3) (-1), hv 5 (-5) (-3) 3, hv 5 (-5) (-3) 7, hv 5 (-5) (-1) (-7),
   hv 5 (-5) (-1) (-3), hv 5 (-5) (-1) 1, hv 5 (-5) (-1) 5, hv 5 (-5) 1 (-5),
   hv 5 (-5) 1 (-1), hv 5 (-5) 1 3, hv 5 (-5) 1 7, hv 5 (-5) 3 (-7),
   hv 5 (-5) 3 (-3), hv 5 (-5) 3 1, hv 5 (-5) 3 5, hv 5 (-5) 5 (-5),
   hv 5 (-5) 5 (-1), hv 5 (-5) 5 3, hv 5 (-5) 7 (-3), hv 5 (-5) 7 1,
   hv 5 (-3) (-7) (-3), hv 5 (-3) (-7) 1, hv 5 (-3) (-7) 5, hv 5 (-3) (-5) (-5),
   hv 5 (-3) (-5) (-1), hv 5 (-3) (-5) 3, hv 5 (-3) (-5) 7, hv 5 (-3) (-3) (-7),
   hv 5 (-3) (-3) (-3), hv 5 (-3) (-3) 1, hv 5 (-3) (-3) 5, hv 5 (-3) (-1) (-5),
   hv 5 (-3) (-1) (-1), hv 5 (-3) (-1) 3, hv 5 (-3) (-1) 7, hv 5 (-3) 1 (-7),
   hv 5 (-3) 1 (-3), hv 5 (-3) 1 1, hv 5 (-3) 1 5, hv 5 (-3) 3 (-5),
   hv 5 (-3) 3 (-1), hv 5 (-3) 3 3, hv 5 (-3) 3 7, hv 5 (-3) 5 (-7),
   hv 5 (-3) 5 (-3), hv 5 (-3) 5 1, hv 5 (-3) 5 5, hv 5 (-3) 7 (-5),
   hv 5 (-3) 7 (-1), hv 5 (-3) 7 3, hv 5 (-1) (-9) 1, hv 5 (-1) (-7) (-5),
   hv 5 (-1) (-7) (-1), hv 5 (-1) (-7) 3, hv 5 (-1) (-5) (-7), hv 5 (-1) (-5) (-3),
   hv 5 (-1) (-5) 1, hv 5 (-1) (-5) 5, hv 5 (-1) (-3) (-5), hv 5 (-1) (-3) (-1),
   hv 5 (-1) (-3) 3, hv 5 (-1) (-3) 7, hv 5 (-1) (-1) (-7), hv 5 (-1) (-1) (-3),
   hv 5 (-1) (-1) 1, hv 5 (-1) (-1) 5, hv 5 (-1) (-1) 9, hv 5 (-1) 1 (-9),
   hv 5 (-1) 1 (-5), hv 5 (-1) 1 (-1), hv 5 (-1) 1 3, hv 5 (-1) 1 7,
   hv 5 (-1) 3 (-7), hv 5 (-1) 3 (-3), hv 5 (-1) 3 1, hv 5 (-1) 3 5,
   hv 5 (-1) 5 (-5), hv 5 (-1) 5 (-1), hv 5 (-1) 5 3, hv 5 (-1) 5 7,
   hv 5 (-1) 7 (-3), hv 5 (-1) 7 1, hv 5 (-1) 7 5, hv 5 (-1) 9 (-1),
   hv 5 1 (-9) (-1), hv 5 1 (-7) (-3), hv 5 1 (-7) 1, hv 5 1 (-7) 5,
   hv 5 1 (-5) (-5), hv 5 1 (-5) (-1), hv 5 1 (-5) 3, hv 5 1 (-5) 7,
   hv 5 1 (-3) (-7), hv 5 1 (-3) (-3), hv 5 1 (-3) 1, hv 5 1 (-3) 5,
   hv 5 1 (-1) (-9), hv 5 1 (-1) (-5), hv 5 1 (-1) (-1), hv 5 1 (-1) 3,
   hv 5 1 (-1) 7, hv 5 1 1 (-7), hv 5 1 1 (-3), hv 5 1 1 1,
   hv 5 1 1 5, hv 5 1 1 9, hv 5 1 3 (-5), hv 5 1 3 (-1),
   hv 5 1 3 3, hv 5 1 3 7, hv 5 1 5 (-7), hv 5 1 5 (-3),
   hv 5 1 5 1, hv 5 1 5 5, hv 5 1 7 (-5), hv 5 1 7 (-1),
   hv 5 1 7 3, hv 5 1 9 1, hv 5 3 (-7) (-5), hv 5 3 (-7) (-1),
   hv 5 3 (-7) 3, hv 5 3 (-5) (-7), hv 5 3 (-5) (-3), hv 5 3 (-5) 1,
   hv 5 3 (-5) 5, hv 5 3 (-3) (-5), hv 5 3 (-3) (-1), hv 5 3 (-3) 3,
   hv 5 3 (-3) 7, hv 5 3 (-1) (-7), hv 5 3 (-1) (-3), hv 5 3 (-1) 1,
   hv 5 3 (-1) 5, hv 5 3 1 (-5), hv 5 3 1 (-1), hv 5 3 1 3,
   hv 5 3 1 7, hv 5 3 3 (-7), hv 5 3 3 (-3), hv 5 3 3 1,
   hv 5 3 3 5, hv 5 3 5 (-5), hv 5 3 5 (-1), hv 5 3 5 3,
   hv 5 3 5 7, hv 5 3 7 (-3), hv 5 3 7 1, hv 5 3 7 5,
   hv 5 5 (-7) (-3), hv 5 5 (-7) 1, hv 5 5 (-5) (-5), hv 5 5 (-5) (-1),
   hv 5 5 (-5) 3, hv 5 5 (-3) (-7), hv 5 5 (-3) (-3), hv 5 5 (-3) 1,
   hv 5 5 (-3) 5, hv 5 5 (-1) (-5), hv 5 5 (-1) (-1), hv 5 5 (-1) 3,
   hv 5 5 (-1) 7, hv 5 5 1 (-7), hv 5 5 1 (-3), hv 5 5 1 1,
   hv 5 5 1 5, hv 5 5 3 (-5), hv 5 5 3 (-1), hv 5 5 3 3,
   hv 5 5 3 7, hv 5 5 5 (-3), hv 5 5 5 1, hv 5 5 5 5,
   hv 5 5 7 (-1), hv 5 5 7 3, hv 5 7 (-5) (-3), hv 5 7 (-5) 1,
   hv 5 7 (-3) (-5), hv 5 7 (-3) (-1), hv 5 7 (-3) 3, hv 5 7 (-1) (-3),
   hv 5 7 (-1) 1, hv 5 7 (-1) 5, hv 5 7 1 (-5), hv 5 7 1 (-1),
   hv 5 7 1 3, hv 5 7 3 (-3), hv 5 7 3 1, hv 5 7 3 5,
   hv 5 7 5 (-1), hv 5 7 5 3, hv 5 9 (-1) (-1), hv 5 9 1 1]

def sliceL8 : List V4 :=
  [hv 7 (-7) (-3) (-1), hv 7 (-7) (-1) (-3), hv 7 (-7) (-1) 1, hv 7 (-7) 1 (-1),
   hv 7 (-7) 1 3, hv 7 (-7) 3 1, hv 7 (-5) (-5) (-1), hv 7 (-5) (-5) 3,
   hv 7 (-5) (-3) (-3), hv 7 (-5) (-3) 1, hv 7 (-5) (-3) 5, hv 7 (-5) (-1) (-5),
   hv 7 (-5) (-1) (-1), hv 7 (-5) (-1) 3, hv 7 (-5) 1 (-3), hv 7 (-5) 1 1,
   hv 7 (-5) 1 5, hv 7 (-5) 3 (-5), hv 7 (-5) 3 (-1), hv 7 (-5) 3 3,
   hv 7 (-5) 5 (-3), hv 7 (-5) 5 1, hv 7 (-3) (-7) (-1), hv 7 (-3) (-5) (-3),
   hv 7 (-3) (-5) 1, hv 7 (-3) (-5) 5, hv 7 (-3) (-3) (-5), hv 7 (-3) (-3) (-1),
   hv 7 (-3) (-3) 3, hv 7 (-3) (-1) (-7), hv 7 (-3) (-1) (-3), hv 7 (-3) (-1) 1,
   hv 7 (-3) (-1) 5, hv 7 (-3) 1 (-5), hv 7 (-3) 1 (-1), hv 7 (-3) 1 3,
   hv 7 (-3) 1 7, hv 7 (-3) 3 (-3), hv 7 (-3) 3 1, hv 7 (-3) 3 5,
   hv 7 (-3) 5 (-5), hv 7 (-3) 5 (-1), hv 7 (-3) 5 3, hv 7 (-3) 7 1,
   hv 7 (-1) (-7) (-3), hv 7 (-1) (-7) 1, hv 7 (-1) (-5) (-5), hv 7 (-1) (-5) (-1),
   hv 7 (-1) (-5) 3, hv 7 (-1) (-3) (-7), hv 7 (-1) (-3) (-3), hv 7 (-1) (-3) 1,
   hv 7 (-1) (-3) 5, hv 7 (-1) (-1) (-5), hv 7 (-1) (-1) (-1), hv 7 (-1) (-1) 3,
   hv 7 (-1) (-1) 7, hv 7 (-1) 1 (-7), hv 7 (-1) 1 (-3), hv 7 (-1) 1 1,
   hv 7 (-1) 1 5, hv 7 (-1) 3 (-5), hv 7 (-1) 3 (-1), hv 7 (-1) 3 3,
   hv 7 (-1) 3 7, hv 7 (-1) 5 (-3), hv 7 (-1) 5 1, hv 7 (-1) 5 5,
   hv 7 (-1) 7 (-1), hv 7 (-1) 7 3, hv 7 1 (-7) (-1), hv 7 1 (-7) 3,
   hv 7 1 (-5) (-3), hv 7 1 (-5) 1, hv 7 1 (-5) 5, hv 7 1 (-3) (-5),
   hv 7 1 (-3) (-1), hv 7 1 (-3) 3, hv 7 1 (-3) 7, hv 7 1 (-1) (-7),
   hv 7 1 (-1) (-3), hv 7 1 (-1) 1, hv 7 1 (-1) 5, hv 7 1 1 (-5),
   hv 7 1 1 (-1), hv 7 1 1 3, hv 7 1 1 7, hv 7 1 3 (-7),
   hv 7 1 3 (-3), hv 7 1 3 1, hv 7 1 3 5, hv 7 1 5 (-5),
   hv 7 1 5 (-1), hv 7 1 5 3, hv 7 1 7 (-3), hv 7 1 7 1,
   hv 7 3 (-7) 1, hv 7 3 (-5) (-5), hv 7 3 (-5) (-1), hv 7 3 (-5) 3,
   hv 7 3 (-3) (-3), hv 7 3 (-3) 1, hv 7 3 (-3) 5, hv 7 3 (-1) (-5),
   hv 7 3 (-1) (-1), hv 7 3 (-1) 3, hv 7 3 (-1) 7, hv 7 3 1 (-7),
   hv 7 3 1 (-3), hv 7 3 1 1, hv 7 3 1 5, hv 7 3 3 (-5),
   hv 7 3 3 (-1), hv 7 3 3 3, hv 7 3 5 (-3), hv 7 3 5 1,
   hv 7 3 5 5, hv 7 3 7 (-1), hv 7 5 (-5) (-3), hv 7 5 (-5) 1,
   hv 7 5 (-3) (-5), hv 7 5 (-3) (-1), hv 7 5 (-3) 3, hv 7 5 (-1) (-3),
   hv 7 5 (-1) 1, hv 7 5 (-1) 5, hv 7 5 1 (-5), hv 7 5 1 (-1),
   hv 7 5 1 3, hv 7 5 3 (-3), hv 7 5 3 1, hv 7 5 3 5,
   hv 7 5 5 (-1), hv 7 5 5 3, hv 7 7 (-3) 1, hv 7 7 (-1) (-1),
   hv 7 7 (-1) 3, hv 7 7 1 (-3), hv 7 7 1 1, hv 7 7 3 (-1)]

def sliceL9 : List V4 :=
  [hv 9 (-5) (-1) 1, hv 9 (-5) 1 (-1), hv 9 (-3) (-3) (-3), hv 9 (-3) (-3) 1,
   hv 9 (-3) (-1) (-1), hv 9 (-3) (-1) 3, hv 9 (-3) 1 (-3), hv 9 (-3) 1 1,
   hv 9 (-3) 3 (-1), hv 9 (-3) 3 3, hv 9 (-1) (-5) 1, hv 9 (-1) (-3) (-1),
   hv 9 (-1) (-3) 3, hv 9 (-1) (-1) (-3), hv 9 (-1) (-1) 1, hv 9 (-1) (-1) 5,
   hv 9 (-1) 1 (-5), hv 9 (-1) 1 (-1), hv 9 (-1) 1 3, hv 9 (-1) 3 (-3),
   hv 9 (-1) 3 1, hv 9 (-1) 5 (-1), hv 9 1 (-5) (-1), hv 9 1 (-3) (-3),
   hv 9 1 (-3) 1, hv 9 1 (-1) (-5), hv 9 1 (-1) (-1), hv 9 1 (-1) 3,
   hv 9 1 1 (-3), hv 9 1 1 1, hv 9 1 1 5, hv 9 1 3 (-1),
   hv 9 1 3 3, hv 9 1 5 1, hv 9 3 (-3) (-1), hv 9 3 (-3) 3,
   hv 9 3 (-1) (-3), hv 9 3 (-1) 1, hv 9 3 1 (-1), hv 9 3 1 3,
   hv 9 3 3 (-3), hv 9 3 3 1, hv 9 5 (-1) (-1), hv 9 5 1 1]

/-- The full grid as an explicit literal (assembled from the ten blocks). -/
def gridL : List V4 :=
  sliceL0 ++ (sliceL1 ++ (sliceL2 ++ (sliceL3 ++ (sliceL4 ++
    (sliceL5 ++ (sliceL6 ++ (sliceL7 ++ (sliceL8 ++ sliceL9))))))))

/-! ### The truncated grid, slice by slice -/

def gpSlice0 : List V4 :=
  [
   hv (-9) (-1) 1 1, hv (-9) (-1) 1 5, hv (-9) (-1) 3 3, hv (-9) (-1) 5 1,
   hv (-9) 1 (-1) 1, hv (-9) 1 (-1) 5, hv (-9) 1 1 (-1), hv (-9) 1 1 3,
   hv (-9) 1 3 1, hv (-9) 1 5 (-1), hv (-9) 3 (-1) 3, hv (-9) 3 1 1,
   hv (-9) 3 3 (-1), hv (-9) 3 3 3, hv (-9) 5 (-1) 1, hv (-9) 5 1 (-1)]

def gpSlice1 : List V4 :=
  [
   hv (-7) (-1) 1 3, hv (-7) (-1) 1 7, hv (-7) (-1) 3 1, hv (-7) (-1) 3 5,
   hv (-7) (-1) 5 3, hv (-7) (-1) 7 1, hv (-7) 1 (-1) 3, hv (-7) 1 (-1) 7,
   hv (-7) 1 1 1, hv (-7) 1 1 5, hv (-7) 1 3 (-1), hv (-7) 1 3 3,
   hv (-7) 1 3 7, hv (-7) 1 5 1, hv (-7) 1 5 5, hv (-7) 1 7 (-1),
   hv (-7) 1 7 3, hv (-7) 3 (-1) 1, hv (-7) 3 (-1) 5, hv (-7) 3 1 (-1),
   hv (-7) 3 1 3, hv (-7) 3 1 7, hv (-7) 3 3 1, hv (-7) 3 3 5,
   hv (-7) 3 5 (-1), hv (-7) 3 5 3, hv (-7) 3 7 1, hv (-7) 5 (-1) 3,
   hv (-7) 5 1 1, hv (-7) 5 1 5, hv (-7) 5 3 (-1), hv (-7) 5 3 3,
   hv (-7) 5 5 1, hv (-7) 7 (-1) 1, hv (-7) 7 1 (-1), hv (-7) 7 1 3,
   hv (-7) 7 3 1]

def gpSlice2 : List V4 :=
  [
   hv (-5) (-1) 1 1, hv (-5) (-1) 1 5, hv (-5) (-1) 1 9, hv (-5) (-1) 3 3,
   hv (-5) (-1) 3 7, hv (-5) (-1) 5 1, hv (-5) (-1) 5 5, hv (-5) (-1) 7 3,
   hv (-5) (-1) 9 1, hv (-5) 1 (-1) 1, hv (-5) 1 (-1) 5, hv (-5) 1 (-1) 9,
   hv (-5) 1 1 (-1), hv (-5) 1 1 3, hv (-5) 1 1 7, hv (-5) 1 3 1,
   hv (-5) 1 3 5, hv (-5) 1 5 (-1), hv (-5) 1 5 3, hv (-5) 1 5 7,
   hv (-5) 1 7 1, hv (-5) 1 7 5, hv (-5) 1 9 (-1), hv (-5) 3 (-1) 3,
   hv (-5) 3 (-1) 7, hv (-5) 3 1 1, hv (-5) 3 1 5, hv (-5) 3 3 (-1),
   hv (-5) 3 3 3, hv (-5) 3 3 7, hv (-5) 3 5 1, hv (-5) 3 5 5,
   hv (-5) 3 7 (-1), hv (-5) 3 7 3, hv (-5) 5 (-1) 1, hv (-5) 5 (-1) 5,
   hv (-5) 5 1 (-1), hv (-5) 5 1 3, hv (-5) 5 1 7, hv (-5) 5 3 1,
   hv (-5) 5 3 5, hv (-5) 5 5 (-1), hv (-5) 5 5 3, hv (-5) 5 7 1,
   hv (-5) 7 (-1) 3, hv (-5) 7 1 1, hv (-5) 7 1 5, hv (-5) 7 3 (-1),
   hv (-5) 7 3 3, hv (-5) 7 5 1, hv (-5) 9 (-1) 1, hv (-5) 9 1 (-1)]

def gpSlice3 : List V4 :=
  [
   hv (-3) (-1) 1 3, hv (-3) (-1) 1 7, hv (-3) (-1) 3 1, hv (-3) (-1) 3 5,
   hv (-3) (-1) 3 9, hv (-3) (-1) 5 3, hv (-3) (-1) 5 7, hv (-3) (-1) 7 1,
   hv (-3) (-1) 7 5, hv (-3) (-1) 9 3, hv (-3) 1 (-1) 3, hv (-3) 1 (-1) 7,
   hv (-3) 1 1 1, hv (-3) 1 1 5, hv (-3) 1 1 9, hv (-3) 1 3 (-1),
   hv (-3) 1 3 3, hv (-3) 1 3 7, hv (-3) 1 5 1, hv (-3) 1 5 5,
   hv (-3) 1 7 (-1), hv (-3) 1 7 3, hv (-3) 1 7 7, hv (-3) 1 9 1,
   hv (-3) 3 (-1) 1, hv (-3) 3 (-1) 5, hv (-3) 3 (-1) 9, hv (-3) 3 1 (-1),
   hv (-3) 3 1 3, hv (-3) 3 1 7, hv (-3) 3 3 1, hv (-3) 3 3 5,
   hv (-3) 3 3 9, hv (-3) 3 5 (-1), hv (-3) 3 5 3, hv (-3) 3 5 7,
   hv (-3) 3 7 1, hv (-3) 3 7 5, hv (-3) 3 9 (-1), hv (-3) 3 9 3,
   hv (-3) 5 (-1) 3, hv (-3) 5 (-1) 7, hv (-3) 5 1 1, hv (-3) 5 1 5,
   hv (-3) 5 3 (-1), hv (-3) 5 3 3, hv (-3) 5 3 7, hv (-3) 5 5 1,
   hv (-3) 5 5 5, hv (-3) 5 7 (-1), hv (-3) 5 7 3, hv (-3) 7 (-1) 1,
   hv (-3) 7 (-1) 5, hv (-3) 7 1 (-1), hv (-3) 7 1 3, hv (-3) 7 1 7,
   hv (-3) 7 3 1, hv (-3) 7 3 5, hv (-3) 7 5 (-1), hv (-3) 7 5 3,
   hv (-3) 7 7 1, hv (-3) 9 (-1) 3, hv (-3) 9 1 1, hv (-3) 9 3 (-1),
   hv (-3) 9 3 3]

def gpSlice4 : List V4 :=
  [
   hv (-1) (-1) 1 1, hv (-1) (-1) 1 5, hv (-1) (-1) 1 9, hv (-1) (-1) 3 3,
   hv (-1) (-1) 3 7, hv (-1) (-1) 5 1, hv (-1) (-1) 5 5, hv (-1) (-1) 5 9,
   hv (-1) (-1) 7 3, hv (-1) (-1) 7 7, hv (-1) (-1) 9 1, hv (-1) (-1) 9 5,
   hv (-1) 1 (-1) 1, hv (-1) 1 (-1) 5, hv (-1) 1 (-1) 9, hv (-1) 1 1 (-1),
   hv (-1) 1 1 3, hv (-1) 1 1 7, hv (-1) 1 3 1, hv (-1) 1 3 5,
   hv (-1) 1 3 9, hv (-1) 1 5 (-1), hv (-1) 1 5 3, hv (-1) 1 5 7,
   hv (-1) 1 7 1, hv (-1) 1 7 5, hv (-1) 1 9 (-1), hv (-1) 1 9 3,
   hv (-1) 3 (-1) 3, hv (-1) 3 (-1) 7, hv (-1) 3 1 1, hv (-1) 3 1 5,
   hv (-1) 3 1 9, hv (-1) 3 3 (-1), hv (-1) 3 3 3, hv (-1) 3 3 7,
   hv (-1) 3 5 1, hv (-1) 3 5 5, hv (-1) 3 7 (-1), hv (-1) 3 7 3,
   hv (-1) 3 7 7, hv (-1) 3 9 1, hv (-1) 5 (-1) 1, hv (-1) 5 (-1) 5,
   hv (-1) 5 (-1) 9, hv (-1) 5 1 (-1), hv (-1) 5 1 3, hv (-1) 5 1 7,
   hv (-1) 5 3 1, hv (-1) 5 3 5, hv (-1) 5 5 (-1), hv (-1) 5 5 3,
   hv (-1) 5 5 7, hv (-1) 5 7 1, hv (-1) 5 7 5, hv (-1) 5 9 (-1),
   hv (-1) 7 (-1) 3, hv (-1) 7 (-1) 7, hv (-1) 7 1 1, hv (-1) 7 1 5,
   hv (-1) 7 3 (-1), hv (-1) 7 3 3, hv (-1) 7 3 7, hv (-1) 7 5 1,
   hv (-1) 7 5 5, hv (-1) 7 7 (-1), hv (-1) 7 7 3, hv (-1) 9 (-1) 1,
   hv (-1) 9 (-1) 5, hv (-1) 9 1 (-1), hv (-1) 9 1 3, hv (-1) 9 3 1,
   hv (-1) 9 5 (-1)]

def gpSlice5 : List V4 :=
  [
   hv 1 (-1) 1 3, hv 1 (-1) 1 7, hv 1 (-1) 3 1, hv 1 (-1) 3 5,
   hv 1 (-1) 3 9, hv 1 (-1) 5 3, hv 1 (-1) 5 7, hv 1 (-1) 7 1,
   hv 1 (-1) 7 5, hv 1 (-1) 9 3, hv 1 1 (-1) 3, hv 1 1 (-1) 7,
   hv 1 1 1 1, hv 1 1 1 5, hv 1 1 1 9, hv 1 1 3 (-1),
   hv 1 1 3 3, hv 1 1 3 7, hv 1 1 5 1, hv 1 1 5 5,
   hv 1 1 5 9, hv 1 1 7 (-1), hv 1 1 7 3, hv 1 1 7 7,
   hv 1 1 9 1, hv 1 1 9 5, hv 1 3 (-1) 1, hv 1 3 (-1) 5,
   hv 1 3 (-1) 9, hv 1 3 1 (-1), hv 1 3 1 3, hv 1 3 1 7,
   hv 1 3 3 1, hv 1 3 3 5, hv 1 3 3 9, hv 1 3 5 (-1),
   hv 1 3 5 3, hv 1 3 5 7, hv 1 3 7 1, hv 1 3 7 5,
   hv 1 3 9 (-1), hv 1 3 9 3, hv 1 5 (-1) 3, hv 1 5 (-1) 7,
   hv 1 5 1 1, hv 1 5 1 5, hv 1 5 1 9, hv 1 5 3 (-1),
   hv 1 5 3 3, hv 1 5 3 7, hv 1 5 5 1, hv 1 5 5 5,
   hv 1 5 7 (-1), hv 1 5 7 3, hv 1 5 9 1, hv 1 7 (-1) 1,
   hv 1 7 (-1) 5, hv 1 7 1 (-1), hv 1 7 1 3, hv 1 7 1 7,
   hv 1 7 3 1, hv 1 7 3 5, hv 1 7 5 (-1), hv 1 7 5 3,
   hv 1 7 7 1, hv 1 9 (-1) 3, hv 1 9 1 1, hv 1 9 1 5,
   hv 1 9 3 (-1), hv 1 9 3 3, hv 1 9 5 1]

def gpSlice6 : List V4 :=
  [
   hv 3 (-1) 1 1, hv 3 (-1) 1 5, hv 3 (-1) 1 9, hv 3 (-1) 3 3,
   hv 3 (-1) 3 7, hv 3 (-1) 5 1, hv 3 (-1) 5 5, hv 3 (-1) 7 3,
   hv 3 (-1) 7 7, hv 3 (-1) 9 1, hv 3 1 (-1) 1, hv 3 1 (-1) 5,
   hv 3 1 (-1) 9, hv 3 1 1 (-1), hv 3 1 1 3, hv 3 1 1 7,
   hv 3 1 3 1, hv 3 1 3 5, hv 3 1 3 9, hv 3 1 5 (-1),
   hv 3 1 5 3, hv 3 1 5 7, hv 3 1 7 1, hv 3 1 7 5,
   hv 3 1 9 (-1), hv 3 1 9 3, hv 3 3 (-1) 3, hv 3 3 (-1) 7,
   hv 3 3 1 1, hv 3 3 1 5, hv 3 3 1 9, hv 3 3 3 (-1),
   hv 3 3 3 3, hv 3 3 3 7, hv 3 3 5 1, hv 3 3 5 5,
   hv 3 3 7 (-1), hv 3 3 7 3, hv 3 3 9 1, hv 3 5 (-1) 1,
   hv 3 5 (-1) 5, hv 3 5 1 (-1), hv 3 5 1 3, hv 3 5 1 7,
   hv 3 5 3 1, hv 3 5 3 5, hv 3 5 5 (-1), hv 3 5 5 3,
   hv 3 5 5 7, hv 3 5 7 1, hv 3 5 7 5, hv 3 7 (-1) 3,
   hv 3 7 (-1) 7, hv 3 7 1 1, hv 3 7 1 5, hv 3 7 3 (-1),
   hv 3 7 3 3, hv 3 7 5 1, hv 3 7 5 5, hv 3 7 7 (-1),
   hv 3 9 (-1) 1, hv 3 9 1 (-1), hv 3 9 1 3, hv 3 9 3 1]

def gpSlice7 : List V4 :=
  [
   hv 5 (-1) 1 3, hv 5 (-1) 1 7, hv 5 (-1) 3 1, hv 5 (-1) 3 5,
   hv 5 (-1) 5 3, hv 5 (-1) 5 7, hv 5 (-1) 7 1, hv 5 (-1) 7 5,
   hv 5 1 (-1) 3, hv 5 1 (-1) 7, hv 5 1 1 1, hv 5 1 1 5,
   hv 5 1 1 9, hv 5 1 3 (-1), hv 5 1 3 3, hv 5 1 3 7,
   hv 5 1 5 1, hv 5 1 5 5, hv 5 1 7 (-1), hv 5 1 7 3,
   hv 5 1 9 1, hv 5 3 (-1) 1, hv 5 3 (-1) 5, hv 5 3 1 (-1),
   hv 5 3 1 3, hv 5 3 1 7, hv 5 3 3 1, hv 5 3 3 5,
   hv 5 3 5 (-1), hv 5 3 5 3, hv 5 3 5 7, hv 5 3 7 1,
   hv 5 3 7 5, hv 5 5 (-1) 3, hv 5 5 (-1) 7, hv 5 5 1 1,
   hv 5 5 1 5, hv 5 5 3 (-1), hv 5 5 3 3, hv 5 5 3 7,
   hv 5 5 5 1, hv 5 5 5 5, hv 5 5 7 (-1), hv 5 5 7 3,
   hv 5 7 (-1) 1, hv 5 7 (-1) 5, hv 5 7 1 (-1), hv 5 7 1 3,
   hv 5 7 3 1, hv 5 7 3 5, hv 5 7 5 (-1), hv 5 7 5 3,
   hv 5 9 1 1]

def gpSlice8 : List V4 :=
  [
   hv 7 (-1) 1 1, hv 7 (-1) 1 5, hv 7 (-1) 3 3, hv 7 (-1) 3 7,
   hv 7 (-1) 5 1, hv 7 (-1) 5 5, hv 7 (-1) 7 3, hv 7 1 (-1) 1,
   hv 7 1 (-1) 5, hv 7 1 1 (-1), hv 7 1 1 3, hv 7 1 1 7,
   hv 7 1 3 1, hv 7 1 3 5, hv 7 1 5 (-1), hv 7 1 5 3,
   hv 7 1 7 1, hv 7 3 (-1) 3, hv 7 3 (-1) 7, hv 7 3 1 1,
   hv 7 3 1 5, hv 7 3 3 (-1), hv 7 3 3 3, hv 7 3 5 1,
   hv 7 3 5 5, hv 7 3 7 (-1), hv 7 5 (-1) 1, hv 7 5 (-1) 5,
   hv 7 5 1 (-1), hv 7 5 1 3, hv 7 5 3 1, hv 7 5 3 5,
   hv 7 5 5 (-1), hv 7 5 5 3, hv 7 7 (-1) 3, hv 7 7 1 1,
   hv 7 7 3 (-1)]

def gpSlice9 : List V4 :=
  [
   hv 9 (-1) 1 3, hv 9 (-1) 3 1, hv 9 1 (-1) 3, hv 9 1 1 1,
   hv 9 1 1 5, hv 9 1 3 (-1), hv 9 1 3 3, hv 9 1 5 1,
   hv 9 3 (-1) 1, hv 9 3 1 (-1), hv 9 3 1 3, hv 9 3 3 1,
   hv 9 5 1 1]

/-- The truncated grid as an explicit literal (assembled from the ten blocks). -/
def gridPartL : List V4 :=
  gpSlice0 ++ (gpSlice1 ++ (gpSlice2 ++ (gpSlice3 ++ (gpSlice4 ++
    (gpSlice5 ++ (gpSlice6 ++ (gpSlice7 ++ (gpSlice8 ++ gpSlice9))))))))

/-- Strict lexicographic order on rows (the generation order of the grid). -/
def lexLt (a b : V4) : Prop :=
  a.1 < b.1 ∨ (a.1 = b.1 ∧ (a.2.1 < b.2.1 ∨ (a.2.1 = b.2.1 ∧
    (a.2.2.1 < b.2.2.1 ∨ (a.2.2.1 = b.2.2.1 ∧ a.2.2.2 < b.2.2.2)))))

/-- Executable form of `lexLt`. -/
def lexLtB (a b : V4) : Bool :=
  decide (a.1 < b.1) || (a.1 == b.1 && (decide (a.2.1 < b.2.1) || (a.2.1 == b.2.1 &&
    (decide (a.2.2.1 < b.2.2.1) || (a.2.2.1 == b.2.2.1 && decide (a.2.2.2 < b.2.2.2))))))

/-- Executable strict-ascending check for a row list. -/
def chainB : List V4 → Bool
  | [] => true
  | [_] => true
  | a :: b :: l => lexLtB a b && chainB (b :: l)

/-- Boundary check between two blocks. -/
def optLexLtB : Option V4 → Option V4 → Bool
  | some u, some v => lexLtB u v
  | _, _ => true

/-! ### Closure of the grid under parity-preserving sign flips -/

/-- Flip the signs of the components selected by the four Booleans. -/
def applySigns (e1 e2 e3 e4 : Bool) (v : V4) : V4 :=
  ((bif e1 then -v.1 else v.1), (bif e2 then -v.2.1 else v.2.1),
   (bif e3 then -v.2.2.1 else v.2.2.1), (bif e4 then -v.2.2.2 else v.2.2.2))

/-! ### The sign mask of `quantize`, as four Booleans -/

/-- Sign row with −1 at the selected positions and +1 elsewhere. -/
def signVec (e1 e2 e3 e4 : Bool) : V4 :=
  ((bif e1 then (-1 : ℚ) else 1), (bif e2 then (-1 : ℚ) else 1),
   (bif e3 then (-1 : ℚ) else 1), (bif e4 then (-1 : ℚ) else 1))

/-- The mask's first sign bit: the sign of the first component, flipped on
odd-parity rows. -/
def maskBit0 (x : V4) : Bool := xor (decide (x.1 < 0)) (oddNeg x)

/-- The 4-bit integer encoded by the sign booleans (bit j set ⟺ component j
negative in the mask). -/
def bitsInt (e1 e2 e3 e4 : Bool) : ℕ :=
  e1.toNat + 2 * e2.toNat + 4 * e3.toNat + 8 * e4.toNat

/-- Proof device for the nearest-neighbour argument: a point of the truncated
grid that is at least as close as `u` to any row with nonnegative tail
components.  Negative tail coordinates are sign-flipped in pairs; an odd
leftover `q` is sent to `-q - 1`, which preserves grid membership. -/
def domRep (u : V4) : V4 :=
  if u.2.1 < 0 then
    if u.2.2.1 < 0 then
      if u.2.2.2 < 0 then (u.1, -u.2.1 - 1, -u.2.2.1, -u.2.2.2)
      else (u.1, -u.2.1, -u.2.2.1, u.2.2.2)
    else
      if u.2.2.2 < 0 then (u.1, -u.2.1, u.2.2.1, -u.2.2.2)
      else (u.1, -u.2.1 - 1, u.2.2.1, u.2.2.2)
  else
    if u.2.2.1 < 0 then
      if u.2.2.2 < 0 then (u.1, u.2.1, -u.2.2.1, -u.2.2.2)
      else (u.1, u.2.1, -u.2.2.1 - 1, u.2.2.2)
    else
      if u.2.2.2 < 0 then (u.1, u.2.1, u.2.2.1, -u.2.2.2 - 1)
      else u

/-! ### Theorems -/

/-! ### Generic list lemmas -/

theorem filter_flatMap_eq {α β : Type} (l : List α) (f : α → List β) (p : β → Bool) :
    (l.flatMap f).filter p = l.flatMap fun a => (f a).filter p := by
  induction l with
  | nil => rfl
  | cons a l ih => simp [List.flatMap_cons, List.filter_append, ih]

theorem roundScores_map (x : V4) (L : List V4) (f : V4 → ℚ) :
    roundScores x L (L.map f) = L.map fun g => 2 * dot x g - f g := by
  induction L with
  | nil => rfl
  | cons g L ih => simpa [roundScores, List.zip_cons_cons] using ih

theorem score_eq_sqnorm_sub_dist2 (x g : V4) :
    2 * dot x g - dot g g = sqnorm x - dist2 x g := by
  simp only [dot, sqnorm, dist2, vsub]
  ring

/-- Invariant of the first-occurrence `argmax` scan: it returns either the incoming
best index with everything in the remaining list at most the incoming best value, or
the (offset) position of the first maximal entry strictly above the incoming best. -/
theorem argmaxAux_spec (l : List ℚ) : ∀ (best : ℚ) (bi i : ℕ),
    (argmaxAux l best bi i = bi ∧ ∀ x ∈ l, x ≤ best) ∨
    (∃ j, ∃ hj : j < l.length, argmaxAux l best bi i = i + j ∧
      best < l.get ⟨j, hj⟩ ∧ (∀ k, ∀ hk : k < l.length, l.get ⟨k, hk⟩ ≤ l.get ⟨j, hj⟩) ∧
      ∀ k, ∀ hk : k < j, l.get ⟨k, Nat.lt_trans hk hj⟩ < l.get ⟨j, hj⟩) := by
  induction l with
  | nil => intro best bi i; left; exact ⟨rfl, by simp⟩
  | cons s rest ih =>
    intro best bi i
    by_cases h : best < s
    · rcases ih s i (i + 1) with ⟨heq, hall⟩ | ⟨j, hj, heq, hgt, hmax, hfirst⟩
      · right
        refine ⟨0, by simp, by simpa [argmaxAux, if_pos h] using heq, by simpa using h, ?_, ?_⟩
        · intro k hk
          cases k with
          | zero => simp
          | succ k =>
            have hk2 : k < rest.length := by simpa using hk
            simpa using hall _ (rest.get_mem k hk2)
        · intro k hk; omega
      · right
        refine ⟨j + 1, by simpa using Nat.succ_lt_succ hj, ?_, ?_, ?_, ?_⟩
        · simp only [argmaxAux, if_pos h, heq]; omega
        · simpa using lt_trans h hgt
        · intro k hk
          cases k with
          | zero => simpa using le_of_lt hgt
          | succ k => simpa using hmax k (by simpa using hk)
        · intro k hk
          cases k with
          | zero => simpa using hgt
          | succ k => simpa using hfirst k (by omega)
    · rcases ih best bi (i + 1) with ⟨heq, hall⟩ | ⟨j, hj, heq, hgt, hmax, hfirst⟩
      · left
        refine ⟨by simpa [argmaxAux, if_neg h] using heq, ?_⟩
        intro x hx
        rcases List.mem_cons.mp hx with rfl | hx
        · exact le_of_not_lt h
        · exact hall x hx
      · right
        refine ⟨j + 1, by simpa using Nat.succ_lt_succ hj, ?_, ?_, ?_, ?_⟩
        · simp only [argmaxAux, if_neg h, heq]; omega
        · simpa using hgt
        · intro k hk
          cases k with
          | zero => simpa using le_trans (le_of_not_lt h) (le_of_lt hgt)
          | succ k => simpa using hmax k (by simpa using hk)
        · intro k hk
          cases k with
          | zero => simpa using lt_of_le_of_lt (le_of_not_lt h) hgt
          | succ k => simpa using hfirst k (by omega)

/-- The first-occurrence `argmax` of a nonempty list: in bounds, attains the
maximum, and every earlier entry is strictly below it. -/
theorem argmax_spec (l : List ℚ) (hl : l ≠ []) :
    ∃ hm : argmax l < l.length,
      (∀ k, ∀ hk : k < l.length, l.get ⟨k, hk⟩ ≤ l.get ⟨argmax l, hm⟩) ∧
      ∀ k, ∀ hk : k < argmax l, l.get ⟨k, Nat.lt_trans hk hm⟩ < l.get ⟨argmax l, hm⟩ := by
  match l with
  | [] => exact absurd rfl hl
  | s :: rest =>
    rcases argmaxAux_spec rest s 0 1 with ⟨heq, hall⟩ | ⟨j, hj, heq, hgt, hmax, hfirst⟩
    · have hz : argmax (s :: rest) = 0 := heq
      refine ⟨by simp [hz], ?_, ?_⟩
      · intro k hk
        cases k with
        | zero => simp [hz]
        | succ k =>
          have hk2 : k < rest.length := by simpa using hk
          simpa [hz] using hall _ (rest.get_mem k hk2)
      · intro k hk; rw [hz] at hk; omega
    · have hz : argmax (s :: rest) = j + 1 := by
        simpa [argmax, Nat.add_comm] using heq
      refine ⟨by simpa [hz] using Nat.succ_lt_succ hj, ?_, ?_⟩
      · intro k hk
        cases k with
        | zero => simpa [hz] using le_of_lt hgt
        | succ k => simpa [hz] using hmax k (by simpa using hk)
      · intro k hk
        rw [hz] at hk
        cases k with
        | zero => simpa [hz] using hgt
        | succ k => simpa [hz] using hfirst k (by omega)

/-- Invariant of the first-occurrence `argmin` scan (mirror of `argmaxAux_spec`). -/
theorem argminAux_spec (l : List ℚ) : ∀ (best : ℚ) (bi i : ℕ),
    (argminAux l best bi i = bi ∧ ∀ x ∈ l, best ≤ x) ∨
    (∃ j, ∃ hj : j < l.length, argminAux l best bi i = i + j ∧
      l.get ⟨j, hj⟩ < best ∧ (∀ k, ∀ hk : k < l.length, l.get ⟨j, hj⟩ ≤ l.get ⟨k, hk⟩) ∧
      ∀ k, ∀ hk : k < j, l.get ⟨j, hj⟩ < l.get ⟨k, Nat.lt_trans hk hj⟩) := by
  induction l with
  | nil => intro best bi i; left; exact ⟨rfl, by simp⟩
  | cons s rest ih =>
    intro best bi i
    by_cases h : s < best
    · rcases ih s i (i + 1) with ⟨heq, hall⟩ | ⟨j, hj, heq, hgt, hmin, hfirst⟩
      · right
        refine ⟨0, by simp, by simpa [argminAux, if_pos h] using heq, by simpa using h, ?_, ?_⟩
        · intro k hk
          cases k with
          | zero => simp
          | succ k =>
            have hk2 : k < rest.length := by simpa using hk
            simpa using hall _ (rest.get_mem k hk2)
        · intro k hk; omega
      · right
        refine ⟨j + 1, by simpa using Nat.succ_lt_succ hj, ?_, ?_, ?_, ?_⟩
        · simp only [argminAux, if_pos h, heq]; omega
        · simpa using lt_trans hgt h
        · intro k hk
          cases k with
          | zero => simpa using le_of_lt hgt
          | succ k => simpa using hmin k (by simpa using hk)
        · intro k hk
          cases k with
          | zero => simpa using hgt
          | succ k => simpa using hfirst k (by omega)
    · rcases ih best bi (i + 1) with ⟨heq, hall⟩ | ⟨j, hj, heq, hgt, hmin, hfirst⟩
      · left
        refine ⟨by simpa [argminAux, if_neg h] using heq, ?_⟩
        intro x hx
        rcases List.mem_cons.mp hx with rfl | hx
        · exact le_of_not_lt h
        · exact hall x hx
      · right
        refine ⟨j + 1, by simpa using Nat.succ_lt_succ hj, ?_, ?_, ?_, ?_⟩
        · simp only [argminAux, if_neg h, heq]; omega
        · simpa using hgt
        · intro k hk
          cases k with
          | zero => simpa using le_trans (le_of_lt hgt) (le_of_not_lt h)
          | succ k => simpa using hmin k (by simpa using hk)
        · intro k hk
          cases k with
          | zero => simpa using lt_of_lt_of_le hgt (le_of_not_lt h)
          | succ k => simpa using hfirst k (by omega)

/-- The first-occurrence `argmin` of a nonempty list: in bounds, attains the
minimum, and is strictly below every earlier entry. -/
theorem argminFirst_spec (l : List ℚ) (hl : l ≠ []) :
    ∃ hm : argminFirst l < l.length,
      (∀ k, ∀ hk : k < l.length, l.get ⟨argminFirst l, hm⟩ ≤ l.get ⟨k, hk⟩) ∧
      ∀ k, ∀ hk : k < argminFirst l,
        l.get ⟨argminFirst l, hm⟩ < l.get ⟨k, Nat.lt_trans hk hm⟩ := by
  match l with
  | [] => exact absurd rfl hl
  | s :: rest =>
    rcases argminAux_spec rest s 0 1 with ⟨heq, hall⟩ | ⟨j, hj, heq, hgt, hmin, hfirst⟩
    · have hz : argminFirst (s :: rest) = 0 := heq
      refine ⟨by simp [hz], ?_, ?_⟩
      · intro k hk
        cases k with
        | zero => simp [hz]
        | succ k =>
          have hk2 : k < rest.length := by simpa using hk
          simpa [hz] using hall _ (rest.get_mem k hk2)
      · intro k hk; rw [hz] at hk; omega
    · have hz : argminFirst (s :: rest) = j + 1 := by
        simpa [argminFirst, Nat.add_comm] using heq
      refine ⟨by simpa [hz] using Nat.succ_lt_succ hj, ?_, ?_⟩
      · intro k hk
        cases k with
        | zero => simpa [hz] using le_of_lt hgt
        | succ k => simpa [hz] using hmin k (by simpa using hk)
      · intro k hk
        rw [hz] at hk
        cases k with
        | zero => simpa [hz] using hgt
        | succ k => simpa [hz] using hfirst k (by omega)

/-- A list has at most one index that attains the minimum and strictly beats every
earlier entry. -/
theorem first_min_unique (l : List ℚ) (i1 i2 : ℕ) (h1 : i1 < l.length) (h2 : i2 < l.length)
    (min1 : ∀ k, ∀ hk : k < l.length, l.get ⟨i1, h1⟩ ≤ l.get ⟨k, hk⟩)
    (first1 : ∀ k, ∀ hk : k < i1, l.get ⟨i1, h1⟩ < l.get ⟨k, Nat.lt_trans hk h1⟩)
    (min2 : ∀ k, ∀ hk : k < l.length, l.get ⟨i2, h2⟩ ≤ l.get ⟨k, hk⟩)
    (first2 : ∀ k, ∀ hk : k < i2, l.get ⟨i2, h2⟩ < l.get ⟨k, Nat.lt_trans hk h2⟩) :
    i1 = i2 := by
  rcases lt_trichotomy i1 i2 with hlt | heq | hgt
  · exact absurd (min1 i2 h2) (not_le_of_lt (first2 i1 hlt))
  · exact heq
  · exact absurd (min2 i1 h1) (not_le_of_lt (first1 i2 hgt))

/-- With the parallel norm table, `round`'s argmax over scores picks exactly the
first-occurrence nearest neighbour by squared distance. -/
theorem roundIdx_eq_specNearestIdx (x : V4) (L : List V4) (hL : L ≠ []) :
    roundIdx x L (L.map fun g => dot g g) = specNearestIdx x L := by
  show argmax (roundScores x L (L.map fun g => dot g g))
      = argminFirst (L.map fun g => dist2 x g)
  have hsc : roundScores x L (L.map fun g => dot g g)
      = L.map fun g => sqnorm x - dist2 x g := by
    rw [roundScores_map]
    exact List.map_congr_left fun g _ => score_eq_sqnorm_sub_dist2 x g
  have hslen : (roundScores x L (L.map fun g => dot g g)).length = L.length := by
    rw [hsc]; simp
  have hdlen : (L.map fun g => dist2 x g).length = L.length := by simp
  have hsne : roundScores x L (L.map fun g => dot g g) ≠ [] := by
    intro hnil
    rw [hnil] at hslen
    exact hL (List.length_eq_zero.mp hslen.symm)
  have hdne : (L.map fun g => dist2 x g) ≠ [] := by
    intro hnil
    rw [hnil] at hdlen
    exact hL (List.length_eq_zero.mp hdlen.symm)
  obtain ⟨hm, hmax, hfirst⟩ := argmax_spec _ hsne
  obtain ⟨hm2, hmin2, hfirst2⟩ := argminFirst_spec _ hdne
  have hscget : ∀ k, ∀ hk1 : k < (roundScores x L (L.map fun g => dot g g)).length,
      ∀ hk2 : k < (L.map fun g => dist2 x g).length,
      (roundScores x L (L.map fun g => dot g g)).get ⟨k, hk1⟩
        = sqnorm x - (L.map fun g => dist2 x g).get ⟨k, hk2⟩ := by
    intro k hk1 hk2
    have h3 := List.get_of_eq hsc ⟨k, hk1⟩
    rw [h3]
    simp
  refine first_min_unique (L.map fun g => dist2 x g) _ _
    (by omega) (by omega) ?_ ?_ hmin2 hfirst2
  · intro k hk
    have h1 := hmax k (by omega)
    rw [hscget k (by omega) hk, hscget _ hm (by omega)] at h1
    linarith
  · intro k hk
    have h1 := hfirst k (by omega)
    rw [hscget k (by omega) (by omega), hscget _ hm (by omega)] at h1
    linarith

theorem cartesianProd4_eq_cp4g (l : List ℚ) : cartesianProd4 l = cp4g l l l l := rfl

theorem filter_of_const {m : List V4} {p : V4 → Bool} {c : Bool}
    (h : ∀ v ∈ m, p v = c) : m.filter p = if c then m else [] := by
  induction m with
  | nil => cases c <;> rfl
  | cons v m ih =>
    have hv := h v (List.mem_cons_self v m)
    have ihh := ih fun w hw => h w (List.mem_cons_of_mem v hw)
    cases c <;> simp [List.filter_cons, hv, ihh]

theorem flatMap_filter_push {α : Type} (l : List α) (F : α → List V4) (p : V4 → Bool)
    (q : α → Bool) (h : ∀ a ∈ l, (F a).filter p = if q a then F a else []) :
    (l.flatMap F).filter p = (l.filter q).flatMap F := by
  induction l with
  | nil => rfl
  | cons a l ih =>
    have ha := h a (List.mem_cons_self a l)
    have ihh := ih fun w hw => h w (List.mem_cons_of_mem a hw)
    by_cases hq : q a = true
    · simp [List.flatMap_cons, List.filter_append, List.filter_cons, hq, ha, ihh]
    · simp only [Bool.not_eq_true] at hq
      simp [List.flatMap_cons, List.filter_append, List.filter_cons, hq, ha, ihh]

theorem map_filter_push {α : Type} (l : List α) (f : α → V4) (p : V4 → Bool)
    (q : α → Bool) (h : ∀ a, p (f a) = q a) :
    (l.map f).filter p = (l.filter q).map f := by
  induction l with
  | nil => rfl
  | cons a l ih =>
    by_cases hq : q a = true
    · simp [List.filter_cons, h, hq, ih]
    · simp only [Bool.not_eq_true] at hq
      simp [List.filter_cons, h, hq, ih]

theorem mem_cp4g {l1 l2 l3 l4 : List ℚ} {v : V4} :
    v ∈ cp4g l1 l2 l3 l4 ↔ v.1 ∈ l1 ∧ v.2.1 ∈ l2 ∧ v.2.2.1 ∈ l3 ∧ v.2.2.2 ∈ l4 := by
  constructor
  · intro hv
    simp only [cp4g, List.mem_flatMap, List.mem_map] at hv
    obtain ⟨a, ha, b, hb, c, hc, d, hd, rfl⟩ := hv
    exact ⟨ha, hb, hc, hd⟩
  · intro ⟨h1, h2, h3, h4⟩
    simp only [cp4g, List.mem_flatMap, List.mem_map]
    exact ⟨v.1, h1, v.2.1, h2, v.2.2.1, h3, v.2.2.2, h4, rfl⟩

theorem cp4g_filter4 (l1 l2 l3 l4 : List ℚ) (q : ℚ → Bool) :
    (cp4g l1 l2 l3 l4).filter (fun v => q v.2.2.2) = cp4g l1 l2 l3 (l4.filter q) := by
  simp only [cp4g, filter_flatMap_eq]
  refine congrArg (List.flatMap l1) (funext fun a => ?_)
  refine congrArg (List.flatMap l2) (funext fun b => ?_)
  refine congrArg (List.flatMap l3) (funext fun c => ?_)
  exact map_filter_push l4 _ _ q fun d => rfl

theorem cp4g_filter3 (l1 l2 l3 l4 : List ℚ) (q : ℚ → Bool) :
    (cp4g l1 l2 l3 l4).filter (fun v => q v.2.2.1) = cp4g l1 l2 (l3.filter q) l4 := by
  simp only [cp4g]
  rw [filter_flatMap_eq]
  refine congrArg (List.flatMap l1) (funext fun a => ?_)
  rw [filter_flatMap_eq]
  refine congrArg (List.flatMap l2) (funext fun b => ?_)
  refine flatMap_filter_push l3 _ _ q fun c _ => ?_
  refine filter_of_const fun v hv => ?_
  obtain ⟨d, hd, rfl⟩ := List.mem_map.mp hv
  rfl

theorem cp4g_filter2 (l1 l2 l3 l4 : List ℚ) (q : ℚ → Bool) :
    (cp4g l1 l2 l3 l4).filter (fun v => q v.2.1) = cp4g l1 (l2.filter q) l3 l4 := by
  simp only [cp4g]
  rw [filter_flatMap_eq]
  refine congrArg (List.flatMap l1) (funext fun a => ?_)
  refine flatMap_filter_push l2 _ _ q fun b _ => ?_
  refine filter_of_const fun v hv => ?_
  simp only [List.mem_flatMap, List.mem_map] at hv
  obtain ⟨c, hc, d, hd, rfl⟩ := hv
  rfl

theorem cp4g_filter1 (l1 l2 l3 l4 : List ℚ) (q : ℚ → Bool) :
    (cp4g l1 l2 l3 l4).filter (fun v => q v.1) = cp4g (l1.filter q) l2 l3 l4 := by
  simp only [cp4g]
  refine flatMap_filter_push l1 _ _ q fun a _ => ?_
  refine filter_of_const fun v hv => ?_
  simp only [List.mem_flatMap, List.mem_map] at hv
  obtain ⟨b, hb, c, hc, d, hd, rfl⟩ := hv
  rfl

set_option maxRecDepth 40000 in
unseal Rat.add Rat.mul Rat.sub Rat.inv in
theorem hintr_filter_inS : hintr.filter inS = hintrSL := by decide

theorem gridPred_imp_inS (v : V4) (h : gridPred v = true) :
    (inS v.1 && (inS v.2.1 && (inS v.2.2.1 && inS v.2.2.2))) = true := by
  have hn : sqnorm v ≤ 27 := by
    have := (Bool.and_eq_true _ _).mp h
    exact of_decide_eq_true this.2
  have h1 : v.1 * v.1 ≤ 27 := by
    have := mul_self_nonneg v.2.1
    have := mul_self_nonneg v.2.2.1
    have := mul_self_nonneg v.2.2.2
    simp only [sqnorm] at hn
    linarith
  have h2 : v.2.1 * v.2.1 ≤ 27 := by
    have := mul_self_nonneg v.1
    have := mul_self_nonneg v.2.2.1
    have := mul_self_nonneg v.2.2.2
    simp only [sqnorm] at hn
    linarith
  have h3 : v.2.2.1 * v.2.2.1 ≤ 27 := by
    have := mul_self_nonneg v.1
    have := mul_self_nonneg v.2.1
    have := mul_self_nonneg v.2.2.2
    simp only [sqnorm] at hn
    linarith
  have h4 : v.2.2.2 * v.2.2.2 ≤ 27 := by
    have := mul_self_nonneg v.1
    have := mul_self_nonneg v.2.1
    have := mul_self_nonneg v.2.2.1
    simp only [sqnorm] at hn
    linarith
  simp [inS, h1, h2, h3, h4]

/-- The grid builder's 28⁴-point candidate product can be replaced by the
10⁴-point product over the norm-feasible subrange. -/
theorem get_grid_small : get_grid = (cartesianProd4 hintrSL).filter gridPred := by
  have hcongr : ∀ v ∈ cp4g hintr hintr hintr hintr,
      gridPred v = (gridPred v
        && (inS v.1 && (inS v.2.1 && (inS v.2.2.1 && inS v.2.2.2)))) := by
    intro v _
    cases hg : gridPred v with
    | false => simp
    | true => simp [gridPred_imp_inS v hg]
  calc get_grid
      = (cp4g hintr hintr hintr hintr).filter gridPred := rfl
    _ = (cp4g hintr hintr hintr hintr).filter
          (fun v => gridPred v
            && (inS v.1 && (inS v.2.1 && (inS v.2.2.1 && inS v.2.2.2)))) :=
        List.filter_congr hcongr
    _ = ((cp4g hintr hintr hintr hintr).filter
          (fun v => inS v.1 && (inS v.2.1 && (inS v.2.2.1 && inS v.2.2.2)))).filter
            gridPred := (List.filter_filter _ _).symm
    _ = (cp4g hintrSL hintrSL hintrSL hintrSL).filter gridPred := by
        rw [show (fun v : V4 => inS v.1 && (inS v.2.1 && (inS v.2.2.1 && inS v.2.2.2)))
              = fun v : V4 => inS v.1 && ((fun w : V4 =>
                  inS w.2.1 && (inS w.2.2.1 && inS w.2.2.2)) v) from rfl,
            ← List.filter_filter, ← List.filter_filter, ← List.filter_filter,
            cp4g_filter4, cp4g_filter3, cp4g_filter2, cp4g_filter1, hintr_filter_inS]
    _ = (cartesianProd4 hintrSL).filter gridPred := by
        rw [cartesianProd4_eq_cp4g]

theorem get_grid_blocks :
    get_grid = hintrSL.flatMap fun a => (block3S a).filter gridPred := by
  rw [get_grid_small]
  exact filter_flatMap_eq hintrSL block3S gridPred

set_option maxRecDepth 40000 in
set_option maxHeartbeats 4000000 in
unseal Rat.add Rat.mul Rat.sub Rat.inv in
theorem slice_eq_0 : (block3S (mkRat (-9) 2)).filter gridPred = sliceL0 := by decide

set_option maxRecDepth 40000 in
set_option maxHeartbeats 4000000 in
unseal Rat.add Rat.mul Rat.sub Rat.inv in
theorem slice_eq_1 : (block3S (mkRat (-7) 2)).filter gridPred = sliceL1 := by decide

set_option maxRecDepth 40000 in
set_option maxHeartbeats 4000000 in
unseal Rat.add Rat.mul Rat.sub Rat.inv in
theorem slice_eq_2 : (block3S (mkRat (-5) 2)).filter gridPred = sliceL2 := by decide

set_option maxRecDepth 40000 in
set_option maxHeartbeats 4000000 in
unseal Rat.add Rat.mul Rat.sub Rat.inv in
theorem slice_eq_3 : (block3S (mkRat (-3) 2)).filter gridPred = sliceL3 := by decide

set_option maxRecDepth 40000 in
set_option maxHeartbeats 4000000 in
unseal Rat.add Rat.mul Rat.sub Rat.inv in
theorem slice_eq_4 : (block3S (mkRat (-1) 2)).filter gridPred = sliceL4 := by decide

set_option maxRecDepth 40000 in
set_option maxHeartbeats 4000000 in
unseal Rat.add Rat.mul Rat.sub Rat.inv in
theorem slice_eq_5 : (block3S (mkRat 1 2)).filter gridPred = sliceL5 := by decide

set_option maxRecDepth 40000 in
set_option maxHeartbeats 4000000 in
unseal Rat.add Rat.mul Rat.sub Rat.inv in
theorem slice_eq_6 : (block3S (mkRat 3 2)).filter gridPred = sliceL6 := by decide

set_option maxRecDepth 40000 in
set_option maxHeartbeats 4000000 in
unseal Rat.add Rat.mul Rat.sub Rat.inv in
theorem slice_eq_7 : (block3S (mkRat 5 2)).filter gridPred = sliceL7 := by decide

set_option maxRecDepth 40000 in
set_option maxHeartbeats 4000000 in
unseal Rat.add Rat.mul Rat.sub Rat.inv in
theorem slice_eq_8 : (block3S (mkRat 7 2)).filter gridPred = sliceL8 := by decide

set_option maxRecDepth 40000 in
set_option maxHeartbeats 4000000 in
unseal Rat.add Rat.mul Rat.sub Rat.inv in
theorem slice_eq_9 : (block3S (mkRat 9 2)).filter gridPred = sliceL9 := by decide

/-- The grid builder's output, computed once and for all. -/
theorem grid_eq : get_grid = gridL := by
  rw [get_grid_blocks]
  simp only [hintrSL, List.flatMap_cons, List.flatMap_nil,
    slice_eq_0, slice_eq_1, slice_eq_2, slice_eq_3, slice_eq_4,
    slice_eq_5, slice_eq_6, slice_eq_7, slice_eq_8, slice_eq_9, List.append_nil]
  rfl

set_option maxRecDepth 40000 in
unseal Rat.add Rat.mul Rat.sub Rat.inv in
theorem part_slice_0 : sliceL0.filter partPred = gpSlice0 := by decide

set_option maxRecDepth 40000 in
unseal Rat.add Rat.mul Rat.sub Rat.inv in
theorem part_slice_1 : sliceL1.filter partPred = gpSlice1 := by decide

set_option maxRecDepth 40000 in
unseal Rat.add Rat.mul Rat.sub Rat.inv in
theorem part_slice_2 : sliceL2.filter partPred = gpSlice2 := by decide

set_option maxRecDepth 40000 in
unseal Rat.add Rat.mul Rat.sub Rat.inv in
theorem part_slice_3 : sliceL3.filter partPred = gpSlice3 := by decide

set_option maxRecDepth 40000 in
unseal Rat.add Rat.mul Rat.sub Rat.inv in
theorem part_slice_4 : sliceL4.filter partPred = gpSlice4 := by decide

set_option maxRecDepth 40000 in
unseal Rat.add Rat.mul Rat.sub Rat.inv in
theorem part_slice_5 : sliceL5.filter partPred = gpSlice5 := by decide

set_option maxRecDepth 40000 in
unseal Rat.add Rat.mul Rat.sub Rat.inv in
theorem part_slice_6 : sliceL6.filter partPred = gpSlice6 := by decide

set_option maxRecDepth 40000 in
unseal Rat.add Rat.mul Rat.sub Rat.inv in
theorem part_slice_7 : sliceL7.filter partPred = gpSlice7 := by decide

set_option maxRecDepth 40000 in
unseal Rat.add Rat.mul Rat.sub Rat.inv in
theorem part_slice_8 : sliceL8.filter partPred = gpSlice8 := by decide

set_option maxRecDepth 40000 in
unseal Rat.add Rat.mul Rat.sub Rat.inv in
theorem part_slice_9 : sliceL9.filter partPred = gpSlice9 := by decide

theorem grid_part_eq : grid_part = gridPartL := by
  rw [show grid_part = get_grid.filter partPred from rfl, grid_eq]
  simp only [gridL, List.filter_append, part_slice_0, part_slice_1, part_slice_2,
    part_slice_3, part_slice_4, part_slice_5, part_slice_6, part_slice_7,
    part_slice_8, part_slice_9, gridPartL]

set_option maxRecDepth 40000 in
theorem grid_length_eq : get_grid.length = 1976 := by
  rw [grid_eq]
  simp only [gridL, List.length_append]
  decide

set_option maxRecDepth 40000 in
theorem grid_part_length_eq : grid_part.length = 481 := by
  rw [grid_part_eq]
  simp only [gridPartL, List.length_append]
  decide

theorem lexLtB_lexLt {a b : V4} (h : lexLtB a b = true) : lexLt a b := by
  unfold lexLtB at h
  unfold lexLt
  simp only [Bool.or_eq_true, Bool.and_eq_true, decide_eq_true_eq, beq_iff_eq] at h
  exact h

theorem lexLt_trans {a b c : V4} (hab : lexLt a b) (hbc : lexLt b c) : lexLt a c := by
  unfold lexLt at hab hbc ⊢
  obtain ⟨a1, a2, a3, a4⟩ := a
  obtain ⟨b1, b2, b3, b4⟩ := b
  obtain ⟨c1, c2, c3, c4⟩ := c
  dsimp at hab hbc ⊢
  rcases hab with h | ⟨rfl, h⟩ <;> rcases hbc with h2 | ⟨rfl, h2⟩
  · exact Or.inl (lt_trans h h2)
  · exact Or.inl h
  · exact Or.inl h2
  · refine Or.inr ⟨rfl, ?_⟩
    rcases h with h | ⟨rfl, h⟩ <;> rcases h2 with h2 | ⟨rfl, h2⟩
    · exact Or.inl (lt_trans h h2)
    · exact Or.inl h
    · exact Or.inl h2
    · refine Or.inr ⟨rfl, ?_⟩
      rcases h with h | ⟨rfl, h⟩ <;> rcases h2 with h2 | ⟨rfl, h2⟩
      · exact Or.inl (lt_trans h h2)
      · exact Or.inl h
      · exact Or.inl h2
      · exact Or.inr ⟨rfl, lt_trans h h2⟩

theorem lexLt_ne {a b : V4} (h : lexLt a b) : a ≠ b := by
  rintro rfl
  unfold lexLt at h
  rcases h with h | ⟨-, h | ⟨-, h | ⟨-, h⟩⟩⟩ <;> exact lt_irrefl _ h

theorem chainB_chain : ∀ l : List V4, chainB l = true → List.Chain' lexLt l
  | [] , _ => List.chain'_nil
  | [a], _ => List.chain'_singleton a
  | a :: b :: l, h => by
    have h2 := (Bool.and_eq_true _ _).mp h
    exact List.chain'_cons.mpr ⟨lexLtB_lexLt h2.1, chainB_chain (b :: l) h2.2⟩

theorem optLexLtB_spec {o1 o2 : Option V4} (h : optLexLtB o1 o2 = true) :
    ∀ x ∈ o1, ∀ y ∈ o2, lexLt x y := by
  intro x hx y hy
  cases o1 with
  | none => exact absurd hx (by simp)
  | some u =>
    cases o2 with
    | none => exact absurd hy (by simp)
    | some v =>
      have hx2 : u = x := by simpa using hx
      have hy2 : v = y := by simpa using hy
      subst hx2
      subst hy2
      exact lexLtB_lexLt h

theorem chain'_pairwise {R : V4 → V4 → Prop}
    (tr : ∀ a b c, R a b → R b c → R a c) :
    ∀ l : List V4, List.Chain' R l → List.Pairwise R l := by
  intro l
  induction l with
  | nil => intro _; exact List.Pairwise.nil
  | cons a l ih =>
    intro hc
    have htl : List.Chain' R l := (List.chain'_cons'.mp hc).2
    have hhd : ∀ b ∈ l.head?, R a b := (List.chain'_cons'.mp hc).1
    refine List.pairwise_cons.mpr ⟨?_, ih htl⟩
    intro b hb
    match l, hb with
    | c :: l2, hb =>
      have hac : R a c := hhd c rfl
      rcases List.mem_cons.mp hb with rfl | hb2
      · exact hac
      · have hp := ih htl
        exact tr _ _ _ hac (List.rel_of_pairwise_cons hp hb2)

theorem chain'_append_of {l1 l2 : List V4} (h1 : List.Chain' lexLt l1)
    (h2 : List.Chain' lexLt l2) (hb : optLexLtB l1.getLast? l2.head? = true) :
    List.Chain' lexLt (l1 ++ l2) :=
  List.Chain'.append h1 h2 (optLexLtB_spec hb)

set_option maxRecDepth 40000
set_option maxHeartbeats 8000000

unseal Rat.add Rat.mul Rat.sub Rat.inv in
theorem gridL_chain : List.Chain' lexLt gridL := by
  rw [gridL]
  refine chain'_append_of (chainB_chain _ (by decide)) ?_ (by decide)
  refine chain'_append_of (chainB_chain _ (by decide)) ?_ (by decide)
  refine chain'_append_of (chainB_chain _ (by decide)) ?_ (by decide)
  refine chain'_append_of (chainB_chain _ (by decide)) ?_ (by decide)
  refine chain'_append_of (chainB_chain _ (by decide)) ?_ (by decide)
  refine chain'_append_of (chainB_chain _ (by decide)) ?_ (by decide)
  refine chain'_append_of (chainB_chain _ (by decide)) ?_ (by decide)
  refine chain'_append_of (chainB_chain _ (by decide)) ?_ (by decide)
  refine chain'_append_of (chainB_chain _ (by decide)) ?_ (by decide)
  exact chainB_chain _ (by decide)

theorem grid_nodup : get_grid.Nodup := by
  rw [grid_eq]
  exact List.Pairwise.imp (fun h => lexLt_ne h)
    (@chain'_pairwise lexLt (fun a b c hab hbc => lexLt_trans hab hbc) gridL gridL_chain)

theorem grid_part_nodup : grid_part.Nodup := List.Nodup.filter _ grid_nodup

set_option maxRecDepth 512
set_option maxHeartbeats 200000

/-! ### Membership in the grid, in integer form

A grid point has components n/2 with n odd; working with the doubled integers
makes parity and closure arguments exact integer arithmetic. -/

theorem mem_get_grid_iff {p : V4} :
    p ∈ get_grid ↔
      (p.1 ∈ hintr ∧ p.2.1 ∈ hintr ∧ p.2.2.1 ∈ hintr ∧ p.2.2.2 ∈ hintr) ∧
        gridPred p = true := by
  show p ∈ (cartesianProd4 hintr).filter gridPred ↔ _
  rw [List.mem_filter, cartesianProd4_eq_cp4g, mem_cp4g]

theorem mem_hintr_iff {q : ℚ} :
    q ∈ hintr ↔ ∃ n : ℤ, Odd n ∧ -27 ≤ n ∧ n ≤ 27 ∧ q = (n : ℚ)/2 := by
  constructor
  · intro hq
    unfold hintr at hq
    rw [List.mem_map] at hq
    obtain ⟨i, hi, he⟩ := hq
    rw [List.mem_range] at hi
    refine ⟨2 * (i : ℤ) - 27, ⟨(i : ℤ) - 14, by ring⟩, by omega, by omega, ?_⟩
    rw [← he]
    push_cast
    ring
  · rintro ⟨n, ⟨k, rfl⟩, hb1, hb2, rfl⟩
    unfold hintr
    rw [List.mem_map]
    refine ⟨(k + 14).toNat, List.mem_range.mpr (by omega), ?_⟩
    have hk : ((k + 14).toNat : ℤ) = k + 14 := Int.toNat_of_nonneg (by omega)
    have hq : (((k + 14).toNat : ℕ) : ℚ) = (k : ℚ) + 14 := by
      exact_mod_cast congrArg (fun z : ℤ => (z : ℚ)) hk
    rw [hq]
    push_cast
    ring

theorem vsum_halves (n1 n2 n3 n4 : ℤ) :
    vsum ((n1 : ℚ)/2, (n2 : ℚ)/2, (n3 : ℚ)/2, (n4 : ℚ)/2)
      = ((n1 + n2 + n3 + n4 : ℤ) : ℚ)/2 := by
  unfold vsum
  push_cast
  ring

theorem sqnorm_halves (n1 n2 n3 n4 : ℤ) :
    sqnorm ((n1 : ℚ)/2, (n2 : ℚ)/2, (n3 : ℚ)/2, (n4 : ℚ)/2)
      = ((n1 * n1 + n2 * n2 + n3 * n3 + n4 * n4 : ℤ) : ℚ)/4 := by
  unfold sqnorm
  push_cast
  ring

theorem evenSum_half {v : V4} {N : ℤ} (h : vsum v = (N : ℚ)/2) :
    (evenSum v = true) ↔ N % 4 = 0 := by
  rcases Int.even_or_odd N with ⟨M, hM⟩ | ⟨M, hM⟩
  · have hv : vsum v = (M : ℚ) := by
      rw [h, hM]
      push_cast
      ring
    unfold evenSum
    rw [hv, Rat.num_intCast, Rat.den_intCast]
    simp only [beq_iff_eq, Bool.and_eq_true]
    constructor
    · rintro ⟨-, h2⟩
      omega
    · intro h2
      exact ⟨by simp, by omega⟩
  · have hden : (vsum v).den ≠ 1 := by
      intro hd
      have h1 : ((vsum v).num : ℚ) = vsum v := by
        have := Rat.num_div_den (vsum v)
        rw [hd] at this
        simpa using this
      have h2 : ((vsum v).num : ℚ) = (N : ℚ)/2 := by rw [h1, h]
      have h3 : ((2 * (vsum v).num : ℤ) : ℚ) = (N : ℚ) := by
        push_cast
        rw [h2]
        ring
      have h4 : 2 * (vsum v).num = N := by exact_mod_cast h3
      omega
    unfold evenSum
    simp only [beq_iff_eq, Bool.and_eq_true]
    constructor
    · rintro ⟨h1, -⟩
      exact absurd h1 hden
    · intro h1
      omega

theorem sqnorm_le_iff {N : ℤ} : ((N : ℚ)/4 ≤ 27) ↔ N ≤ 108 := by
  rw [div_le_iff₀ (by norm_num : (0:ℚ) < 4)]
  constructor
  · intro h1; exact_mod_cast h1
  · intro h1; exact_mod_cast h1

theorem grid_coords {p : V4} (hp : p ∈ get_grid) :
    ∃ n1 n2 n3 n4 : ℤ,
      p = ((n1 : ℚ)/2, (n2 : ℚ)/2, (n3 : ℚ)/2, (n4 : ℚ)/2) ∧
      Odd n1 ∧ Odd n2 ∧ Odd n3 ∧ Odd n4 ∧
      (-27 ≤ n1 ∧ n1 ≤ 27) ∧ (-27 ≤ n2 ∧ n2 ≤ 27) ∧
      (-27 ≤ n3 ∧ n3 ≤ 27) ∧ (-27 ≤ n4 ∧ n4 ≤ 27) ∧
      (n1 + n2 + n3 + n4) % 4 = 0 ∧
      n1 * n1 + n2 * n2 + n3 * n3 + n4 * n4 ≤ 108 := by
  obtain ⟨⟨h1, h2, h3, h4⟩, hpred⟩ := mem_get_grid_iff.mp hp
  obtain ⟨n1, ho1, hl1, hr1, he1⟩ := mem_hintr_iff.mp h1
  obtain ⟨n2, ho2, hl2, hr2, he2⟩ := mem_hintr_iff.mp h2
  obtain ⟨n3, ho3, hl3, hr3, he3⟩ := mem_hintr_iff.mp h3
  obtain ⟨n4, ho4, hl4, hr4, he4⟩ := mem_hintr_iff.mp h4
  obtain ⟨p1, p2, p3, p4⟩ := p
  dsimp at he1 he2 he3 he4
  subst he1; subst he2; subst he3; subst he4
  refine ⟨n1, n2, n3, n4, rfl, ho1, ho2, ho3, ho4, ⟨hl1, hr1⟩, ⟨hl2, hr2⟩,
    ⟨hl3, hr3⟩, ⟨hl4, hr4⟩, ?_, ?_⟩
  · have hsum := vsum_halves n1 n2 n3 n4
    have heS : evenSum ((n1 : ℚ)/2, (n2 : ℚ)/2, (n3 : ℚ)/2, (n4 : ℚ)/2) = true :=
      ((Bool.and_eq_true _ _).mp hpred).1
    exact (evenSum_half hsum).mp heS
  · have hnb : decide (sqnorm ((n1 : ℚ)/2, (n2 : ℚ)/2, (n3 : ℚ)/2, (n4 : ℚ)/2) ≤ 27)
        = true := ((Bool.and_eq_true _ _).mp hpred).2
    have hn := of_decide_eq_true hnb
    rw [sqnorm_halves] at hn
    exact sqnorm_le_iff.mp hn

theorem grid_mem_of {q1 q2 q3 q4 : ℚ} (n1 n2 n3 n4 : ℤ)
    (h1 : q1 = (n1 : ℚ)/2) (h2 : q2 = (n2 : ℚ)/2)
    (h3 : q3 = (n3 : ℚ)/2) (h4 : q4 = (n4 : ℚ)/2)
    (ho1 : Odd n1) (ho2 : Odd n2) (ho3 : Odd n3) (ho4 : Odd n4)
    (hb1 : -27 ≤ n1 ∧ n1 ≤ 27) (hb2 : -27 ≤ n2 ∧ n2 ≤ 27)
    (hb3 : -27 ≤ n3 ∧ n3 ≤ 27) (hb4 : -27 ≤ n4 ∧ n4 ≤ 27)
    (hpar : (n1 + n2 + n3 + n4) % 4 = 0)
    (hnorm : n1 * n1 + n2 * n2 + n3 * n3 + n4 * n4 ≤ 108) :
    (q1, q2, q3, q4) ∈ get_grid := by
  subst h1; subst h2; subst h3; subst h4
  refine mem_get_grid_iff.mpr ⟨⟨?_, ?_, ?_, ?_⟩, ?_⟩
  · exact mem_hintr_iff.mpr ⟨n1, ho1, hb1.1, hb1.2, rfl⟩
  · exact mem_hintr_iff.mpr ⟨n2, ho2, hb2.1, hb2.2, rfl⟩
  · exact mem_hintr_iff.mpr ⟨n3, ho3, hb3.1, hb3.2, rfl⟩
  · exact mem_hintr_iff.mpr ⟨n4, ho4, hb4.1, hb4.2, rfl⟩
  · unfold gridPred
    rw [Bool.and_eq_true]
    constructor
    · exact (evenSum_half (vsum_halves n1 n2 n3 n4)).mpr hpar
    · rw [decide_eq_true_iff, sqnorm_halves]
      exact sqnorm_le_iff.mpr hnorm

theorem bif_neg_odd (e : Bool) {n : ℤ} (h : Odd n) : Odd (bif e then -n else n) := by
  cases e
  · exact h
  · simpa using h.neg

theorem bif_neg_bounds (e : Bool) {n : ℤ} (h : -27 ≤ n ∧ n ≤ 27) :
    -27 ≤ (bif e then -n else n) ∧ (bif e then -n else n) ≤ 27 := by
  cases e <;> simp <;> omega

theorem bif_neg_sq (e : Bool) (n : ℤ) :
    (bif e then -n else n) * (bif e then -n else n) = n * n := by
  cases e <;> simp

theorem bif_neg_val (e : Bool) (n : ℤ) :
    (bif e then -((n : ℚ)/2) else (n : ℚ)/2) = (((bif e then -n else n) : ℤ) : ℚ)/2 := by
  cases e
  · simp
  · simp only [cond_true]
    push_cast
    ring

theorem bif_neg_par (e1 e2 e3 e4 : Bool) {n1 n2 n3 n4 : ℤ}
    (ho1 : Odd n1) (ho2 : Odd n2) (ho3 : Odd n3) (ho4 : Odd n4)
    (he : (e1.toNat + e2.toNat + e3.toNat + e4.toNat) % 2 = 0)
    (hpar : (n1 + n2 + n3 + n4) % 4 = 0) :
    ((bif e1 then -n1 else n1) + (bif e2 then -n2 else n2) +
      (bif e3 then -n3 else n3) + (bif e4 then -n4 else n4)) % 4 = 0 := by
  obtain ⟨k1, rfl⟩ := ho1
  obtain ⟨k2, rfl⟩ := ho2
  obtain ⟨k3, rfl⟩ := ho3
  obtain ⟨k4, rfl⟩ := ho4
  cases e1 <;> cases e2 <;> cases e3 <;> cases e4 <;> simp_all <;> omega

theorem grid_closed_signs (e1 e2 e3 e4 : Bool)
    (he : (e1.toNat + e2.toNat + e3.toNat + e4.toNat) % 2 = 0)
    {p : V4} (hp : p ∈ get_grid) : applySigns e1 e2 e3 e4 p ∈ get_grid := by
  obtain ⟨n1, n2, n3, n4, rfl, ho1, ho2, ho3, ho4, hb1, hb2, hb3, hb4, hpar, hnorm⟩ :=
    grid_coords hp
  have hval : applySigns e1 e2 e3 e4 ((n1 : ℚ)/2, (n2 : ℚ)/2, (n3 : ℚ)/2, (n4 : ℚ)/2)
      = ((((bif e1 then -n1 else n1) : ℤ) : ℚ)/2, (((bif e2 then -n2 else n2) : ℤ) : ℚ)/2,
         (((bif e3 then -n3 else n3) : ℤ) : ℚ)/2, (((bif e4 then -n4 else n4) : ℤ) : ℚ)/2) := by
    unfold applySigns
    rw [show ((n1 : ℚ)/2, (n2 : ℚ)/2, (n3 : ℚ)/2, (n4 : ℚ)/2).1 = (n1 : ℚ)/2 from rfl]
    rw [bif_neg_val e1 n1, bif_neg_val e2 n2, bif_neg_val e3 n3, bif_neg_val e4 n4]
  rw [hval]
  refine grid_mem_of _ _ _ _ rfl rfl rfl rfl
    (bif_neg_odd e1 ho1) (bif_neg_odd e2 ho2) (bif_neg_odd e3 ho3) (bif_neg_odd e4 ho4)
    (bif_neg_bounds e1 hb1) (bif_neg_bounds e2 hb2)
    (bif_neg_bounds e3 hb3) (bif_neg_bounds e4 hb4)
    (bif_neg_par e1 e2 e3 e4 ho1 ho2 ho3 ho4 he hpar) ?_
  rw [bif_neg_sq, bif_neg_sq, bif_neg_sq, bif_neg_sq]
  exact hnorm

/-! ### Distances and exact recovery of a stored point -/

theorem dist2_nonneg (u v : V4) : 0 ≤ dist2 u v := by
  unfold dist2 sqnorm vsub
  have s1 := mul_self_nonneg (u.1 - v.1)
  have s2 := mul_self_nonneg (u.2.1 - v.2.1)
  have s3 := mul_self_nonneg (u.2.2.1 - v.2.2.1)
  have s4 := mul_self_nonneg (u.2.2.2 - v.2.2.2)
  dsimp
  linarith

theorem dist2_eq_zero_iff {u v : V4} : dist2 u v = 0 ↔ u = v := by
  obtain ⟨u1, u2, u3, u4⟩ := u
  obtain ⟨v1, v2, v3, v4⟩ := v
  unfold dist2 sqnorm vsub
  dsimp
  constructor
  · intro h
    have s1 : 0 ≤ (u1 - v1) * (u1 - v1) := mul_self_nonneg _
    have s2 : 0 ≤ (u2 - v2) * (u2 - v2) := mul_self_nonneg _
    have s3 : 0 ≤ (u3 - v3) * (u3 - v3) := mul_self_nonneg _
    have s4 : 0 ≤ (u4 - v4) * (u4 - v4) := mul_self_nonneg _
    have z1 : (u1 - v1) * (u1 - v1) = 0 := by linarith
    have z2 : (u2 - v2) * (u2 - v2) = 0 := by linarith
    have z3 : (u3 - v3) * (u3 - v3) = 0 := by linarith
    have z4 : (u4 - v4) * (u4 - v4) = 0 := by linarith
    have e1 : u1 = v1 := by have := mul_self_eq_zero.mp z1; linarith
    have e2 : u2 = v2 := by have := mul_self_eq_zero.mp z2; linarith
    have e3 : u3 = v3 := by have := mul_self_eq_zero.mp z3; linarith
    have e4 : u4 = v4 := by have := mul_self_eq_zero.mp z4; linarith
    simp [e1, e2, e3, e4]
  · intro h
    injection h with h1 h
    injection h with h2 h
    injection h with h3 h4
    subst h1; subst h2; subst h3; subst h4
    ring

theorem roundScores_eq_dist (x : V4) (L : List V4) :
    roundScores x L (L.map fun g => dot g g) = L.map fun g => sqnorm x - dist2 x g := by
  rw [roundScores_map]
  exact List.map_congr_left fun g _ => score_eq_sqnorm_sub_dist2 x g

/-- Rounding a stored point against its own list recovers exactly its index. -/
theorem roundIdx_self {L : List V4} (hnd : L.Nodup) (i : ℕ) (hi : i < L.length) :
    roundIdx (L.get ⟨i, hi⟩) L (L.map fun g => dot g g) = i := by
  have hLne : L ≠ [] := by
    intro h
    rw [h] at hi
    simp at hi
  have hsc := roundScores_eq_dist (L.get ⟨i, hi⟩) L
  have hslen : (roundScores (L.get ⟨i, hi⟩) L (L.map fun g => dot g g)).length
      = L.length := by rw [hsc]; simp
  have hsne : roundScores (L.get ⟨i, hi⟩) L (L.map fun g => dot g g) ≠ [] := by
    intro hnil
    rw [hnil] at hslen
    exact hLne (List.length_eq_zero.mp hslen.symm)
  obtain ⟨hm, hmax, -⟩ := argmax_spec _ hsne
  have hget : ∀ k, ∀ hk : k < L.length,
      (roundScores (L.get ⟨i, hi⟩) L (L.map fun g => dot g g)).get ⟨k, by omega⟩
        = sqnorm (L.get ⟨i, hi⟩) - dist2 (L.get ⟨i, hi⟩) (L.get ⟨k, hk⟩) := by
    intro k hk
    have h3 := List.get_of_eq hsc ⟨k, by omega⟩
    rw [h3]
    simp
  set A := argmax (roundScores (L.get ⟨i, hi⟩) L (L.map fun g => dot g g)) with hA
  have hAL : A < L.length := by omega
  have hcmp := hmax i (by omega)
  rw [hget i hi, hget A hAL] at hcmp
  have hdist0 : dist2 (L.get ⟨i, hi⟩) (L.get ⟨i, hi⟩) = 0 := dist2_eq_zero_iff.mpr rfl
  rw [hdist0] at hcmp
  have hle : dist2 (L.get ⟨i, hi⟩) (L.get ⟨A, hAL⟩) ≤ 0 := by linarith
  have hz : dist2 (L.get ⟨i, hi⟩) (L.get ⟨A, hAL⟩) = 0 :=
    le_antisymm hle (dist2_nonneg _ _)
  have heqv : L.get ⟨A, hAL⟩ = L.get ⟨i, hi⟩ := (dist2_eq_zero_iff.mp hz).symm
  have hfin : (⟨A, hAL⟩ : Fin L.length) = ⟨i, hi⟩ := hnd.get_inj_iff.mp heqv
  exact congrArg Fin.val hfin

theorem if_lt_eq_toNat (c : Prop) [Decidable c] :
    (if c then (1 : ℕ) else 0) = (decide c).toNat := by
  by_cases h : c <;> simp [h]

theorem negCount_eq (x : V4) :
    negCount x = (decide (x.1 < 0)).toNat + (decide (x.2.1 < 0)).toNat +
      (decide (x.2.2.1 < 0)).toNat + (decide (x.2.2.2 < 0)).toNat := by
  unfold negCount
  rw [if_lt_eq_toNat, if_lt_eq_toNat, if_lt_eq_toNat, if_lt_eq_toNat]

theorem maskOf_eq_signVec (x : V4) :
    maskOf x = signVec (maskBit0 x) (decide (x.2.1 < 0)) (decide (x.2.2.1 < 0))
      (decide (x.2.2.2 < 0)) := by
  unfold maskOf signVec maskBit0
  by_cases h1 : x.1 < 0 <;> by_cases h2 : x.2.1 < 0 <;>
    by_cases h3 : x.2.2.1 < 0 <;> by_cases h4 : x.2.2.2 < 0 <;>
    rcases ho : oddNeg x with _ | _ <;>
    simp [h1, h2, h3, h4, ho] <;> norm_num

/-- The parity correction makes the count of negative mask entries even. -/
theorem maskBits_even (x : V4) :
    ((maskBit0 x).toNat + (decide (x.2.1 < 0)).toNat + (decide (x.2.2.1 < 0)).toNat +
      (decide (x.2.2.2 < 0)).toNat) % 2 = 0 := by
  have hkey : ∀ b0 b1 b2 b3 : Bool,
      ((xor b0 (decide ((b0.toNat + b1.toNat + b2.toNat + b3.toNat) % 2 ≠ 0))).toNat +
        b1.toNat + b2.toNat + b3.toNat) % 2 = 0 := by decide
  have hodd : oddNeg x = decide (((decide (x.1 < 0)).toNat + (decide (x.2.1 < 0)).toNat +
      (decide (x.2.2.1 < 0)).toNat + (decide (x.2.2.2 < 0)).toNat) % 2 ≠ 0) := by
    unfold oddNeg
    rw [negCount_eq]
    rcases h : ((decide (x.1 < 0)).toNat + (decide (x.2.1 < 0)).toNat +
        (decide (x.2.2.1 < 0)).toNat + (decide (x.2.2.2 < 0)).toNat) % 2 with _ | n
    · simp [h]
    · simp [h]
  unfold maskBit0
  rw [hodd]
  exact hkey (decide (x.1 < 0)) (decide (x.2.1 < 0)) (decide (x.2.2.1 < 0))
    (decide (x.2.2.2 < 0))

/-- `X_part` is the componentwise product of the mask with the input row. -/
theorem xpartOf_eq_vmul (x : V4) : xpartOf x = vmul (maskOf x) x := by
  unfold xpartOf maskOf vmul
  rcases ho : oddNeg x with _ | _ <;>
    by_cases h1 : x.1 < 0 <;> by_cases h2 : x.2.1 < 0 <;>
    by_cases h3 : x.2.2.1 < 0 <;> by_cases h4 : x.2.2.2 < 0 <;>
    simp [ho, h1, h2, h3, h4, abs_of_neg, abs_of_nonneg, le_of_not_lt,
      not_lt.mp] <;>
    (try ring) <;> simp

theorem vmul_comm (u v : V4) : vmul u v = vmul v u := by
  unfold vmul
  obtain ⟨a, b, c, d⟩ := u
  obtain ⟨e, f, g, h⟩ := v
  dsimp
  rw [mul_comm a, mul_comm b, mul_comm c, mul_comm d]

/-- Componentwise product by a sign row is `applySigns`. -/
theorem vmul_signVec (e1 e2 e3 e4 : Bool) (v : V4) :
    vmul (signVec e1 e2 e3 e4) v = applySigns e1 e2 e3 e4 v := by
  unfold vmul signVec applySigns
  cases e1 <;> cases e2 <;> cases e3 <;> cases e4 <;> dsimp <;> norm_num

/-- A sign row is involutive. -/
theorem vmul_signVec_signVec (e1 e2 e3 e4 : Bool) (v : V4) :
    vmul (signVec e1 e2 e3 e4) (vmul (signVec e1 e2 e3 e4) v) = v := by
  unfold vmul signVec
  obtain ⟨a, b, c, d⟩ := v
  cases e1 <;> cases e2 <;> cases e3 <;> cases e4 <;> dsimp <;> norm_num

/-- Multiplying both rows by a sign row preserves squared distances. -/
theorem dist2_vmul_signVec (e1 e2 e3 e4 : Bool) (u v : V4) :
    dist2 (vmul (signVec e1 e2 e3 e4) u) (vmul (signVec e1 e2 e3 e4) v) = dist2 u v := by
  unfold dist2 sqnorm vsub vmul signVec
  obtain ⟨a, b, c, d⟩ := u
  obtain ⟨e, f, g, h⟩ := v
  cases e1 <;> cases e2 <;> cases e3 <;> cases e4 <;> dsimp <;> ring

/-! ### The mask's 4-bit code and the row lookup -/

theorem qtrunc_toNat (b : Bool) : qtrunc ((b.toNat : ℕ) : ℚ) = (b.toNat : ℤ) := by
  cases b <;> decide

theorem maskBitsRow_signVec (e1 e2 e3 e4 : Bool) :
    maskBitsRow (signVec e1 e2 e3 e4)
      = (((e1.toNat : ℕ) : ℚ), ((e2.toNat : ℕ) : ℚ), ((e3.toNat : ℕ) : ℚ),
         ((e4.toNat : ℕ) : ℚ)) := by
  unfold maskBitsRow signVec
  cases e1 <;> cases e2 <;> cases e3 <;> cases e4 <;> dsimp <;> norm_num

theorem to_int_signVec (e1 e2 e3 e4 : Bool) :
    to_int (maskBitsRow (signVec e1 e2 e3 e4)) = (bitsInt e1 e2 e3 e4 : ℤ) := by
  rw [maskBitsRow_signVec]
  unfold to_int bitsInt
  rw [show ((((e1.toNat : ℕ) : ℚ)), (((e2.toNat : ℕ) : ℚ)), (((e3.toNat : ℕ) : ℚ)),
      (((e4.toNat : ℕ) : ℚ))).1 = ((e1.toNat : ℕ) : ℚ) from rfl]
  rw [qtrunc_toNat, qtrunc_toNat, qtrunc_toNat, qtrunc_toNat]
  push_cast
  ring

set_option maxRecDepth 4000 in
unseal Rat.add Rat.mul Rat.sub Rat.inv in
theorem row_lookup (e1 e2 e3 e4 : Bool)
    (he : (e1.toNat + e2.toNat + e3.toNat + e4.toNat) % 2 = 0) :
    idx_map.getD (bitsInt e1 e2 e3 e4) 0 < flips.length ∧
      flips.getD (idx_map.getD (bitsInt e1 e2 e3 e4) 0) (0, 0, 0, 0)
        = signVec e1 e2 e3 e4 := by
  revert he
  cases e1 <;> cases e2 <;> cases e3 <;> cases e4 <;> decide

theorem getD_of_lt {α : Type} : ∀ (l : List α) (n : ℕ) (hn : n < l.length) (d : α),
    l.getD n d = l.get ⟨n, hn⟩ := by
  intro l
  induction l with
  | nil => intro n hn d; simp at hn
  | cons a l ih =>
    intro n hn d
    cases n with
    | zero => rfl
    | succ n => exact ih n (by simpa using hn) d

theorem get_map_of_lt {α β : Type} (l : List α) (f : α → β) :
    ∀ (n : ℕ) (hn : n < l.length) (hn2 : n < (l.map f).length),
      (l.map f).get ⟨n, hn2⟩ = f (l.get ⟨n, hn⟩) := by
  induction l with
  | nil => intro n hn hn2; simp at hn
  | cons a l ih =>
    intro n hn hn2
    cases n with
    | zero => rfl
    | succ n => exact ih n (by simpa using hn) (by simpa using hn2)

theorem toInt16_id {n : ℤ} (h1 : -(2 ^ 15) ≤ n) (h2 : n < 2 ^ 15) : toInt16 n = n := by
  unfold toInt16
  omega

set_option maxRecDepth 4000 in
unseal Rat.add Rat.mul Rat.sub Rat.inv in
theorem flips_len : flips.length = 8 := by decide

set_option maxRecDepth 4000 in
unseal Rat.add Rat.mul Rat.sub Rat.inv in
theorem flips_signVec (r : ℕ) (hr : r < flips.length) :
    ∃ e1 e2 e3 e4 : Bool, (e1.toNat + e2.toNat + e3.toNat + e4.toNat) % 2 = 0 ∧
      flips.getD r (0, 0, 0, 0) = signVec e1 e2 e3 e4 := by
  rw [flips_len] at hr
  interval_cases r
  · exact ⟨false, false, false, false, by decide, by decide⟩
  · exact ⟨true, true, false, false, by decide, by decide⟩
  · exact ⟨true, false, true, false, by decide, by decide⟩
  · exact ⟨false, true, true, false, by decide, by decide⟩
  · exact ⟨true, false, false, true, by decide, by decide⟩
  · exact ⟨false, true, false, true, by decide, by decide⟩
  · exact ⟨false, false, true, true, by decide, by decide⟩
  · exact ⟨true, true, true, true, by decide, by decide⟩

theorem roundIdx_lt (x : V4) (L : List V4) (hL : L ≠ []) :
    roundIdx x L (L.map fun g => dot g g) < L.length := by
  have hsc := roundScores_eq_dist x L
  have hslen : (roundScores x L (L.map fun g => dot g g)).length = L.length := by
    rw [hsc]; simp
  have hsne : roundScores x L (L.map fun g => dot g g) ≠ [] := by
    intro hnil
    rw [hnil] at hslen
    exact hL (List.length_eq_zero.mp hslen.symm)
  obtain ⟨hm, -, -⟩ := argmax_spec _ hsne
  show argmax (roundScores x L (L.map fun g => dot g g)) < L.length
  omega

theorem grid_part_ne_nil : grid_part ≠ [] := by
  intro h
  have := grid_part_length_eq
  rw [h] at this
  simp at this

theorem grid_ne_nil : get_grid ≠ [] := by
  intro h
  have := grid_length_eq
  rw [h] at this
  simp at this

theorem grid_part_sub {g : V4} (hg : g ∈ grid_part) : g ∈ get_grid :=
  (List.mem_filter.mp hg).1

/-- Characterization of one combination-table entry: the exact full-grid index of
the flipped truncated point, biased by `idx_offset` (the int16 cast is lossless). -/
theorem allcombo_spec (r t : ℕ) (hr : r < flips.length) (ht : t < grid_part.length) :
    ∃ i : ℕ, ∃ hi : i < get_grid.length,
      get_grid.get ⟨i, hi⟩ = vmul (flips.getD r (0, 0, 0, 0)) (grid_part.getD t (0, 0, 0, 0)) ∧
      (allcombo_idx.getD r []).getD t 0 = (i : ℤ) + idx_offset := by
  obtain ⟨e1, e2, e3, e4, hev, hf⟩ := flips_signVec r hr
  have hgmem : grid_part.getD t (0, 0, 0, 0) ∈ grid_part := by
    rw [getD_of_lt _ _ ht]
    exact grid_part.get_mem _ _
  have hpmem : vmul (flips.getD r (0, 0, 0, 0)) (grid_part.getD t (0, 0, 0, 0)) ∈ get_grid := by
    rw [hf, vmul_signVec]
    exact grid_closed_signs e1 e2 e3 e4 hev (grid_part_sub hgmem)
  obtain ⟨⟨i, hi⟩, hgi⟩ := List.mem_iff_get.mp hpmem
  refine ⟨i, hi, hgi, ?_⟩
  have hbm : r < (flips.map fun f => grid_part.map fun g =>
      toInt16 (roundIdx (vmul f g) get_grid grid_norm + idx_offset)).length := by
    simpa using hr
  have ea : allcombo_idx.getD r [] = (flips.map fun f => grid_part.map fun g =>
      toInt16 (roundIdx (vmul f g) get_grid grid_norm + idx_offset)).getD r [] := rfl
  have eb := getD_of_lt (flips.map fun f => grid_part.map fun g =>
      toInt16 (roundIdx (vmul f g) get_grid grid_norm + idx_offset)) r hbm []
  have ec := get_map_of_lt flips (fun f => grid_part.map fun g =>
      toInt16 (roundIdx (vmul f g) get_grid grid_norm + idx_offset)) r hr hbm
  have ed : allcombo_idx.getD r [] = grid_part.map fun g =>
      toInt16 (roundIdx (vmul (flips.get ⟨r, hr⟩) g) get_grid grid_norm + idx_offset) :=
    (ea.trans eb).trans ec
  have ee : (allcombo_idx.getD r []).getD t 0 = ((grid_part.map fun g =>
      toInt16 (roundIdx (vmul (flips.get ⟨r, hr⟩) g) get_grid grid_norm + idx_offset)).getD t 0) :=
    congrArg (fun L => L.getD t 0) ed
  have hb2 : t < (grid_part.map fun g =>
      toInt16 (roundIdx (vmul (flips.get ⟨r, hr⟩) g) get_grid grid_norm + idx_offset)).length := by
    simpa using ht
  have ef := getD_of_lt (grid_part.map fun g =>
      toInt16 (roundIdx (vmul (flips.get ⟨r, hr⟩) g) get_grid grid_norm + idx_offset)) t hb2 (0 : ℤ)
  have eg := get_map_of_lt grid_part (fun g =>
      toInt16 (roundIdx (vmul (flips.get ⟨r, hr⟩) g) get_grid grid_norm + idx_offset)) t ht hb2
  have hfg : flips.get ⟨r, hr⟩ = flips.getD r (0, 0, 0, 0) := (getD_of_lt _ _ hr _).symm
  have hgg : grid_part.get ⟨t, ht⟩ = grid_part.getD t (0, 0, 0, 0) := (getD_of_lt _ _ ht _).symm
  have eh : vmul (flips.get ⟨r, hr⟩) (grid_part.get ⟨t, ht⟩) = get_grid.get ⟨i, hi⟩ :=
    (congrArg₂ vmul hfg hgg).trans hgi.symm
  have ei : roundIdx (vmul (flips.get ⟨r, hr⟩) (grid_part.get ⟨t, ht⟩)) get_grid grid_norm = i :=
    (congrArg (fun v => roundIdx v get_grid grid_norm) eh).trans (roundIdx_self grid_nodup i hi)
  have ej : toInt16 ((roundIdx (vmul (flips.get ⟨r, hr⟩) (grid_part.get ⟨t, ht⟩))
        get_grid grid_norm : ℤ) + idx_offset) = toInt16 ((i : ℤ) + idx_offset) :=
    congrArg (fun n : ℕ => toInt16 ((n : ℤ) + idx_offset)) ei
  have hlen := grid_length_eq
  have ek : toInt16 ((i : ℤ) + idx_offset) = (i : ℤ) + idx_offset := by
    refine toInt16_id ?_ ?_ <;> unfold idx_offset <;> omega
  exact (((ee.trans ef).trans eg).trans ej).trans ek

/-- Structure of one `quantize` row: the value is the mask times the rounded
truncated point, and the code is the exact biased full-grid index of that value. -/
theorem quantize1_spec (x : V4) :
    ∃ t : ℕ, ∃ ht : t < grid_part.length, ∃ i : ℕ, ∃ hi : i < get_grid.length,
      t = roundIdx (xpartOf x) grid_part grid_part_norm ∧
      (quantize1 x).1 = vmul (maskOf x) (grid_part.get ⟨t, ht⟩) ∧
      (quantize1 x).2 = (i : ℤ) + idx_offset ∧
      get_grid.get ⟨i, hi⟩ = vmul (maskOf x) (grid_part.get ⟨t, ht⟩) := by
  have hmask := maskOf_eq_signVec x
  have hev := maskBits_even x
  obtain ⟨hrowlt, hrowval⟩ := row_lookup (maskBit0 x) (decide (x.2.1 < 0))
    (decide (x.2.2.1 < 0)) (decide (x.2.2.2 < 0)) hev
  have ht : roundIdx (xpartOf x) grid_part grid_part_norm < grid_part.length := by
    have := roundIdx_lt (xpartOf x) grid_part grid_part_ne_nil
    exact this
  have htoint : (to_int (maskBitsRow (maskOf x))).toNat
      = bitsInt (maskBit0 x) (decide (x.2.1 < 0)) (decide (x.2.2.1 < 0))
          (decide (x.2.2.2 < 0)) := by
    rw [hmask, to_int_signVec]
    exact Int.toNat_natCast _
  obtain ⟨i, hi, hgi, hval⟩ := allcombo_spec
    (idx_map.getD (bitsInt (maskBit0 x) (decide (x.2.1 < 0)) (decide (x.2.2.1 < 0))
      (decide (x.2.2.2 < 0))) 0)
    (roundIdx (xpartOf x) grid_part grid_part_norm) hrowlt ht
  refine ⟨roundIdx (xpartOf x) grid_part grid_part_norm, ht, i, hi, rfl, ?_, ?_, ?_⟩
  · show vmul (grid_part.getD (roundIdx (xpartOf x) grid_part grid_part_norm) (0, 0, 0, 0))
        (maskOf x) = _
    exact (vmul_comm _ _).trans
      (congrArg (vmul (maskOf x)) (getD_of_lt grid_part _ ht (0, 0, 0, 0)))
  · show (allcombo_idx.getD (idx_map.getD (to_int (maskBitsRow (maskOf x))).toNat 0) []).getD
        (roundIdx (xpartOf x) grid_part grid_part_norm) 0 = _
    exact (congrArg (fun n => (allcombo_idx.getD (idx_map.getD n 0) []).getD
      (roundIdx (xpartOf x) grid_part grid_part_norm) 0) htoint).trans hval
  · refine hgi.trans ?_
    refine congrArg₂ vmul (hrowval.trans hmask.symm) ?_
    exact getD_of_lt grid_part _ ht (0, 0, 0, 0)

/-! ### The decoder `by_idxs` as a table lookup -/

theorem torchIndex_nat (l : List V4) (i : ℕ) (hi : i < l.length) :
    torchIndex l (i : ℤ) = some (l.get ⟨i, hi⟩) := by
  unfold torchIndex
  rw [if_pos ⟨Int.ofNat_nonneg i, by exact_mod_cast hi⟩]
  simp only [Int.toNat_natCast]
  exact congrArg some (getD_of_lt l i hi _)

theorem torchIndex_oob (l : List V4) (i : ℤ) (h : (l.length : ℤ) ≤ i) :
    torchIndex l i = none := by
  unfold torchIndex
  rw [if_neg (show ¬(0 ≤ i ∧ i < (l.length : ℤ)) by omega),
    if_neg (show ¬(-(l.length : ℤ) ≤ i ∧ i < 0) by omega)]

theorem by_idxs1_valid (i : ℕ) (hi : i < get_grid.length) :
    by_idxs1 ((i : ℤ) + idx_offset) = some (get_grid.get ⟨i, hi⟩) := by
  have harg : (i : ℤ) + idx_offset - idx_offset = (i : ℤ) := by ring
  have h0 : by_idxs1 ((i : ℤ) + idx_offset)
      = torchIndex get_grid ((i : ℤ) + idx_offset - idx_offset) := rfl
  exact h0.trans ((congrArg (torchIndex get_grid) harg).trans (torchIndex_nat get_grid i hi))

theorem by_idxs1_none (c : ℤ) (h : (get_grid.length : ℤ) ≤ c - idx_offset) :
    by_idxs1 c = none :=
  torchIndex_oob get_grid (c - idx_offset) h

theorem by_idxs_cons (c : ℤ) (cs : List ℤ) :
    by_idxs (c :: cs) = (by_idxs1 c).bind fun v => (by_idxs cs).map fun vs => v :: vs := by
  show (c :: cs).mapM by_idxs1
      = (by_idxs1 c).bind fun v => (cs.mapM by_idxs1).map fun vs => v :: vs
  rw [List.mapM_cons]
  cases by_idxs1 c with
  | none => rfl
  | some v => cases cs.mapM by_idxs1 <;> rfl

theorem mapM_some_of (val : V4 → V4) (code : V4 → ℤ) :
    ∀ X : List V4, (∀ x ∈ X, by_idxs1 (code x) = some (val x)) →
      by_idxs (X.map code) = some (X.map val) := by
  intro X
  induction X with
  | nil => intro _; rfl
  | cons a l ih =>
    intro h
    have ha := h a (List.mem_cons_self a l)
    have hl := ih fun x hx => h x (List.mem_cons_of_mem a hx)
    rw [List.map_cons, by_idxs_cons, ha, hl]
    rfl

/-! ### The sign mask inverts the magnitude factoring -/

theorem partPred_xpart (x : V4) : partPred (xpartOf x) = true := by
  unfold partPred xpartOf
  have h2 := abs_nonneg x.2.1
  have h3 := abs_nonneg x.2.2.1
  have h4 := abs_nonneg x.2.2.2
  dsimp only
  rw [if_neg (not_lt.mpr h2), if_neg (not_lt.mpr h3), if_neg (not_lt.mpr h4)]
  simp only [Bool.and_eq_true, decide_eq_true_eq]
  refine ⟨by norm_num, ?_⟩
  have h0 : -(1/2 : ℚ) ≤ 0 := by norm_num
  exact le_trans h0 (le_min h2 (le_min h3 h4))

theorem xpart_mem {x : V4} (hx : x ∈ get_grid) : xpartOf x ∈ get_grid := by
  rw [xpartOf_eq_vmul, maskOf_eq_signVec, vmul_signVec]
  exact grid_closed_signs _ _ _ _ (maskBits_even x) hx

theorem xpart_mem_part {x : V4} (hx : x ∈ get_grid) : xpartOf x ∈ grid_part :=
  List.mem_filter.mpr ⟨xpart_mem hx, partPred_xpart x⟩

theorem mask_xpart_inv (x : V4) : vmul (maskOf x) (xpartOf x) = x := by
  rw [xpartOf_eq_vmul, maskOf_eq_signVec]
  exact vmul_signVec_signVec _ _ _ _ x

theorem dist2_mask (x u v : V4) :
    dist2 (vmul (maskOf x) u) (vmul (maskOf x) v) = dist2 u v := by
  rw [maskOf_eq_signVec]
  exact dist2_vmul_signVec _ _ _ _ u v

theorem mask_row (x : V4) :
    ∃ r : ℕ, r < flips.length ∧ flips.getD r (0, 0, 0, 0) = maskOf x ∧
      r = idx_map.getD (to_int (maskBitsRow (maskOf x))).toNat 0 := by
  obtain ⟨hlt, hval⟩ := row_lookup (maskBit0 x) (decide (x.2.1 < 0))
    (decide (x.2.2.1 < 0)) (decide (x.2.2.2 < 0)) (maskBits_even x)
  refine ⟨_, hlt, hval.trans (maskOf_eq_signVec x).symm, ?_⟩
  have htoint : (to_int (maskBitsRow (maskOf x))).toNat
      = bitsInt (maskBit0 x) (decide (x.2.1 < 0)) (decide (x.2.2.1 < 0))
          (decide (x.2.2.2 < 0)) := by
    rw [maskOf_eq_signVec x, to_int_signVec]
    exact Int.toNat_natCast _
  exact (congrArg (fun n => idx_map.getD n 0) htoint).symm

/-! ### `round` attains the minimum squared distance over its list -/

theorem roundIdx_min (x : V4) (L : List V4) (hL : L ≠ []) :
    ∃ hm : roundIdx x L (L.map fun g => dot g g) < L.length,
      ∀ k (hk : k < L.length),
        dist2 x (L.get ⟨roundIdx x L (L.map fun g => dot g g), hm⟩)
          ≤ dist2 x (L.get ⟨k, hk⟩) := by
  have hsc : roundScores x L (L.map fun g => dot g g)
      = L.map fun g => sqnorm x - dist2 x g := roundScores_eq_dist x L
  have hslen : (roundScores x L (L.map fun g => dot g g)).length = L.length := by
    rw [hsc]; simp
  have hsne : roundScores x L (L.map fun g => dot g g) ≠ [] := by
    intro hnil
    rw [hnil] at hslen
    exact hL (List.length_eq_zero.mp hslen.symm)
  obtain ⟨hm, hmax, -⟩ := argmax_spec _ hsne
  have hmL : roundIdx x L (L.map fun g => dot g g) < L.length := by
    show argmax (roundScores x L (L.map fun g => dot g g)) < L.length
    omega
  refine ⟨hmL, ?_⟩
  intro k hk
  have hg : ∀ j (hj1 : j < (roundScores x L (L.map fun g => dot g g)).length)
      (hj : j < L.length),
      (roundScores x L (L.map fun g => dot g g)).get ⟨j, hj1⟩
        = sqnorm x - dist2 x (L.get ⟨j, hj⟩) := by
    intro j hj1 hj
    have h3 := List.get_of_eq hsc ⟨j, hj1⟩
    rw [h3]
    exact get_map_of_lt L _ j hj _
  have h1 := hmax k (by omega)
  have e1 := hg k (by omega) hk
  have e2 := hg (argmax (roundScores x L (L.map fun g => dot g g))) hm (by omega)
  rw [e1, e2] at h1
  have hgoal : dist2 x (L.get ⟨argmax (roundScores x L (L.map fun g => dot g g)), by omega⟩)
      ≤ dist2 x (L.get ⟨k, hk⟩) := by linarith
  exact hgoal

/-! ### Quantizing an exact grid point is the identity -/

theorem quantize1_fixed {p : V4} (hp : p ∈ get_grid) (i : ℕ) (hi : i < get_grid.length)
    (hpi : get_grid.get ⟨i, hi⟩ = p) :
    quantize1 p = (p, (i : ℤ) + idx_offset) := by
  obtain ⟨t, ht, i', hi', htdef, hval1, hval2, hgrid⟩ := quantize1_spec p
  obtain ⟨⟨j, hj⟩, hjval⟩ := List.mem_iff_get.mp (xpart_mem_part hp)
  have htj : t = j := by
    rw [htdef]
    have h1 : roundIdx (xpartOf p) grid_part grid_part_norm
        = roundIdx (grid_part.get ⟨j, hj⟩) grid_part grid_part_norm :=
      congrArg (fun v => roundIdx v grid_part grid_part_norm) hjval.symm
    exact h1.trans (roundIdx_self grid_part_nodup j hj)
  subst htj
  have hgt : grid_part.get ⟨t, ht⟩ = xpartOf p := hjval
  have hv1 : (quantize1 p).1 = p :=
    hval1.trans ((congrArg (vmul (maskOf p)) hgt).trans (mask_xpart_inv p))
  have h2 : get_grid.get ⟨i', hi'⟩ = get_grid.get ⟨i, hi⟩ :=
    hgrid.trans ((congrArg (vmul (maskOf p)) hgt).trans ((mask_xpart_inv p).trans hpi.symm))
  have hieq : i' = i := congrArg Fin.val (grid_nodup.get_inj_iff.mp h2)
  have hv2 : (quantize1 p).2 = (i : ℤ) + idx_offset :=
    hval2.trans (congrArg (fun n : ℕ => (n : ℤ) + idx_offset) hieq)
  exact Prod.ext hv1 hv2

/-! ### Per-row encode/decode round trip -/

theorem quantize1_roundtrip (x : V4) :
    (quantize1 x).1 ∈ get_grid ∧ by_idxs1 (quantize1 x).2 = some ((quantize1 x).1) := by
  obtain ⟨t, ht, i, hi, htdef, hval1, hval2, hgrid⟩ := quantize1_spec x
  have hmem : (quantize1 x).1 ∈ get_grid := by
    rw [hval1.trans hgrid.symm]
    exact List.get_mem _ _ _
  refine ⟨hmem, ?_⟩
  have h1 : by_idxs1 (quantize1 x).2 = by_idxs1 ((i : ℤ) + idx_offset) :=
    congrArg by_idxs1 hval2
  have h3 : get_grid.get ⟨i, hi⟩ = (quantize1 x).1 := hgrid.trans hval1.symm
  exact h1.trans ((by_idxs1_valid i hi).trans (congrArg some h3))

/-! ### Every grid point is reached by a (flip row, truncated index) pair -/

theorem grid_reached {p : V4} (hp : p ∈ get_grid) :
    ∃ r t : ℕ, r < flips.length ∧ t < grid_part.length ∧
      vmul (flips.getD r (0, 0, 0, 0)) (grid_part.getD t (0, 0, 0, 0)) = p := by
  obtain ⟨r, hr, hrv, -⟩ := mask_row p
  obtain ⟨⟨j, hj⟩, hjval⟩ := List.mem_iff_get.mp (xpart_mem_part hp)
  refine ⟨r, j, hr, hj, ?_⟩
  have hgd : grid_part.getD j (0, 0, 0, 0) = xpartOf p := (getD_of_lt _ _ hj _).trans hjval
  exact (congrArg₂ vmul hrv hgd).trans (mask_xpart_inv p)

/-! ### The mask's bit code hits an enumerated pattern -/

set_option maxRecDepth 2000 in
unseal Rat.add Rat.mul Rat.sub Rat.inv in
theorem negCount_signVec (e1 e2 e3 e4 : Bool) :
    negCount (signVec e1 e2 e3 e4) = e1.toNat + e2.toNat + e3.toNat + e4.toNat := by
  cases e1 <;> cases e2 <;> cases e3 <;> cases e4 <;> decide

theorem bits_mem_raw (e1 e2 e3 e4 : Bool)
    (he : (e1.toNat + e2.toNat + e3.toNat + e4.toNat) % 2 = 0) :
    bitsInt e1 e2 e3 e4 ∈ raw_idx := by
  revert he
  cases e1 <;> cases e2 <;> cases e3 <;> cases e4 <;> decide

theorem half_neg {n : ℤ} (h : n < 0) : ((n : ℚ)/2) < 0 := by
  have h1 : (n : ℚ) < 0 := by exact_mod_cast h
  linarith

theorem half_nonneg {n : ℤ} (h : 0 ≤ n) : 0 ≤ ((n : ℚ)/2) := by
  have h1 : (0 : ℚ) ≤ (n : ℚ) := by exact_mod_cast h
  linarith

theorem half_le_neg_half {n : ℤ} (h : n ≤ -1) : ((n : ℚ)/2) ≤ -(1/2) := by
  have h1 : (n : ℚ) ≤ -1 := by exact_mod_cast h
  linarith

set_option maxHeartbeats 3200000

/-- The truncated-grid representative is a member of the truncated grid and
dominates `u` in distance to every row with nonnegative tail components. -/
theorem domRep_spec {u : V4} (hu : u ∈ get_grid) :
    domRep u ∈ grid_part ∧
      ∀ y : V4, 0 ≤ y.2.1 → 0 ≤ y.2.2.1 → 0 ≤ y.2.2.2 →
        dist2 y (domRep u) ≤ dist2 y u := by
  obtain ⟨n1, n2, n3, n4, rfl, ho1, ho2, ho3, ho4, hb1, hb2, hb3, hb4, hpar, hnorm⟩ :=
    grid_coords hu
  obtain ⟨k1, hk1⟩ := ho1
  obtain ⟨k2, hk2⟩ := ho2
  obtain ⟨k3, hk3⟩ := ho3
  obtain ⟨k4, hk4⟩ := ho4
  rcases lt_or_le n2 0 with h2 | h2 <;> rcases lt_or_le n3 0 with h3 | h3 <;>
    rcases lt_or_le n4 0 with h4 | h4
  · -- n2 < 0, n3 < 0, n4 < 0: flip coords 3 and 4, send coord 2 to -q - 1
    have e : domRep ((n1 : ℚ)/2, (n2 : ℚ)/2, (n3 : ℚ)/2, (n4 : ℚ)/2)
        = ((n1 : ℚ)/2, -((n2 : ℚ)/2) - 1, -((n3 : ℚ)/2), -((n4 : ℚ)/2)) := by
      unfold domRep
      dsimp only
      rw [if_pos (half_neg h2), if_pos (half_neg h3), if_pos (half_neg h4)]
    refine ⟨?_, ?_⟩
    · rw [e]
      have hcoord : ((n1 : ℚ)/2, -((n2 : ℚ)/2) - 1, -((n3 : ℚ)/2), -((n4 : ℚ)/2))
          = ((n1 : ℚ)/2, ((-n2 - 2 : ℤ) : ℚ)/2, ((-n3 : ℤ) : ℚ)/2, ((-n4 : ℤ) : ℚ)/2) := by
        refine Prod.ext rfl (Prod.ext ?_ (Prod.ext ?_ ?_)) <;> dsimp only <;>
          push_cast <;> ring
      rw [hcoord]
      refine List.mem_filter.mpr ⟨?_, ?_⟩
      · exact grid_mem_of n1 (-n2 - 2) (-n3) (-n4) rfl rfl rfl rfl
          ⟨k1, hk1⟩ ⟨-k2 - 2, by omega⟩ ⟨-k3 - 1, by omega⟩ ⟨-k4 - 1, by omega⟩
          (by omega) (by omega) (by omega) (by omega) (by omega) (by nlinarith)
      · unfold partPred
        dsimp only
        have hq2 : -(1/2 : ℚ) ≤ ((-n2 - 2 : ℤ) : ℚ)/2 := by
          have hcl : (-1 : ℚ) ≤ ((-n2 - 2 : ℤ) : ℚ) := by
            exact_mod_cast (by omega : (-1 : ℤ) ≤ -n2 - 2)
          linarith
        have hq3 : (0 : ℚ) ≤ ((-n3 : ℤ) : ℚ)/2 := half_nonneg (by omega)
        have hq4 : (0 : ℚ) ≤ ((-n4 : ℤ) : ℚ)/2 := half_nonneg (by omega)
        rw [if_neg (not_lt.mpr hq3), if_neg (not_lt.mpr hq4)]
        simp only [Bool.and_eq_true, decide_eq_true_eq]
        refine ⟨?_, ?_⟩
        · split <;> omega
        · exact le_min hq2 (le_min (le_trans (by norm_num) hq3) (le_trans (by norm_num) hq4))
    · intro y hy2 hy3 hy4
      obtain ⟨y1, y2, y3, y4⟩ := y
      dsimp only at hy2 hy3 hy4
      rw [e]
      unfold dist2 sqnorm vsub
      dsimp only
      have hn2 : (n2 : ℚ) ≤ -1 := by exact_mod_cast (by omega : n2 ≤ -1)
      have hn3 : (n3 : ℚ) ≤ 0 := by exact_mod_cast (le_of_lt h3)
      have hn4 : (n4 : ℚ) ≤ 0 := by exact_mod_cast (le_of_lt h4)
      have hc2 : (y2 - (-((n2 : ℚ)/2) - 1)) * (y2 - (-((n2 : ℚ)/2) - 1))
          ≤ (y2 - (n2 : ℚ)/2) * (y2 - (n2 : ℚ)/2) := by
        nlinarith [mul_nonneg (show (0:ℚ) ≤ 2*y2 + 1 by linarith)
          (show (0:ℚ) ≤ -(n2 : ℚ) - 1 by linarith)]
      have hc3 : (y3 - -((n3 : ℚ)/2)) * (y3 - -((n3 : ℚ)/2))
          ≤ (y3 - (n3 : ℚ)/2) * (y3 - (n3 : ℚ)/2) := by
        nlinarith [mul_nonneg hy3 (show (0:ℚ) ≤ -(n3 : ℚ) by linarith)]
      have hc4 : (y4 - -((n4 : ℚ)/2)) * (y4 - -((n4 : ℚ)/2))
          ≤ (y4 - (n4 : ℚ)/2) * (y4 - (n4 : ℚ)/2) := by
        nlinarith [mul_nonneg hy4 (show (0:ℚ) ≤ -(n4 : ℚ) by linarith)]
      linarith
  · -- n2 < 0, n3 < 0, 0 ≤ n4: flip coords 2 and 3
    have e : domRep ((n1 : ℚ)/2, (n2 : ℚ)/2, (n3 : ℚ)/2, (n4 : ℚ)/2)
        = ((n1 : ℚ)/2, -((n2 : ℚ)/2), -((n3 : ℚ)/2), (n4 : ℚ)/2) := by
      unfold domRep
      dsimp only
      rw [if_pos (half_neg h2), if_pos (half_neg h3), if_neg (not_lt.mpr (half_nonneg h4))]
    refine ⟨?_, ?_⟩
    · rw [e]
      have hcoord : ((n1 : ℚ)/2, -((n2 : ℚ)/2), -((n3 : ℚ)/2), (n4 : ℚ)/2)
          = ((n1 : ℚ)/2, ((-n2 : ℤ) : ℚ)/2, ((-n3 : ℤ) : ℚ)/2, ((n4 : ℤ) : ℚ)/2) := by
        refine Prod.ext rfl (Prod.ext ?_ (Prod.ext ?_ ?_)) <;> dsimp only <;>
          push_cast <;> ring
      rw [hcoord]
      refine List.mem_filter.mpr ⟨?_, ?_⟩
      · exact grid_mem_of n1 (-n2) (-n3) n4 rfl rfl rfl rfl
          ⟨k1, hk1⟩ ⟨-k2 - 1, by omega⟩ ⟨-k3 - 1, by omega⟩ ⟨k4, hk4⟩
          (by omega) (by omega) (by omega) (by omega) (by omega) (by nlinarith)
      · unfold partPred
        dsimp only
        have hq2 : (0 : ℚ) ≤ ((-n2 : ℤ) : ℚ)/2 := half_nonneg (by omega)
        have hq3 : (0 : ℚ) ≤ ((-n3 : ℤ) : ℚ)/2 := half_nonneg (by omega)
        have hq4 : (0 : ℚ) ≤ ((n4 : ℤ) : ℚ)/2 := half_nonneg (by omega)
        rw [if_neg (not_lt.mpr hq2), if_neg (not_lt.mpr hq3), if_neg (not_lt.mpr hq4)]
        simp only [Bool.and_eq_true, decide_eq_true_eq]
        refine ⟨by omega, ?_⟩
        refine le_min (le_trans (by norm_num) hq2)
          (le_min (le_trans (by norm_num) hq3) (le_trans (by norm_num) hq4))
    · intro y hy2 hy3 hy4
      obtain ⟨y1, y2, y3, y4⟩ := y
      dsimp only at hy2 hy3 hy4
      rw [e]
      unfold dist2 sqnorm vsub
      dsimp only
      have hn2 : (n2 : ℚ) ≤ 0 := by exact_mod_cast (le_of_lt h2)
      have hn3 : (n3 : ℚ) ≤ 0 := by exact_mod_cast (le_of_lt h3)
      have hc2 : (y2 - -((n2 : ℚ)/2)) * (y2 - -((n2 : ℚ)/2))
          ≤ (y2 - (n2 : ℚ)/2) * (y2 - (n2 : ℚ)/2) := by
        nlinarith [mul_nonneg hy2 (show (0:ℚ) ≤ -(n2 : ℚ) by linarith)]
      have hc3 : (y3 - -((n3 : ℚ)/2)) * (y3 - -((n3 : ℚ)/2))
          ≤ (y3 - (n3 : ℚ)/2) * (y3 - (n3 : ℚ)/2) := by
        nlinarith [mul_nonneg hy3 (show (0:ℚ) ≤ -(n3 : ℚ) by linarith)]
      linarith
  · -- n2 < 0, 0 ≤ n3, n4 < 0: flip coords 2 and 4
    have e : domRep ((n1 : ℚ)/2, (n2 : ℚ)/2, (n3 : ℚ)/2, (n4 : ℚ)/2)
        = ((n1 : ℚ)/2, -((n2 : ℚ)/2), (n3 : ℚ)/2, -((n4 : ℚ)/2)) := by
      unfold domRep
      dsimp only
      rw [if_pos (half_neg h2), if_neg (not_lt.mpr (half_nonneg h3)), if_pos (half_neg h4)]
    refine ⟨?_, ?_⟩
    · rw [e]
      have hcoord : ((n1 : ℚ)/2, -((n2 : ℚ)/2), (n3 : ℚ)/2, -((n4 : ℚ)/2))
          = ((n1 : ℚ)/2, ((-n2 : ℤ) : ℚ)/2, ((n3 : ℤ) : ℚ)/2, ((-n4 : ℤ) : ℚ)/2) := by
        refine Prod.ext rfl (Prod.ext ?_ (Prod.ext ?_ ?_)) <;> dsimp only <;>
          push_cast <;> ring
      rw [hcoord]
      refine List.mem_filter.mpr ⟨?_, ?_⟩
      · exact grid_mem_of n1 (-n2) n3 (-n4) rfl rfl rfl rfl
          ⟨k1, hk1⟩ ⟨-k2 - 1, by omega⟩ ⟨k3, hk3⟩ ⟨-k4 - 1, by omega⟩
          (by omega) (by omega) (by omega) (by omega) (by omega) (by nlinarith)
      · unfold partPred
        dsimp only
        have hq2 : (0 : ℚ) ≤ ((-n2 : ℤ) : ℚ)/2 := half_nonneg (by omega)
        have hq3 : (0 : ℚ) ≤ ((n3 : ℤ) : ℚ)/2 := half_nonneg (by omega)
        have hq4 : (0 : ℚ) ≤ ((-n4 : ℤ) : ℚ)/2 := half_nonneg (by omega)
        rw [if_neg (not_lt.mpr hq2), if_neg (not_lt.mpr hq3), if_neg (not_lt.mpr hq4)]
        simp only [Bool.and_eq_true, decide_eq_true_eq]
        refine ⟨by omega, ?_⟩
        refine le_min (le_trans (by norm_num) hq2)
          (le_min (le_trans (by norm_num) hq3) (le_trans (by norm_num) hq4))
    · intro y hy2 hy3 hy4
      obtain ⟨y1, y2, y3, y4⟩ := y
      dsimp only at hy2 hy3 hy4
      rw [e]
      unfold dist2 sqnorm vsub
      dsimp only
      have hn2 : (n2 : ℚ) ≤ 0 := by exact_mod_cast (le_of_lt h2)
      have hn4 : (n4 : ℚ) ≤ 0 := by exact_mod_cast (le_of_lt h4)
      have hc2 : (y2 - -((n2 : ℚ)/2)) * (y2 - -((n2 : ℚ)/2))
          ≤ (y2 - (n2 : ℚ)/2) * (y2 - (n2 : ℚ)/2) := by
        nlinarith [mul_nonneg hy2 (show (0:ℚ) ≤ -(n2 : ℚ) by linarith)]
      have hc4 : (y4 - -((n4 : ℚ)/2)) * (y4 - -((n4 : ℚ)/2))
          ≤ (y4 - (n4 : ℚ)/2) * (y4 - (n4 : ℚ)/2) := by
        nlinarith [mul_nonneg hy4 (show (0:ℚ) ≤ -(n4 : ℚ) by linarith)]
      linarith
  · -- n2 < 0, 0 ≤ n3, 0 ≤ n4: send coord 2 to -q - 1
    have e : domRep ((n1 : ℚ)/2, (n2 : ℚ)/2, (n3 : ℚ)/2, (n4 : ℚ)/2)
        = ((n1 : ℚ)/2, -((n2 : ℚ)/2) - 1, (n3 : ℚ)/2, (n4 : ℚ)/2) := by
      unfold domRep
      dsimp only
      rw [if_pos (half_neg h2), if_neg (not_lt.mpr (half_nonneg h3)),
        if_neg (not_lt.mpr (half_nonneg h4))]
    refine ⟨?_, ?_⟩
    · rw [e]
      have hcoord : ((n1 : ℚ)/2, -((n2 : ℚ)/2) - 1, (n3 : ℚ)/2, (n4 : ℚ)/2)
          = ((n1 : ℚ)/2, ((-n2 - 2 : ℤ) : ℚ)/2, ((n3 : ℤ) : ℚ)/2, ((n4 : ℤ) : ℚ)/2) := by
        refine Prod.ext rfl (Prod.ext ?_ (Prod.ext ?_ ?_)) <;> dsimp only <;>
          push_cast <;> ring
      rw [hcoord]
      refine List.mem_filter.mpr ⟨?_, ?_⟩
      · exact grid_mem_of n1 (-n2 - 2) n3 n4 rfl rfl rfl rfl
          ⟨k1, hk1⟩ ⟨-k2 - 2, by omega⟩ ⟨k3, hk3⟩ ⟨k4, hk4⟩
          (by omega) (by omega) (by omega) (by omega) (by omega) (by nlinarith)
      · unfold partPred
        dsimp only
        have hq2 : -(1/2 : ℚ) ≤ ((-n2 - 2 : ℤ) : ℚ)/2 := by
          have hcl : (-1 : ℚ) ≤ ((-n2 - 2 : ℤ) : ℚ) := by
            exact_mod_cast (by omega : (-1 : ℤ) ≤ -n2 - 2)
          linarith
        have hq3 : (0 : ℚ) ≤ ((n3 : ℤ) : ℚ)/2 := half_nonneg (by omega)
        have hq4 : (0 : ℚ) ≤ ((n4 : ℤ) : ℚ)/2 := half_nonneg (by omega)
        rw [if_neg (not_lt.mpr hq3), if_neg (not_lt.mpr hq4)]
        simp only [Bool.and_eq_true, decide_eq_true_eq]
        refine ⟨?_, ?_⟩
        · split <;> omega
        · exact le_min hq2 (le_min (le_trans (by norm_num) hq3) (le_trans (by norm_num) hq4))
    · intro y hy2 hy3 hy4
      obtain ⟨y1, y2, y3, y4⟩ := y
      dsimp only at hy2 hy3 hy4
      rw [e]
      unfold dist2 sqnorm vsub
      dsimp only
      have hn2 : (n2 : ℚ) ≤ -1 := by exact_mod_cast (by omega : n2 ≤ -1)
      have hc2 : (y2 - (-((n2 : ℚ)/2) - 1)) * (y2 - (-((n2 : ℚ)/2) - 1))
          ≤ (y2 - (n2 : ℚ)/2) * (y2 - (n2 : ℚ)/2) := by
        nlinarith [mul_nonneg (show (0:ℚ) ≤ 2*y2 + 1 by linarith)
          (show (0:ℚ) ≤ -(n2 : ℚ) - 1 by linarith)]
      linarith
  · -- 0 ≤ n2, n3 < 0, n4 < 0: flip coords 3 and 4
    have e : domRep ((n1 : ℚ)/2, (n2 : ℚ)/2, (n3 : ℚ)/2, (n4 : ℚ)/2)
        = ((n1 : ℚ)/2, (n2 : ℚ)/2, -((n3 : ℚ)/2), -((n4 : ℚ)/2)) := by
      unfold domRep
      dsimp only
      rw [if_neg (not_lt.mpr (half_nonneg h2)), if_pos (half_neg h3), if_pos (half_neg h4)]
    refine ⟨?_, ?_⟩
    · rw [e]
      have hcoord : ((n1 : ℚ)/2, (n2 : ℚ)/2, -((n3 : ℚ)/2), -((n4 : ℚ)/2))
          = ((n1 : ℚ)/2, ((n2 : ℤ) : ℚ)/2, ((-n3 : ℤ) : ℚ)/2, ((-n4 : ℤ) : ℚ)/2) := by
        refine Prod.ext rfl (Prod.ext ?_ (Prod.ext ?_ ?_)) <;> dsimp only <;>
          push_cast <;> ring
      rw [hcoord]
      refine List.mem_filter.mpr ⟨?_, ?_⟩
      · exact grid_mem_of n1 n2 (-n3) (-n4) rfl rfl rfl rfl
          ⟨k1, hk1⟩ ⟨k2, hk2⟩ ⟨-k3 - 1, by omega⟩ ⟨-k4 - 1, by omega⟩
          (by omega) (by omega) (by omega) (by omega) (by omega) (by nlinarith)
      · unfold partPred
        dsimp only
        have hq2 : (0 : ℚ) ≤ ((n2 : ℤ) : ℚ)/2 := half_nonneg (by omega)
        have hq3 : (0 : ℚ) ≤ ((-n3 : ℤ) : ℚ)/2 := half_nonneg (by omega)
        have hq4 : (0 : ℚ) ≤ ((-n4 : ℤ) : ℚ)/2 := half_nonneg (by omega)
        rw [if_neg (not_lt.mpr hq2), if_neg (not_lt.mpr hq3), if_neg (not_lt.mpr hq4)]
        simp only [Bool.and_eq_true, decide_eq_true_eq]
        refine ⟨by omega, ?_⟩
        refine le_min (le_trans (by norm_num) hq2)
          (le_min (le_trans (by norm_num) hq3) (le_trans (by norm_num) hq4))
    · intro y hy2 hy3 hy4
      obtain ⟨y1, y2, y3, y4⟩ := y
      dsimp only at hy2 hy3 hy4
      rw [e]
      unfold dist2 sqnorm vsub
      dsimp only
      have hn3 : (n3 : ℚ) ≤ 0 := by exact_mod_cast (le_of_lt h3)
      have hn4 : (n4 : ℚ) ≤ 0 := by exact_mod_cast (le_of_lt h4)
      have hc3 : (y3 - -((n3 : ℚ)/2)) * (y3 - -((n3 : ℚ)/2))
          ≤ (y3 - (n3 : ℚ)/2) * (y3 - (n3 : ℚ)/2) := by
        nlinarith [mul_nonneg hy3 (show (0:ℚ) ≤ -(n3 : ℚ) by linarith)]
      have hc4 : (y4 - -((n4 : ℚ)/2)) * (y4 - -((n4 : ℚ)/2))
          ≤ (y4 - (n4 : ℚ)/2) * (y4 - (n4 : ℚ)/2) := by
        nlinarith [mul_nonneg hy4 (show (0:ℚ) ≤ -(n4 : ℚ) by linarith)]
      linarith
  · -- 0 ≤ n2, n3 < 0, 0 ≤ n4: send coord 3 to -q - 1
    have e : domRep ((n1 : ℚ)/2, (n2 : ℚ)/2, (n3 : ℚ)/2, (n4 : ℚ)/2)
        = ((n1 : ℚ)/2, (n2 : ℚ)/2, -((n3 : ℚ)/2) - 1, (n4 : ℚ)/2) := by
      unfold domRep
      dsimp only
      rw [if_neg (not_lt.mpr (half_nonneg h2)), if_pos (half_neg h3),
        if_neg (not_lt.mpr (half_nonneg h4))]
    refine ⟨?_, ?_⟩
    · rw [e]
      have hcoord : ((n1 : ℚ)/2, (n2 : ℚ)/2, -((n3 : ℚ)/2) - 1, (n4 : ℚ)/2)
          = ((n1 : ℚ)/2, ((n2 : ℤ) : ℚ)/2, ((-n3 - 2 : ℤ) : ℚ)/2, ((n4 : ℤ) : ℚ)/2) := by
        refine Prod.ext rfl (Prod.ext ?_ (Prod.ext ?_ ?_)) <;> dsimp only <;>
          push_cast <;> ring
      rw [hcoord]
      refine List.mem_filter.mpr ⟨?_, ?_⟩
      · exact grid_mem_of n1 n2 (-n3 - 2) n4 rfl rfl rfl rfl
          ⟨k1, hk1⟩ ⟨k2, hk2⟩ ⟨-k3 - 2, by omega⟩ ⟨k4, hk4⟩
          (by omega) (by omega) (by omega) (by omega) (by omega) (by nlinarith)
      · unfold partPred
        dsimp only
        have hq2 : (0 : ℚ) ≤ ((n2 : ℤ) : ℚ)/2 := half_nonneg (by omega)
        have hq3 : -(1/2 : ℚ) ≤ ((-n3 - 2 : ℤ) : ℚ)/2 := by
          have hcl : (-1 : ℚ) ≤ ((-n3 - 2 : ℤ) : ℚ) := by
            exact_mod_cast (by omega : (-1 : ℤ) ≤ -n3 - 2)
          linarith
        have hq4 : (0 : ℚ) ≤ ((n4 : ℤ) : ℚ)/2 := half_nonneg (by omega)
        rw [if_neg (not_lt.mpr hq2), if_neg (not_lt.mpr hq4)]
        simp only [Bool.and_eq_true, decide_eq_true_eq]
        refine ⟨?_, ?_⟩
        · split <;> omega
        · exact le_min (le_trans (by norm_num) hq2)
            (le_min hq3 (le_trans (by norm_num) hq4))
    · intro y hy2 hy3 hy4
      obtain ⟨y1, y2, y3, y4⟩ := y
      dsimp only at hy2 hy3 hy4
      rw [e]
      unfold dist2 sqnorm vsub
      dsimp only
      have hn3 : (n3 : ℚ) ≤ -1 := by exact_mod_cast (by omega : n3 ≤ -1)
      have hc3 : (y3 - (-((n3 : ℚ)/2) - 1)) * (y3 - (-((n3 : ℚ)/2) - 1))
          ≤ (y3 - (n3 : ℚ)/2) * (y3 - (n3 : ℚ)/2) := by
        nlinarith [mul_nonneg (show (0:ℚ) ≤ 2*y3 + 1 by linarith)
          (show (0:ℚ) ≤ -(n3 : ℚ) - 1 by linarith)]
      linarith
  · -- 0 ≤ n2, 0 ≤ n3, n4 < 0: send coord 4 to -q - 1
    have e : domRep ((n1 : ℚ)/2, (n2 : ℚ)/2, (n3 : ℚ)/2, (n4 : ℚ)/2)
        = ((n1 : ℚ)/2, (n2 : ℚ)/2, (n3 : ℚ)/2, -((n4 : ℚ)/2) - 1) := by
      unfold domRep
      dsimp only
      rw [if_neg (not_lt.mpr (half_nonneg h2)), if_neg (not_lt.mpr (half_nonneg h3)),
        if_pos (half_neg h4)]
    refine ⟨?_, ?_⟩
    · rw [e]
      have hcoord : ((n1 : ℚ)/2, (n2 : ℚ)/2, (n3 : ℚ)/2, -((n4 : ℚ)/2) - 1)
          = ((n1 : ℚ)/2, ((n2 : ℤ) : ℚ)/2, ((n3 : ℤ) : ℚ)/2, ((-n4 - 2 : ℤ) : ℚ)/2) := by
        refine Prod.ext rfl (Prod.ext ?_ (Prod.ext ?_ ?_)) <;> dsimp only <;>
          push_cast <;> ring
      rw [hcoord]
      refine List.mem_filter.mpr ⟨?_, ?_⟩
      · exact grid_mem_of n1 n2 n3 (-n4 - 2) rfl rfl rfl rfl
          ⟨k1, hk1⟩ ⟨k2, hk2⟩ ⟨k3, hk3⟩ ⟨-k4 - 2, by omega⟩
          (by omega) (by omega) (by omega) (by omega) (by omega) (by nlinarith)
      · unfold partPred
        dsimp only
        have hq2 : (0 : ℚ) ≤ ((n2 : ℤ) : ℚ)/2 := half_nonneg (by omega)
        have hq3 : (0 : ℚ) ≤ ((n3 : ℤ) : ℚ)/2 := half_nonneg (by omega)
        have hq4 : -(1/2 : ℚ) ≤ ((-n4 - 2 : ℤ) : ℚ)/2 := by
          have hcl : (-1 : ℚ) ≤ ((-n4 - 2 : ℤ) : ℚ) := by
            exact_mod_cast (by omega : (-1 : ℤ) ≤ -n4 - 2)
          linarith
        rw [if_neg (not_lt.mpr hq2), if_neg (not_lt.mpr hq3)]
        simp only [Bool.and_eq_true, decide_eq_true_eq]
        refine ⟨?_, ?_⟩
        · split <;> omega
        · exact le_min (le_trans (by norm_num) hq2)
            (le_min (le_trans (by norm_num) hq3) hq4)
    · intro y hy2 hy3 hy4
      obtain ⟨y1, y2, y3, y4⟩ := y
      dsimp only at hy2 hy3 hy4
      rw [e]
      unfold dist2 sqnorm vsub
      dsimp only
      have hn4 : (n4 : ℚ) ≤ -1 := by exact_mod_cast (by omega : n4 ≤ -1)
      have hc4 : (y4 - (-((n4 : ℚ)/2) - 1)) * (y4 - (-((n4 : ℚ)/2) - 1))
          ≤ (y4 - (n4 : ℚ)/2) * (y4 - (n4 : ℚ)/2) := by
        nlinarith [mul_nonneg (show (0:ℚ) ≤ 2*y4 + 1 by linarith)
          (show (0:ℚ) ≤ -(n4 : ℚ) - 1 by linarith)]
      linarith
  · -- 0 ≤ n2, 0 ≤ n3, 0 ≤ n4: already in the truncated grid
    have e : domRep ((n1 : ℚ)/2, (n2 : ℚ)/2, (n3 : ℚ)/2, (n4 : ℚ)/2)
        = ((n1 : ℚ)/2, (n2 : ℚ)/2, (n3 : ℚ)/2, (n4 : ℚ)/2) := by
      unfold domRep
      dsimp only
      rw [if_neg (not_lt.mpr (half_nonneg h2)), if_neg (not_lt.mpr (half_nonneg h3)),
        if_neg (not_lt.mpr (half_nonneg h4))]
    refine ⟨?_, ?_⟩
    · rw [e]
      refine List.mem_filter.mpr ⟨hu, ?_⟩
      unfold partPred
      dsimp only
      have hq2 : (0 : ℚ) ≤ ((n2 : ℤ) : ℚ)/2 := half_nonneg (by omega)
      have hq3 : (0 : ℚ) ≤ ((n3 : ℤ) : ℚ)/2 := half_nonneg (by omega)
      have hq4 : (0 : ℚ) ≤ ((n4 : ℤ) : ℚ)/2 := half_nonneg (by omega)
      rw [if_neg (not_lt.mpr hq2), if_neg (not_lt.mpr hq3), if_neg (not_lt.mpr hq4)]
      simp only [Bool.and_eq_true, decide_eq_true_eq]
      refine ⟨by omega, ?_⟩
      refine le_min (le_trans (by norm_num) hq2)
        (le_min (le_trans (by norm_num) hq3) (le_trans (by norm_num) hq4))
    · intro y hy2 hy3 hy4
      rw [e]

set_option maxHeartbeats 200000

/-! ### Concrete combination-table entries for the collision -/

set_option maxRecDepth 4000 in
unseal Rat.add Rat.mul Rat.sub Rat.inv in
theorem flips_getD_0 : flips.getD 0 (0, 0, 0, 0) = ((1 : ℚ), 1, 1, 1) := by decide

set_option maxRecDepth 4000 in
unseal Rat.add Rat.mul Rat.sub Rat.inv in
theorem flips_getD_1 : flips.getD 1 (0, 0, 0, 0) = ((-1 : ℚ), -1, 1, 1) := by decide

set_option maxRecDepth 8000 in
unseal Rat.add Rat.mul Rat.sub Rat.inv in
theorem gp_getD_0 : grid_part.getD 0 (0, 0, 0, 0) = hv (-9) (-1) 1 1 := by
  rw [grid_part_eq]
  decide

set_option maxRecDepth 8000 in
unseal Rat.add Rat.mul Rat.sub Rat.inv in
theorem gp_getD_471 : grid_part.getD 471 (0, 0, 0, 0) = hv 9 1 1 1 := by
  rw [grid_part_eq]
  decide

set_option maxRecDepth 4000 in
unseal Rat.add Rat.mul Rat.sub Rat.inv in
theorem cross_prod_eq :
    vmul ((1 : ℚ), 1, 1, 1) (hv (-9) (-1) 1 1)
      = vmul ((-1 : ℚ), -1, 1, 1) (hv 9 1 1 1) := by decide

/-- Two distinct (flip row, truncated index) pairs store the same code: the
combination-table map is not injective. -/
theorem allcombo_collision :
    (allcombo_idx.getD 0 []).getD 0 0 = (allcombo_idx.getD 1 []).getD 471 0 := by
  have h0 : (0 : ℕ) < flips.length := by rw [flips_len]; omega
  have h1 : (1 : ℕ) < flips.length := by rw [flips_len]; omega
  have ht0 : (0 : ℕ) < grid_part.length := by rw [grid_part_length_eq]; omega
  have ht471 : (471 : ℕ) < grid_part.length := by rw [grid_part_length_eq]; omega
  obtain ⟨i1, hi1, hg1, hval1⟩ := allcombo_spec 0 0 h0 ht0
  obtain ⟨i2, hi2, hg2, hval2⟩ := allcombo_spec 1 471 h1 ht471
  have heq : vmul (flips.getD 0 (0, 0, 0, 0)) (grid_part.getD 0 (0, 0, 0, 0))
      = vmul (flips.getD 1 (0, 0, 0, 0)) (grid_part.getD 471 (0, 0, 0, 0)) :=
    ((congrArg₂ vmul flips_getD_0 gp_getD_0).trans cross_prod_eq).trans
      (congrArg₂ vmul flips_getD_1 gp_getD_471).symm
  have h12 : get_grid.get ⟨i1, hi1⟩ = get_grid.get ⟨i2, hi2⟩ :=
    hg1.trans (heq.trans hg2.symm)
  have hieq : i1 = i2 := congrArg Fin.val (grid_nodup.get_inj_iff.mp h12)
  exact hval1.trans ((congrArg (fun n : ℕ => (n : ℤ) + idx_offset) hieq).trans hval2.symm)

/-! ### The ten claims -/

/-- C1: for every batch, `quantize` (with `return_idx=True`) returns
reconstructed rows that are all members of the full grid, and `by_idxs` applied
to the returned codes yields exactly the returned rows (encode-then-decode
round-trip exactness). -/
theorem c1_quantize_roundtrip (X : List V4) :
    (∀ v ∈ (quantize X).1, v ∈ get_grid) ∧
      by_idxs (quantize X).2 = some (quantize X).1 := by
  constructor
  · intro v hv
    obtain ⟨x, hx, rfl⟩ := List.mem_map.mp hv
    exact (quantize1_roundtrip x).1
  · exact mapM_some_of (fun x => (quantize1 x).1) (fun x => (quantize1 x).2) X
      fun x _ => (quantize1_roundtrip x).2

/-- Witness for C1 at the batch `[0]`. -/
theorem c1_quantize_roundtrip_witness :
    (quantize1 ((0 : ℚ), 0, 0, 0)).1 ∈ (quantize [((0 : ℚ), 0, 0, 0)]).1 ∧
      (quantize1 ((0 : ℚ), 0, 0, 0)).1 ∈ get_grid := by
  have hm : (quantize1 ((0 : ℚ), 0, 0, 0)).1 ∈ (quantize [((0 : ℚ), 0, 0, 0)]).1 :=
    List.mem_singleton.mpr rfl
  exact ⟨hm, (c1_quantize_roundtrip [((0 : ℚ), 0, 0, 0)]).1 _ hm⟩

/-- C2: for every code in the valid biased index range, the decoded grid point
is a fixed point of the encoder and re-encodes to the same code
(decode-then-encode round trip). -/
theorem c2_decode_encode (c : ℤ)
    (hc : idx_offset ≤ c ∧ c < idx_offset + (get_grid.length : ℤ)) :
    ∃ v : V4, by_idxs1 c = some v ∧ quantize1 v = (v, c) := by
  have hoff : idx_offset = -(2 ^ 15) := rfl
  have hi : (c - idx_offset).toNat < get_grid.length := by omega
  have hc2 : c = ((c - idx_offset).toNat : ℤ) + idx_offset := by omega
  refine ⟨get_grid.get ⟨(c - idx_offset).toNat, hi⟩, ?_, ?_⟩
  · exact (congrArg by_idxs1 hc2).trans (by_idxs1_valid _ hi)
  · have hfix := quantize1_fixed (List.get_mem _ _ _) (c - idx_offset).toNat hi rfl
    rw [hfix]
    exact Prod.ext rfl hc2.symm

/-- Witness for C2 at the lowest valid code. -/
theorem c2_decode_encode_witness :
    (idx_offset ≤ (-32768 : ℤ) ∧ (-32768 : ℤ) < idx_offset + (get_grid.length : ℤ)) ∧
      ∃ v : V4, by_idxs1 (-32768) = some v ∧ quantize1 v = (v, -32768) := by
  have hc : idx_offset ≤ (-32768 : ℤ) ∧ (-32768 : ℤ) < idx_offset + (get_grid.length : ℤ) := by
    have h1 := grid_length_eq
    have h2 : idx_offset = -(2 ^ 15) := rfl
    omega
  exact ⟨hc, c2_decode_encode (-32768) hc⟩

/-- C3: for every input row, the reconstructed vector of `quantize` lies in the
full grid and attains the minimum squared Euclidean distance to the input over
the whole grid, so the two-level search agrees with brute force. -/
theorem c3_quantize_nearest (x : V4) :
    (quantize1 x).1 ∈ get_grid ∧
      ∀ g ∈ get_grid, dist2 x (quantize1 x).1 ≤ dist2 x g := by
  obtain ⟨t, ht, i, hi, htdef, hval1, hval2, hgrid⟩ := quantize1_spec x
  have hmem : (quantize1 x).1 ∈ get_grid := by
    rw [hval1.trans hgrid.symm]
    exact List.get_mem _ _ _
  refine ⟨hmem, ?_⟩
  intro g hg
  have hu : vmul (maskOf x) g ∈ get_grid := by
    rw [maskOf_eq_signVec, vmul_signVec]
    exact grid_closed_signs _ _ _ _ (maskBits_even x) hg
  obtain ⟨hdm, hdom⟩ := domRep_spec hu
  obtain ⟨⟨k, hk⟩, hkval⟩ := List.mem_iff_get.mp hdm
  obtain ⟨hm, hbound⟩ := roundIdx_min (xpartOf x) grid_part grid_part_ne_nil
  have e1 : dist2 x (quantize1 x).1 = dist2 (xpartOf x) (grid_part.get ⟨t, ht⟩) := by
    have ha : dist2 x (quantize1 x).1
        = dist2 x (vmul (maskOf x) (grid_part.get ⟨t, ht⟩)) := congrArg (dist2 x) hval1
    have hb : dist2 x (vmul (maskOf x) (grid_part.get ⟨t, ht⟩))
        = dist2 (vmul (maskOf x) (xpartOf x)) (vmul (maskOf x) (grid_part.get ⟨t, ht⟩)) :=
      congrArg (fun z => dist2 z (vmul (maskOf x) (grid_part.get ⟨t, ht⟩)))
        (mask_xpart_inv x).symm
    exact (ha.trans hb).trans (dist2_mask x (xpartOf x) (grid_part.get ⟨t, ht⟩))
  have e2 : dist2 (xpartOf x) (grid_part.get ⟨t, ht⟩)
      ≤ dist2 (xpartOf x) (grid_part.get ⟨k, hk⟩) := by
    subst htdef
    exact hbound k hk
  have e3 : dist2 (xpartOf x) (grid_part.get ⟨k, hk⟩)
      = dist2 (xpartOf x) (domRep (vmul (maskOf x) g)) :=
    congrArg (dist2 (xpartOf x)) hkval
  have e4 : dist2 (xpartOf x) (domRep (vmul (maskOf x) g))
      ≤ dist2 (xpartOf x) (vmul (maskOf x) g) :=
    hdom (xpartOf x) (abs_nonneg _) (abs_nonneg _) (abs_nonneg _)
  have e5 : dist2 (xpartOf x) (vmul (maskOf x) g) = dist2 x g := by
    have ha : dist2 (xpartOf x) (vmul (maskOf x) g)
        = dist2 (vmul (maskOf x) x) (vmul (maskOf x) g) :=
      congrArg (fun z => dist2 z (vmul (maskOf x) g)) (xpartOf_eq_vmul x)
    exact ha.trans (dist2_mask x x g)
  calc dist2 x (quantize1 x).1
      = dist2 (xpartOf x) (grid_part.get ⟨t, ht⟩) := e1
    _ ≤ dist2 (xpartOf x) (grid_part.get ⟨k, hk⟩) := e2
    _ = dist2 (xpartOf x) (domRep (vmul (maskOf x) g)) := e3
    _ ≤ dist2 (xpartOf x) (vmul (maskOf x) g) := e4
    _ = dist2 x g := e5

/-- Witness for C3 at the zero row against a concrete grid point. -/
theorem c3_quantize_nearest_witness :
    ((1 : ℚ)/2, (1 : ℚ)/2, (1 : ℚ)/2, (1 : ℚ)/2) ∈ get_grid ∧
      dist2 ((0 : ℚ), 0, 0, 0) (quantize1 ((0 : ℚ), 0, 0, 0)).1
        ≤ dist2 ((0 : ℚ), 0, 0, 0) ((1 : ℚ)/2, (1 : ℚ)/2, (1 : ℚ)/2, (1 : ℚ)/2) := by
  have hp : ((1 : ℚ)/2, (1 : ℚ)/2, (1 : ℚ)/2, (1 : ℚ)/2) ∈ get_grid :=
    grid_mem_of 1 1 1 1 (by norm_num) (by norm_num) (by norm_num) (by norm_num)
      ⟨0, by omega⟩ ⟨0, by omega⟩ ⟨0, by omega⟩ ⟨0, by omega⟩
      (by omega) (by omega) (by omega) (by omega) (by decide) (by decide)
  exact ⟨hp, (c3_quantize_nearest ((0 : ℚ), 0, 0, 0)).2 _ hp⟩

/-- C4: corrected.  Every combination-table entry is the exact biased full-grid
index of the corresponding flipped truncated point, and every full-grid point is
reached by some (flip row, truncated index) pair; but the map is NOT a
bijection: two distinct pairs collide on the same entry, and the grid size 1976
differs from 8 × 481 = 3848. -/
theorem c4_combination_table :
    (∀ r t : ℕ, ∀ hr : r < flips.length, ∀ ht : t < grid_part.length,
        ∃ i : ℕ, ∃ hi : i < get_grid.length,
          get_grid.get ⟨i, hi⟩
              = vmul (flips.getD r (0, 0, 0, 0)) (grid_part.getD t (0, 0, 0, 0)) ∧
            (allcombo_idx.getD r []).getD t 0 = (i : ℤ) + idx_offset) ∧
      (∀ p ∈ get_grid, ∃ r t : ℕ, r < flips.length ∧ t < grid_part.length ∧
          vmul (flips.getD r (0, 0, 0, 0)) (grid_part.getD t (0, 0, 0, 0)) = p) ∧
      (allcombo_idx.getD 0 []).getD 0 0 = (allcombo_idx.getD 1 []).getD 471 0 ∧
      get_grid.length ≠ flips.length * grid_part.length := by
  refine ⟨fun r t hr ht => allcombo_spec r t hr ht, fun p hp => grid_reached hp,
    allcombo_collision, ?_⟩
  rw [grid_length_eq, flips_len, grid_part_length_eq]
  decide

/-- C4 counterexample: the pair (0, 0) and the distinct pair (1, 471) store the
same table entry, and the claimed size identity |grid| = |flips| × |grid_part|
is false (1976 ≠ 3848). -/
theorem c4_not_bijective :
    (allcombo_idx.getD 0 []).getD 0 0 = (allcombo_idx.getD 1 []).getD 471 0 ∧
      ¬(get_grid.length = flips.length * grid_part.length) := by
  refine ⟨allcombo_collision, ?_⟩
  rw [grid_length_eq, flips_len, grid_part_length_eq]
  decide

/-- Witness for C4 at the pair (0, 0). -/
theorem c4_combination_table_witness :
    ((0 : ℕ) < flips.length ∧ (0 : ℕ) < grid_part.length) ∧
      ∃ i : ℕ, ∃ hi : i < get_grid.length,
        get_grid.get ⟨i, hi⟩
            = vmul (flips.getD 0 (0, 0, 0, 0)) (grid_part.getD 0 (0, 0, 0, 0)) ∧
          (allcombo_idx.getD 0 []).getD 0 0 = (i : ℤ) + idx_offset := by
  have h0 : (0 : ℕ) < flips.length := by rw [flips_len]; omega
  have ht0 : (0 : ℕ) < grid_part.length := by rw [grid_part_length_eq]; omega
  exact ⟨⟨h0, ht0⟩, c4_combination_table.1 0 0 h0 ht0⟩

/-- C5: corrected.  The grid builder returns 1976 points, not 256. -/
theorem c5_grid_size : get_grid.length = 1976 := grid_length_eq

/-- C5 counterexample: the grid does not contain 256 points. -/
theorem c5_not_256 : get_grid.length ≠ 256 := by
  rw [grid_length_eq]
  decide

/-- C6: `round`'s selection over a grid with its parallel norm table maximizes
the score 2·(x·g) − ‖g‖², and that argmax is exactly the first-occurrence
argmin of squared Euclidean distance in grid order. -/
theorem c6_round_refinement (x : V4) (L : List V4) (hL : L ≠ []) :
    roundScores x L (L.map fun g => dot g g) = L.map (fun g => 2 * dot x g - dot g g) ∧
      roundIdx x L (L.map fun g => dot g g)
          = argmax (roundScores x L (L.map fun g => dot g g)) ∧
      roundIdx x L (L.map fun g => dot g g) = specNearestIdx x L :=
  ⟨roundScores_map x L (fun g => dot g g), rfl, roundIdx_eq_specNearestIdx x L hL⟩

/-- Witness for C6 on a one-point grid. -/
theorem c6_round_refinement_witness :
    ([((1 : ℚ), 0, 0, 0)] : List V4) ≠ [] ∧
      roundIdx ((0 : ℚ), 0, 0, 0) [((1 : ℚ), 0, 0, 0)]
          ([((1 : ℚ), 0, 0, 0)].map fun g => dot g g)
        = specNearestIdx ((0 : ℚ), 0, 0, 0) [((1 : ℚ), 0, 0, 0)] := by
  have hne : ([((1 : ℚ), 0, 0, 0)] : List V4) ≠ [] := by simp
  exact ⟨hne, (c6_round_refinement ((0 : ℚ), 0, 0, 0) [((1 : ℚ), 0, 0, 0)] hne).2.2⟩

/-- C7: every full-grid point has half-integer components (odd numerator over
2), its component sum is exactly an even integer, its squared norm is at most
27, and the norm table is exactly the componentwise squared norm of the grid. -/
theorem c7_grid_invariants :
    (∀ p ∈ get_grid,
        (∃ n1 n2 n3 n4 : ℤ, Odd n1 ∧ Odd n2 ∧ Odd n3 ∧ Odd n4 ∧
            p = ((n1 : ℚ)/2, (n2 : ℚ)/2, (n3 : ℚ)/2, (n4 : ℚ)/2)) ∧
          (∃ k : ℤ, vsum p = 2 * k) ∧ sqnorm p ≤ 27) ∧
      grid_norm = get_grid.map sqnorm := by
  constructor
  · intro p hp
    obtain ⟨n1, n2, n3, n4, rfl, ho1, ho2, ho3, ho4, hb1, hb2, hb3, hb4, hpar, hnorm⟩ :=
      grid_coords hp
    refine ⟨⟨n1, n2, n3, n4, ho1, ho2, ho3, ho4, rfl⟩, ?_, ?_⟩
    · obtain ⟨k, hk⟩ : ∃ k : ℤ, n1 + n2 + n3 + n4 = 4 * k :=
        ⟨(n1 + n2 + n3 + n4)/4, by omega⟩
      refine ⟨k, ?_⟩
      rw [vsum_halves, hk]
      push_cast
      ring
    · rw [sqnorm_halves]
      exact sqnorm_le_iff.mpr hnorm
  · rfl

/-- Witness for C7 at the grid point (1/2, 1/2, 1/2, 1/2). -/
theorem c7_grid_invariants_witness :
    ((1 : ℚ)/2, (1 : ℚ)/2, (1 : ℚ)/2, (1 : ℚ)/2) ∈ get_grid ∧
      sqnorm ((1 : ℚ)/2, (1 : ℚ)/2, (1 : ℚ)/2, (1 : ℚ)/2) ≤ 27 := by
  have hp : ((1 : ℚ)/2, (1 : ℚ)/2, (1 : ℚ)/2, (1 : ℚ)/2) ∈ get_grid :=
    grid_mem_of 1 1 1 1 (by norm_num) (by norm_num) (by norm_num) (by norm_num)
      ⟨0, by omega⟩ ⟨0, by omega⟩ ⟨0, by omega⟩ ⟨0, by omega⟩
      (by omega) (by omega) (by omega) (by omega) (by decide) (by decide)
  exact ⟨hp, (c7_grid_invariants.1 _ hp).2.2⟩

/-- C8: for every input row the corrected sign mask has an even number of
negative entries, its 4-bit code is one of the 8 even-popcount patterns of
`raw_idx`, and the `idx_map` lookup lands on an enumerated flip row that equals
the mask itself. -/
theorem c8_mask_parity (x : V4) :
    negCount (maskOf x) % 2 = 0 ∧
      (to_int (maskBitsRow (maskOf x))).toNat ∈ raw_idx ∧
      idx_map.getD (to_int (maskBitsRow (maskOf x))).toNat 0 < flips.length ∧
      flips.getD (idx_map.getD (to_int (maskBitsRow (maskOf x))).toNat 0) (0, 0, 0, 0)
        = maskOf x := by
  have hev := maskBits_even x
  have htoint : (to_int (maskBitsRow (maskOf x))).toNat
      = bitsInt (maskBit0 x) (decide (x.2.1 < 0)) (decide (x.2.2.1 < 0))
          (decide (x.2.2.2 < 0)) := by
    rw [maskOf_eq_signVec x, to_int_signVec]
    exact Int.toNat_natCast _
  obtain ⟨r, hr, hrv, hridx⟩ := mask_row x
  refine ⟨?_, ?_, ?_, ?_⟩
  · rw [maskOf_eq_signVec x, negCount_signVec]
    exact hev
  · rw [htoint]
    exact bits_mem_raw _ _ _ _ hev
  · rw [← hridx]
    exact hr
  · exact (congrArg (fun n => flips.getD n (0, 0, 0, 0)) hridx.symm).trans hrv

/-- C9: `by_idxs` is a pure biased table lookup: for an int16 code the
bias-removed value is never negative, the lookup returns exactly the indexed
grid row whenever that value is in range, and it is an indexing error
(no result) exactly when it is out of range. -/
theorem c9_by_idxs_contract (c : ℤ) (hc : -(2 ^ 15) ≤ c ∧ c < 2 ^ 15) :
    0 ≤ c - idx_offset ∧
      (c - idx_offset < (get_grid.length : ℤ) →
        ∃ i : ℕ, ∃ hi : i < get_grid.length, (i : ℤ) = c - idx_offset ∧
          by_idxs1 c = some (get_grid.get ⟨i, hi⟩)) ∧
      ((get_grid.length : ℤ) ≤ c - idx_offset → by_idxs1 c = none) := by
  have hoff : idx_offset = -(2 ^ 15) := rfl
  refine ⟨by omega, ?_, fun h => by_idxs1_none c h⟩
  intro hlt
  have hi : (c - idx_offset).toNat < get_grid.length := by omega
  have hc2 : c = ((c - idx_offset).toNat : ℤ) + idx_offset := by omega
  exact ⟨(c - idx_offset).toNat, hi, by omega,
    (congrArg by_idxs1 hc2).trans (by_idxs1_valid _ hi)⟩

/-- Witness for C9 at the lowest int16 code. -/
theorem c9_by_idxs_contract_witness :
    (-(2 ^ 15) ≤ (-32768 : ℤ) ∧ (-32768 : ℤ) < 2 ^ 15) ∧
      0 ≤ (-32768 : ℤ) - idx_offset := by
  have hc : -(2 ^ 15) ≤ (-32768 : ℤ) ∧ (-32768 : ℤ) < 2 ^ 15 := by decide
  exact ⟨hc, (c9_by_idxs_contract (-32768) hc).1⟩

/-- C10: the biased int16 representation is faithful: the grid has at most
2¹⁶ points, every biased index fits the signed 16-bit range (so the int16 cast
is the identity there), and removing the bias from an int16 code never yields a
negative index, so the lookup cannot alias end-relative positions. -/
theorem c10_int16_faithful :
    get_grid.length ≤ 2 ^ 16 ∧
      (∀ i : ℕ, i < get_grid.length →
        toInt16 ((i : ℤ) + idx_offset) = (i : ℤ) + idx_offset ∧
          -(2 ^ 15) ≤ (i : ℤ) + idx_offset ∧ (i : ℤ) + idx_offset < 2 ^ 15) ∧
      ∀ c : ℤ, -(2 ^ 15) ≤ c → 0 ≤ c - idx_offset := by
  have hlen := grid_length_eq
  have hoff : idx_offset = -(2 ^ 15) := rfl
  refine ⟨by omega, ?_, by intro c hcv; omega⟩
  intro i hi
  exact ⟨toInt16_id (by omega) (by omega), by omega, by omega⟩

/-- Witness for C10 at index 0. -/
theorem c10_int16_faithful_witness :
    (0 : ℕ) < get_grid.length ∧
      toInt16 (((0 : ℕ) : ℤ) + idx_offset) = ((0 : ℕ) : ℤ) + idx_offset := by
  have h0 : (0 : ℕ) < get_grid.length := by
    rw [grid_length_eq]
    omega
  exact ⟨h0, (c10_int16_faithful.2.1 0 h0).1⟩

end QuipD4
